import Mathlib

/-!
# NBN Expense Tracker: domain state store and derived calculators

A shallow embedding of the client-side state layer
(`frontend/src/context/AppContext.js`), of the budget, category-total and
savings-suggestion helpers (`frontend/src/utils/helpers.js`), of
`getBudgetProgress` (`frontend/src/pages/Budget.js`), of `formatRelativeTime` and
`getColorForBudget` (`frontend/src/utils/formatters.js`) and of the tag list
and the filtered list of `frontend/src/pages/Expenses.js`.

Modelling conventions.

* A JavaScript number that is finite is an exact rational (`ℚ`). The helpers
  are first given in exact arithmetic; `getBudgetStatus` and
  `generateSavingsSuggestions`, whose tests compare rounded values, are also
  given in IEEE double precision (`roundDouble`, names ending in `Double`).
  A field that may be absent (`undefined`, `null`) is an `Option`. A division
  whose result is not a finite number (division by zero) yields `none`.
* An asynchronous store operation is a function of its arguments and of the
  answer of the remote collaborator (`Except ApiError α`). It yields the ordered
  list of effects the operation performs (reducer dispatches and toasts) and
  what its caller receives (`Except.error` when the operation re-throws).
  Running an operation on its own folds its dispatches over the state.
* A plain object is the list of its entries in insertion order. A date is its
  time value in milliseconds, and the current moment is an argument.
-/

namespace NBNExpenseTracker

/-! ## Data model -/

/-- Server-assigned opaque identity of an entity. -/
abbrev EntityId := String

/-- Subscription entity as exchanged with the remote collaborator. -/
structure Subscription where
  id : EntityId
  name : String
  cost : ℚ
  billing_frequency : String
  next_due_date : String
  category : String
  description : Option String
  is_active : Bool
deriving DecidableEq, Repr

/-- Expense entity. -/
structure Expense where
  id : EntityId
  amount : ℚ
  category : Option String
  tags : Option (List String)
  notes : Option String
  date : String
deriving DecidableEq, Repr

/-- Budget entity; `category` absent means an overall budget. -/
structure Budget where
  id : EntityId
  type : String
  category : Option String
  limit : Option ℚ
deriving DecidableEq, Repr

/-- Entry of `budget_alerts` in the dashboard snapshot. -/
structure BudgetAlert where
  category : Option String
  type : String
  current : ℚ
  limit : ℚ
  exceeded_by : ℚ
deriving DecidableEq, Repr

/-- Dashboard snapshot (`dashboardData`), received wholesale from the collaborator. -/
structure DashboardData where
  total_yearly_projection : Option ℚ
  current_monthly_spending : Option ℚ
  current_yearly_spending : Option ℚ
  category_breakdown : Option (List (String × ℚ))
  upcoming_subscriptions : List Subscription
  budget_alerts : List BudgetAlert
  savings_suggestions : List String
deriving DecidableEq, Repr

/-- User preferences (`state.preferences`). -/
structure Preferences where
  dark_mode : Bool
  notifications_enabled : Bool
  alert_days_before_due : Int
  currency : String
deriving DecidableEq, Repr

/-- Object with a subset of the preference keys (payload of `SET_PREFERENCES`). -/
structure PreferencesPatch where
  dark_mode : Option Bool
  notifications_enabled : Option Bool
  alert_days_before_due : Option Int
  currency : Option String
deriving DecidableEq, Repr

/-- Store state (`initialState` gives its shape). -/
structure State where
  dashboardData : DashboardData
  subscriptions : List Subscription
  expenses : List Expense
  budgets : List Budget
  loading : Bool
  error : Option String
  preferences : Preferences
deriving DecidableEq, Repr

/-- The `initialState` constant of AppContext.js. -/
def initialState : State :=
  { dashboardData :=
      { total_yearly_projection := some 0
        current_monthly_spending := some 0
        current_yearly_spending := some 0
        category_breakdown := some []
        upcoming_subscriptions := []
        budget_alerts := []
        savings_suggestions := [] }
    subscriptions := []
    expenses := []
    budgets := []
    loading := false
    error := none
    preferences :=
      { dark_mode := false
        notifications_enabled := true
        alert_days_before_due := 7
        currency := "INR" } }

/-! ## Reducer -/

/-- Reducer actions: one constructor per entry of `actionTypes`, carrying the payload. -/
inductive Action where
  | SET_LOADING (payload : Bool)
  | SET_ERROR (payload : String)
  | SET_DASHBOARD_DATA (payload : DashboardData)
  | SET_SUBSCRIPTIONS (payload : List Subscription)
  | ADD_SUBSCRIPTION (payload : Subscription)
  | UPDATE_SUBSCRIPTION (payload : Subscription)
  | DELETE_SUBSCRIPTION (payload : EntityId)
  | SET_EXPENSES (payload : List Expense)
  | ADD_EXPENSE (payload : Expense)
  | UPDATE_EXPENSE (payload : Expense)
  | DELETE_EXPENSE (payload : EntityId)
  | SET_BUDGETS (payload : List Budget)
  | ADD_BUDGET (payload : Budget)
  | UPDATE_BUDGET (payload : Budget)
  | DELETE_BUDGET (payload : EntityId)
  | SET_PREFERENCES (payload : PreferencesPatch)
  | CLEAR_ERROR
deriving DecidableEq, Repr

/-- Object spread of a preference patch over a preference set:
every key of the patch overrides, every other key is kept. -/
def mergePreferences (p : Preferences) (q : PreferencesPatch) : Preferences :=
  { dark_mode := q.dark_mode.getD p.dark_mode
    notifications_enabled := q.notifications_enabled.getD p.notifications_enabled
    alert_days_before_due := q.alert_days_before_due.getD p.alert_days_before_due
    currency := q.currency.getD p.currency }

/-- The reducer `appReducer` of AppContext.js. -/
def appReducer (state : State) (action : Action) : State :=
  match action with
  | .SET_LOADING payload => { state with loading := payload }
  | .SET_ERROR payload => { state with error := some payload, loading := false }
  | .CLEAR_ERROR => { state with error := none }
  | .SET_DASHBOARD_DATA payload => { state with dashboardData := payload }
  | .SET_SUBSCRIPTIONS payload => { state with subscriptions := payload }
  | .ADD_SUBSCRIPTION payload =>
      { state with subscriptions := state.subscriptions ++ [payload] }
  | .UPDATE_SUBSCRIPTION payload =>
      { state with
        subscriptions := state.subscriptions.map
          (fun sub => if sub.id = payload.id then payload else sub) }
  | .DELETE_SUBSCRIPTION payload =>
      { state with
        subscriptions := state.subscriptions.filter (fun sub => decide (sub.id ≠ payload)) }
  | .SET_EXPENSES payload => { state with expenses := payload }
  | .ADD_EXPENSE payload => { state with expenses := payload :: state.expenses }
  | .UPDATE_EXPENSE payload =>
      { state with
        expenses := state.expenses.map
          (fun exp => if exp.id = payload.id then payload else exp) }
  | .DELETE_EXPENSE payload =>
      { state with
        expenses := state.expenses.filter (fun exp => decide (exp.id ≠ payload)) }
  | .SET_BUDGETS payload => { state with budgets := payload }
  | .ADD_BUDGET payload => { state with budgets := state.budgets ++ [payload] }
  | .UPDATE_BUDGET payload =>
      { state with
        budgets := state.budgets.map
          (fun budget => if budget.id = payload.id then payload else budget) }
  | .DELETE_BUDGET payload =>
      { state with
        budgets := state.budgets.filter (fun budget => decide (budget.id ≠ payload)) }
  | .SET_PREFERENCES payload =>
      { state with preferences := mergePreferences state.preferences payload }

/-! ## Store operations -/

/-- Request body of a subscription create or update (a subscription without its id). -/
structure SubscriptionData where
  name : String
  cost : ℚ
  billing_frequency : String
  next_due_date : String
  category : String
  description : Option String
deriving DecidableEq, Repr

/-- Request body of an expense create or update. -/
structure ExpenseData where
  amount : ℚ
  category : Option String
  tags : List String
  notes : Option String
  date : String
deriving DecidableEq, Repr

/-- Request body of a budget create or update. -/
structure BudgetData where
  type : String
  category : Option String
  limit : Option ℚ
deriving DecidableEq, Repr

/-- Filter object accepted by `fetchExpenses`. -/
structure ExpenseFilters where
  category : Option String
  start_date : Option String
  end_date : Option String
  limit : Option Nat
deriving DecidableEq, Repr

/-- Rejection of a collaborator call: `detail` is `error.response?.data?.detail`,
`message` is `error.message`. -/
structure ApiError where
  detail : Option String
  message : Option String
deriving DecidableEq, Repr

/-- What a store operation does to the outside: a reducer dispatch or a toast. -/
inductive Effect where
  | dispatch (action : Action)
  | toastSuccess (message : String)
  | toastError (message : String)
deriving DecidableEq, Repr

/-- Outcome of running one store operation: its effects in program order and
what the caller gets back (`Except.error` when the operation re-throws). -/
structure OpRun (α : Type) where
  effects : List Effect
  result : Except ApiError α

/-- JavaScript truthiness of a possibly absent string. -/
def truthy : Option String → Bool
  | some s => decide (s ≠ "")
  | none => false

/-- The JavaScript expression `a || b` on possibly absent strings. -/
def jsOr (a b : Option String) : Option String :=
  if truthy a then a else b

/-- The JavaScript expression `a || d` where `d` is a string literal. -/
def jsOrDefault (a : Option String) (d : String) : String :=
  match a with
  | some s => if s ≠ "" then s else d
  | none => d

/-- The helper `handleError(error, customMessage)` of the provider. -/
def handleError (error : ApiError) (customMessage : Option String) : List Effect :=
  let message :=
    jsOrDefault (jsOr (jsOr customMessage error.detail) error.message) "An error occurred"
  [Effect.dispatch (Action.SET_ERROR message), Effect.toastError message]

/-- Operation `fetchDashboardData`. -/
def fetchDashboardData (response : Except ApiError DashboardData) : OpRun Unit :=
  match response with
  | .ok data =>
      { effects := [.dispatch (.SET_LOADING true), .dispatch (.SET_DASHBOARD_DATA data),
          .dispatch (.SET_LOADING false)]
        result := .ok () }
  | .error error =>
      { effects := [.dispatch (.SET_LOADING true)]
          ++ handleError error (some "Failed to fetch dashboard data")
          ++ [.dispatch (.SET_LOADING false)]
        result := .ok () }

/-- Operation `fetchSubscriptions`. -/
def fetchSubscriptions (response : Except ApiError (List Subscription)) : OpRun Unit :=
  match response with
  | .ok data => { effects := [.dispatch (.SET_SUBSCRIPTIONS data)], result := .ok () }
  | .error error =>
      { effects := handleError error (some "Failed to fetch subscriptions"), result := .ok () }

/-- Operation `createSubscription`. -/
def createSubscription (_subscriptionData : SubscriptionData)
    (response : Except ApiError Subscription) : OpRun Subscription :=
  match response with
  | .ok data =>
      { effects := [.dispatch (.SET_LOADING true), .dispatch (.ADD_SUBSCRIPTION data),
          .toastSuccess "Subscription created successfully", .dispatch (.SET_LOADING false)]
        result := .ok data }
  | .error error =>
      { effects := [.dispatch (.SET_LOADING true)]
          ++ handleError error (some "Failed to create subscription")
          ++ [.dispatch (.SET_LOADING false)]
        result := .error error }

/-- Operation `updateSubscription`. -/
def updateSubscription (_id : EntityId) (_subscriptionData : SubscriptionData)
    (response : Except ApiError Subscription) : OpRun Subscription :=
  match response with
  | .ok data =>
      { effects := [.dispatch (.SET_LOADING true), .dispatch (.UPDATE_SUBSCRIPTION data),
          .toastSuccess "Subscription updated successfully", .dispatch (.SET_LOADING false)]
        result := .ok data }
  | .error error =>
      { effects := [.dispatch (.SET_LOADING true)]
          ++ handleError error (some "Failed to update subscription")
          ++ [.dispatch (.SET_LOADING false)]
        result := .error error }

/-- Operation `deleteSubscription`. -/
def deleteSubscription (id : EntityId) (response : Except ApiError Unit) : OpRun Unit :=
  match response with
  | .ok _ =>
      { effects := [.dispatch (.SET_LOADING true), .dispatch (.DELETE_SUBSCRIPTION id),
          .toastSuccess "Subscription deleted successfully", .dispatch (.SET_LOADING false)]
        result := .ok () }
  | .error error =>
      { effects := [.dispatch (.SET_LOADING true)]
          ++ handleError error (some "Failed to delete subscription")
          ++ [.dispatch (.SET_LOADING false)]
        result := .ok () }

/-- Query parameters built by `fetchExpenses`: a field is appended when it is truthy. -/
def expenseQueryParams (filters : ExpenseFilters) : List (String × String) :=
  (if truthy filters.category then [("category", filters.category.getD "")] else [])
    ++ (if truthy filters.start_date then [("start_date", filters.start_date.getD "")] else [])
    ++ (if truthy filters.end_date then [("end_date", filters.end_date.getD "")] else [])
    ++ (match filters.limit with
        | some n => if n ≠ 0 then [("limit", toString n)] else []
        | none => [])

/-- Operation `fetchExpenses`. -/
def fetchExpenses (_filters : ExpenseFilters)
    (response : Except ApiError (List Expense)) : OpRun Unit :=
  match response with
  | .ok data => { effects := [.dispatch (.SET_EXPENSES data)], result := .ok () }
  | .error error =>
      { effects := handleError error (some "Failed to fetch expenses"), result := .ok () }

/-- Operation `createExpense`. -/
def createExpense (_expenseData : ExpenseData)
    (response : Except ApiError Expense) : OpRun Expense :=
  match response with
  | .ok data =>
      { effects := [.dispatch (.SET_LOADING true), .dispatch (.ADD_EXPENSE data),
          .toastSuccess "Expense created successfully", .dispatch (.SET_LOADING false)]
        result := .ok data }
  | .error error =>
      { effects := [.dispatch (.SET_LOADING true)]
          ++ handleError error (some "Failed to create expense")
          ++ [.dispatch (.SET_LOADING false)]
        result := .error error }

/-- Operation `updateExpense`. -/
def updateExpense (_id : EntityId) (_expenseData : ExpenseData)
    (response : Except ApiError Expense) : OpRun Expense :=
  match response with
  | .ok data =>
      { effects := [.dispatch (.SET_LOADING true), .dispatch (.UPDATE_EXPENSE data),
          .toastSuccess "Expense updated successfully", .dispatch (.SET_LOADING false)]
        result := .ok data }
  | .error error =>
      { effects := [.dispatch (.SET_LOADING true)]
          ++ handleError error (some "Failed to update expense")
          ++ [.dispatch (.SET_LOADING false)]
        result := .error error }

/-- Operation `deleteExpense`. -/
def deleteExpense (id : EntityId) (response : Except ApiError Unit) : OpRun Unit :=
  match response with
  | .ok _ =>
      { effects := [.dispatch (.SET_LOADING true), .dispatch (.DELETE_EXPENSE id),
          .toastSuccess "Expense deleted successfully", .dispatch (.SET_LOADING false)]
        result := .ok () }
  | .error error =>
      { effects := [.dispatch (.SET_LOADING true)]
          ++ handleError error (some "Failed to delete expense")
          ++ [.dispatch (.SET_LOADING false)]
        result := .ok () }

/-- Operation `fetchBudgets`. -/
def fetchBudgets (response : Except ApiError (List Budget)) : OpRun Unit :=
  match response with
  | .ok data => { effects := [.dispatch (.SET_BUDGETS data)], result := .ok () }
  | .error error =>
      { effects := handleError error (some "Failed to fetch budgets"), result := .ok () }

/-- Operation `createBudget`. -/
def createBudget (_budgetData : BudgetData)
    (response : Except ApiError Budget) : OpRun Budget :=
  match response with
  | .ok data =>
      { effects := [.dispatch (.SET_LOADING true), .dispatch (.ADD_BUDGET data),
          .toastSuccess "Budget created successfully", .dispatch (.SET_LOADING false)]
        result := .ok data }
  | .error error =>
      { effects := [.dispatch (.SET_LOADING true)]
          ++ handleError error (some "Failed to create budget")
          ++ [.dispatch (.SET_LOADING false)]
        result := .error error }

/-- Operation `updateBudget`. -/
def updateBudget (_id : EntityId) (_budgetData : BudgetData)
    (response : Except ApiError Budget) : OpRun Budget :=
  match response with
  | .ok data =>
      { effects := [.dispatch (.SET_LOADING true), .dispatch (.UPDATE_BUDGET data),
          .toastSuccess "Budget updated successfully", .dispatch (.SET_LOADING false)]
        result := .ok data }
  | .error error =>
      { effects := [.dispatch (.SET_LOADING true)]
          ++ handleError error (some "Failed to update budget")
          ++ [.dispatch (.SET_LOADING false)]
        result := .error error }

/-- Operation `deleteBudget`. -/
def deleteBudget (id : EntityId) (response : Except ApiError Unit) : OpRun Unit :=
  match response with
  | .ok _ =>
      { effects := [.dispatch (.SET_LOADING true), .dispatch (.DELETE_BUDGET id),
          .toastSuccess "Budget deleted successfully", .dispatch (.SET_LOADING false)]
        result := .ok () }
  | .error error =>
      { effects := [.dispatch (.SET_LOADING true)]
          ++ handleError error (some "Failed to delete budget")
          ++ [.dispatch (.SET_LOADING false)]
        result := .ok () }

/-- Operation `clearError`. -/
def clearError : List Effect :=
  [.dispatch .CLEAR_ERROR]

/-- State change of one effect: a dispatch runs the reducer, a toast leaves the state. -/
def applyEffect (state : State) : Effect → State
  | .dispatch action => appReducer state action
  | .toastSuccess _ => state
  | .toastError _ => state

/-- State reached from `state` when the given effects happen in order. -/
def applyEffects (state : State) (effects : List Effect) : State :=
  effects.foldl applyEffect state

/-- State after an operation has run to completion on its own from `state`. -/
def stateAfter {α : Type} (state : State) (run : OpRun α) : State :=
  applyEffects state run.effects

/-! ## Derived calculators -/

/-- Division of two numbers; `none` when the divisor is zero, where JavaScript
yields `Infinity` or `NaN` instead of a finite number. -/
def jsDiv (a b : ℚ) : Option ℚ :=
  if b = 0 then none else some (a / b)

/-- The JavaScript expression `x || 0` on a possibly absent number. -/
def numOrZero (x : Option ℚ) : ℚ :=
  match x with
  | some v => if v ≠ 0 then v else 0
  | none => 0

/-- The helper `calculateBudgetPercentage(spent, budget)` of helpers.js.
The guard `!budget || budget === 0` holds for an absent budget and for 0. -/
def calculateBudgetPercentage (spent : ℚ) (budget : Option ℚ) : Option ℚ :=
  match budget with
  | none => some 0
  | some b =>
      if b = 0 then some 0
      else (jsDiv spent b).map (fun ratio => min (ratio * 100) 100)

/-- The helper `getBudgetStatus(spent, budget)` of helpers.js. -/
def getBudgetStatus (spent : ℚ) (budget : Option ℚ) : Option String :=
  (calculateBudgetPercentage spent budget).map (fun percentage =>
    if percentage ≥ 100 then "danger"
    else if percentage ≥ 80 then "warning"
    else "safe")

/-- Object returned by `getBudgetProgress`. -/
structure BudgetProgress where
  current : ℚ
  percentage : Option ℚ
  status : Option String
deriving DecidableEq, Repr

/-- The function `getBudgetProgress(budget)` of pages/Budget.js, with the
dashboard snapshot it reads from the store as an explicit argument. -/
def getBudgetProgress (dashboardData : DashboardData) (budget : Budget) : BudgetProgress :=
  let categoryBreakdown := dashboardData.category_breakdown.getD []
  let currentSpending :=
    if truthy budget.category then
      numOrZero (categoryBreakdown.lookup (budget.category.getD ""))
    else if budget.type = "monthly" then
      numOrZero dashboardData.current_monthly_spending
    else
      numOrZero dashboardData.current_yearly_spending
  { current := currentSpending
    percentage := calculateBudgetPercentage currentSpending budget.limit
    status := getBudgetStatus currentSpending budget.limit }

/-! ## Category totals and savings suggestions -/

/-- The assignment `obj[key] = value` on a plain object whose values are
numbers, held as its entries in insertion order: an existing key is overwritten
in place, a new key goes last. Keys are category names, not names that every
object inherits (such as "constructor"), and not integer-like. -/
def objSet (obj : List (String × ℚ)) (key : String) (value : ℚ) : List (String × ℚ) :=
  match obj with
  | [] => [(key, value)]
  | (k, v) :: rest =>
      if k = key then (k, value) :: rest else (k, v) :: objSet rest key value

/-- The category an expense is counted under: `expense.category || 'other'`. -/
def expenseCategory (expense : Expense) : String :=
  jsOrDefault expense.category "other"

/-- The callback of the `reduce` in calculateTotalsByCategory:
`acc[category] = (acc[category] || 0) + expense.amount`. -/
def addExpenseToTotals (acc : List (String × ℚ)) (expense : Expense) : List (String × ℚ) :=
  objSet acc (expenseCategory expense)
    (numOrZero (acc.lookup (expenseCategory expense)) + expense.amount)

/-- The helper `calculateTotalsByCategory(expenses)` of helpers.js. -/
def calculateTotalsByCategory (expenses : List Expense) : List (String × ℚ) :=
  expenses.foldl addExpenseToTotals []

/-- The two kinds of advice pushed by `generateSavingsSuggestions`, with the
values that go into the text. -/
inductive Suggestion where
  | reviewSubscriptions (count : Nat) (totalSavings : ℚ)
  | reduceCategory (category : String) (amount : ℚ)
deriving DecidableEq, Repr

/-- The method `toFixed(0)`: the nearest integer, a tie going away from zero,
with the sign of a negative number kept in front. Magnitudes of 10^21 and more,
which JavaScript prints with an exponent, are not modelled. -/
def toFixed0 (x : ℚ) : String :=
  if x < 0 then "-" ++ toString (Int.floor (-x + 1 / 2)).toNat
  else toString (Int.floor (x + 1 / 2)).toNat

/-- Text of a suggestion (the two template literals of generateSavingsSuggestions). -/
def Suggestion.render : Suggestion → String
  | .reviewSubscriptions count totalSavings =>
      "Consider reviewing " ++ toString count ++ " expensive subscriptions to save up to ₹"
        ++ toFixed0 totalSavings ++ " annually"
  | .reduceCategory category amount =>
      "Consider reducing spending on " ++ category ++ " where you've spent ₹"
        ++ toFixed0 amount ++ " this year"

/-- The suggestions of `generateSavingsSuggestions(subscriptions, expenses)` in
the order in which they are pushed, before they are turned into text. -/
def savingsSuggestionItems (subscriptions : List Subscription) (expenses : List Expense) :
    List Suggestion :=
  let expensiveSubscriptions :=
    subscriptions.filter (fun sub => sub.is_active && decide (sub.cost > 500))
  let suggestions : List Suggestion :=
    if expensiveSubscriptions.length > 0 then
      [Suggestion.reviewSubscriptions expensiveSubscriptions.length
        (expensiveSubscriptions.foldl
          (fun sum sub =>
            sum + (if sub.billing_frequency = "monthly" then sub.cost * 12 else sub.cost))
          0)]
    else []
  let categoryTotals := calculateTotalsByCategory expenses
  let totalExpenses := (categoryTotals.map Prod.snd).foldl (fun sum amount => sum + amount) 0
  categoryTotals.foldl
    (fun suggestions entry =>
      if entry.2 > totalExpenses * 0.3 then
        suggestions ++ [Suggestion.reduceCategory entry.1 entry.2]
      else suggestions)
    suggestions

/-- The helper `generateSavingsSuggestions(subscriptions, expenses)` of helpers.js. -/
def generateSavingsSuggestions (subscriptions : List Subscription) (expenses : List Expense) :
    List String :=
  (savingsSuggestionItems subscriptions expenses).map Suggestion.render

/-- Whether a suggestion is the one about subscriptions. -/
def Suggestion.isReviewSubscriptions : Suggestion → Bool
  | .reviewSubscriptions _ _ => true
  | .reduceCategory _ _ => false

/-- Category and amount named by a category suggestion. -/
def Suggestion.categoryEntry : Suggestion → Option (String × ℚ)
  | .reviewSubscriptions _ _ => none
  | .reduceCategory category amount => some (category, amount)

/-- Yearly cost counted for a subscription: twelve times the cost of a monthly
one, the cost itself otherwise. -/
def annualCost (sub : Subscription) : ℚ :=
  if sub.billing_frequency = "monthly" then sub.cost * 12 else sub.cost

/-- Sum of the amounts of the expenses counted under a category. -/
def categorySum (expenses : List Expense) (category : String) : ℚ :=
  ((expenses.filter (fun e => decide (expenseCategory e = category))).map
    (fun e => e.amount)).sum

/-! ## Formatters -/

/-- The function `formatRelativeTime(date)` of formatters.js. The argument is
the time value in milliseconds of `new Date(date)`, `none` for a date that is
absent or invalid; `now` is the time value of `new Date()`. -/
def formatRelativeTime (date : Option Int) (now : Int) : String :=
  match date with
  | none => ""
  | some time =>
      let diffTime : Int := time - now
      let diffDays : Int := Int.ceil ((diffTime : ℚ) / (1000 * 60 * 60 * 24))
      if diffDays = 0 then "Today"
      else if diffDays = 1 then "Tomorrow"
      else if diffDays = -1 then "Yesterday"
      else if diffDays > 1 then "In " ++ toString diffDays ++ " days"
      else toString diffDays.natAbs ++ " days ago"

/-- Number of the calendar day of a time value, for a time zone `offset`
milliseconds ahead of UTC. -/
def calendarDay (offset time : Int) : Int :=
  Int.floor (((time + offset : Int) : ℚ) / (1000 * 60 * 60 * 24))

/-! ## Durable preferences and initialization -/

/-- What `localStorage.getItem('preferences')` gives the provider, seen through
`JSON.parse`: nothing (`null` or the empty string), a text that `JSON.parse`
rejects, or the parsed value, of which the four preference keys are kept. -/
inductive StoredItem where
  | absent
  | unparsable (text : String)
  | parsed (value : PreferencesPatch)
deriving DecidableEq, Repr

/-- The item written by `localStorage.setItem('preferences', JSON.stringify(p))`
for a full preference set: read back, it is an object with the four keys and
the same values. -/
def storedPreferences (p : Preferences) : StoredItem :=
  .parsed
    { dark_mode := some p.dark_mode
      notifications_enabled := some p.notifications_enabled
      alert_days_before_due := some p.alert_days_before_due
      currency := some p.currency }

/-- The operation `updatePreferences(newPreferences)`: its dispatch and the item
it writes under the key "preferences". `state` is the state the provider was
rendered with, whose preferences the written object is spread from. -/
def updatePreferences (state : State) (newPreferences : PreferencesPatch) :
    List Effect × StoredItem :=
  ([Effect.dispatch (Action.SET_PREFERENCES newPreferences)],
    storedPreferences (mergePreferences state.preferences newPreferences))

/-- First part of the initialization effect: load of the saved preferences.
A payload that cannot be parsed is logged and dispatches nothing. -/
def loadPreferences (savedPreferences : StoredItem) : List Effect :=
  match savedPreferences with
  | .absent => []
  | .unparsable _ => []
  | .parsed preferences => [Effect.dispatch (Action.SET_PREFERENCES preferences)]

/-- The filter object of a call `fetchExpenses()` without argument. -/
def noFilters : ExpenseFilters :=
  { category := none, start_date := none, end_date := none, limit := none }

/-- The initialization effect of the provider: load of the saved preferences,
then the four fetches, taken here in the schedule in which the collaborator
answers them in the order of the calls. -/
def initializeApp (savedPreferences : StoredItem)
    (dashboard : Except ApiError DashboardData)
    (subscriptions : Except ApiError (List Subscription))
    (expenses : Except ApiError (List Expense))
    (budgets : Except ApiError (List Budget)) : List Effect :=
  loadPreferences savedPreferences
    ++ (fetchDashboardData dashboard).effects
    ++ (fetchSubscriptions subscriptions).effects
    ++ (fetchExpenses noFilters expenses).effects
    ++ (fetchBudgets budgets).effects

/-! ## Expenses page: tags and filtered list -/

/-- The function `addTag(tag)` of pages/Expenses.js: the test reads the tags of
the rendered form data, the update appends to the current ones. -/
def addTag (formDataTags : List String) (tag : String) (prev : List String) : List String :=
  if tag ≠ "" ∧ tag ∉ formDataTags then prev ++ [tag] else prev

/-- The function `removeTag(tagToRemove)` of pages/Expenses.js. -/
def removeTag (tagToRemove : String) (prev : List String) : List String :=
  prev.filter (fun tag => decide (tag ≠ tagToRemove))

/-- A call of one of the two tag functions. -/
inductive TagCall where
  | addTag (tag : String)
  | removeTag (tagToRemove : String)
deriving DecidableEq, Repr

/-- One call made from a form that has been rendered with the current tags. -/
def applyTagCall (tags : List String) : TagCall → List String
  | .addTag tag => addTag tags tag tags
  | .removeTag tagToRemove => removeTag tagToRemove tags

/-- The tag list after a sequence of calls, starting from the empty list. -/
def runTagCalls (calls : List TagCall) : List String :=
  calls.foldl applyTagCall []

/-- The method `text.includes(search)` of a string. -/
def jsIncludes (text search : String) : Bool :=
  decide (search.toList <:+: text.toList)

/-- The callback of the `filter` in `filteredExpenses`. An optional chain on an
absent `notes` or `tags` is `undefined`, which counts as false. Lower-casing is
that of ASCII letters. -/
def expenseMatches (searchTerm categoryFilter dateFilter : String) (expense : Expense) :
    Bool :=
  let notesMatch : Option Bool :=
    expense.notes.map (fun notes => jsIncludes notes.toLower searchTerm.toLower)
  let tagsMatch : Option Bool :=
    expense.tags.map (fun tags =>
      tags.any (fun tag => jsIncludes tag.toLower searchTerm.toLower))
  let matchesSearch := notesMatch.getD false || tagsMatch.getD false
  let matchesCategory :=
    decide (categoryFilter = "") || decide (expense.category = some categoryFilter)
  let matchesDate := decide (dateFilter = "") || expense.date.startsWith dateFilter
  matchesSearch && matchesCategory && matchesDate

/-- The list `filteredExpenses` of pages/Expenses.js: the filter, then the sort
of the page, which is an argument (`Array.prototype.sort` with the comparator
chosen by `sortBy`). -/
def filteredExpenses (sort : List Expense → List Expense) (expenses : List Expense)
    (searchTerm categoryFilter dateFilter : String) : List Expense :=
  sort (expenses.filter (expenseMatches searchTerm categoryFilter dateFilter))

/-- The sort of the page for `sortBy === 'amount'`: the comparator
`b.amount - a.amount`, in a stable sort. -/
def sortByAmount (expenses : List Expense) : List Expense :=
  expenses.mergeSort (fun a b => decide (b.amount ≤ a.amount))

/-! ## Budget colour -/

/-- The function `getColorForBudget(amount, budget)` of formatters.js. -/
def getColorForBudget (amount : ℚ) (budget : Option ℚ) : Option String :=
  match budget with
  | none => some "text-gray-600"
  | some b =>
      if b = 0 then some "text-gray-600"
      else (jsDiv amount b).map (fun ratio =>
        if ratio * 100 ≥ 100 then "text-red-600"
        else if ratio * 100 ≥ 80 then "text-yellow-600"
        else "text-green-600")

/-! ## Double-precision arithmetic

The helpers above compute with exact rationals. The definitions of this section
compute as JavaScript does, in IEEE-754 double precision: every arithmetic
result is rounded to a 53-bit significand, to the nearest value and with a tie
going to the even significand. The exponent range is not bounded, so overflow
to `Infinity` and gradual underflow are not modelled. -/

/-- Nearest integer, a tie going to the even neighbour. -/
def roundHalfEven (x : ℚ) : Int :=
  if x - Int.floor x < 1 / 2 then Int.floor x
  else if 1 / 2 < x - Int.floor x then Int.floor x + 1
  else if Int.floor x % 2 = 0 then Int.floor x
  else Int.floor x + 1

/-- Rounding of a positive value to a 53-bit significand: with `e` the exponent
of the binade of `x`, the spacing of the doubles there is `2 ^ (e - 52)`. -/
def roundPositive (x : ℚ) : ℚ :=
  (roundHalfEven (x / 2 ^ (Int.log 2 x - 52)) : ℚ) * 2 ^ (Int.log 2 x - 52)

/-- Rounding to double precision (round to nearest, ties to even). -/
def roundDouble (x : ℚ) : ℚ :=
  if 0 < x then roundPositive x
  else if x < 0 then -roundPositive (-x)
  else 0

/-- A value that is a double: rounding leaves it unchanged. -/
def IsDouble (x : ℚ) : Prop :=
  roundDouble x = x

/-- The JavaScript sum `a + b` of two doubles. -/
def doubleAdd (a b : ℚ) : ℚ :=
  roundDouble (a + b)

/-- The JavaScript product `a * b` of two doubles. -/
def doubleMul (a b : ℚ) : ℚ :=
  roundDouble (a * b)

/-- The JavaScript quotient `a / b` of two doubles; `none` when the divisor is
zero, as for `jsDiv`. -/
def doubleDiv (a b : ℚ) : Option ℚ :=
  (jsDiv a b).map roundDouble

/-- The helper `calculateBudgetPercentage(spent, budget)` of helpers.js in
double-precision arithmetic: `Math.min((spent / budget) * 100, 100)` with the
quotient and the product rounded. -/
def calculateBudgetPercentageDouble (spent : ℚ) (budget : Option ℚ) : Option ℚ :=
  match budget with
  | none => some 0
  | some b =>
      if b = 0 then some 0
      else (doubleDiv spent b).map (fun ratio => min (doubleMul ratio 100) 100)

/-- The helper `getBudgetStatus(spent, budget)` of helpers.js in
double-precision arithmetic. -/
def getBudgetStatusDouble (spent : ℚ) (budget : Option ℚ) : Option String :=
  (calculateBudgetPercentageDouble spent budget).map (fun percentage =>
    if percentage ≥ 100 then "danger"
    else if percentage ≥ 80 then "warning"
    else "safe")

/-- The literal `0.3` of generateSavingsSuggestions: the double nearest to
three tenths, 5404319552844595 / 2^54. -/
def doubleThreeTenths : ℚ :=
  roundDouble (3 / 10)

/-- The callback of the `reduce` in calculateTotalsByCategory in
double-precision arithmetic:
`acc[category] = (acc[category] || 0) + expense.amount`. -/
def addExpenseToTotalsDouble (acc : List (String × ℚ)) (expense : Expense) :
    List (String × ℚ) :=
  objSet acc (expenseCategory expense)
    (doubleAdd (numOrZero (acc.lookup (expenseCategory expense))) expense.amount)

/-- The helper `calculateTotalsByCategory(expenses)` of helpers.js in
double-precision arithmetic. -/
def calculateTotalsByCategoryDouble (expenses : List Expense) : List (String × ℚ) :=
  expenses.foldl addExpenseToTotalsDouble []

/-- The suggestions of `generateSavingsSuggestions(subscriptions, expenses)` in
the order in which they are pushed, before they are turned into text, in
double-precision arithmetic. -/
def savingsSuggestionItemsDouble (subscriptions : List Subscription)
    (expenses : List Expense) : List Suggestion :=
  let expensiveSubscriptions :=
    subscriptions.filter (fun sub => sub.is_active && decide (sub.cost > 500))
  let suggestions : List Suggestion :=
    if expensiveSubscriptions.length > 0 then
      [Suggestion.reviewSubscriptions expensiveSubscriptions.length
        (expensiveSubscriptions.foldl
          (fun sum sub =>
            doubleAdd sum
              (if sub.billing_frequency = "monthly" then doubleMul sub.cost 12 else sub.cost))
          0)]
    else []
  let categoryTotals := calculateTotalsByCategoryDouble expenses
  let totalExpenses :=
    (categoryTotals.map Prod.snd).foldl (fun sum amount => doubleAdd sum amount) 0
  categoryTotals.foldl
    (fun suggestions entry =>
      if entry.2 > doubleMul totalExpenses doubleThreeTenths then
        suggestions ++ [Suggestion.reduceCategory entry.1 entry.2]
      else suggestions)
    suggestions

/-- The helper `generateSavingsSuggestions(subscriptions, expenses)` of
helpers.js in double-precision arithmetic. -/
def generateSavingsSuggestionsDouble (subscriptions : List Subscription)
    (expenses : List Expense) : List String :=
  (savingsSuggestionItemsDouble subscriptions expenses).map Suggestion.render

/-- Total of a category as the code accumulates it: the amounts of the expenses
counted under the category, in the order of the list, added one by one in
double precision, starting from 0. -/
def categoryTotalDouble (expenses : List Expense) (category : String) : ℚ :=
  ((expenses.filter (fun e => decide (expenseCategory e = category))).map
    (fun e => e.amount)).foldl doubleAdd 0

/-- Total of all expenses as the code accumulates it: the totals of the
categories, in the order in which the categories first occur, added one by one
in double precision, starting from 0. -/
def totalExpensesDouble (expenses : List Expense) : ℚ :=
  (((expenses.map expenseCategory).eraseDups).map (categoryTotalDouble expenses)).foldl
    doubleAdd 0

/-! ## Sample data -/

/-- A sample expense. -/
def sampleExpense (id : EntityId) (amount : ℚ) : Expense :=
  { id := id, amount := amount, category := some "food", tags := some [], notes := none,
    date := "2024-01-15T00:00:00.000Z" }

/-- A sample expense with the given amount and category. -/
def expenseIn (id : EntityId) (amount : ℚ) (category : Option String) : Expense :=
  { id := id, amount := amount, category := category, tags := some [], notes := none,
    date := "2024-01-15T00:00:00.000Z" }

/-- A sample subscription. -/
def sampleSubscription (id : EntityId) (name : String) (cost : ℚ) : Subscription :=
  { id := id, name := name, cost := cost, billing_frequency := "monthly",
    next_due_date := "2024-02-01T00:00:00.000Z", category := "entertainment",
    description := none, is_active := true }

/-- A sample budget. -/
def sampleBudget (id : EntityId) (type : String) (category : Option String)
    (limit : Option ℚ) : Budget :=
  { id := id, type := type, category := category, limit := limit }

/-- A sample request body for a subscription. -/
def sampleSubscriptionData : SubscriptionData :=
  { name := "Video", cost := 649, billing_frequency := "monthly",
    next_due_date := "2024-02-01T00:00:00.000Z", category := "entertainment",
    description := none }

/-- A sample request body for an expense. -/
def sampleExpenseData : ExpenseData :=
  { amount := 120, category := some "food", tags := [], notes := none,
    date := "2024-01-15T00:00:00.000Z" }

/-- Two subscriptions, the first one active and above 500 a month. -/
def sampleSubscriptions : List Subscription :=
  [sampleSubscription "s1" "Video" 649, sampleSubscription "s2" "Music" 119]

/-- Four expenses: food 100, transport 20, food 50, no category 30. -/
def sampleExpenses : List Expense :=
  [expenseIn "e1" 100 (some "food"), expenseIn "e2" 20 (some "transport"),
    expenseIn "e3" 50 (some "food"), expenseIn "e4" 30 none]

/-- Store state with two subscriptions, ids "s1" and "s2". -/
def twoSubscriptionsState : State :=
  { initialState with
    subscriptions := [sampleSubscription "s1" "Video" 649, sampleSubscription "s2" "Music" 119] }

/-- Store state whose budget sequence holds the same entity twice. -/
def duplicateBudgetState : State :=
  { initialState with
    budgets := [sampleBudget "b1" "monthly" none (some 1000),
      sampleBudget "b1" "monthly" none (some 1000)] }

/-- Store state with two budgets of distinct ids. -/
def twoBudgetsState : State :=
  { initialState with
    budgets := [sampleBudget "b1" "monthly" none (some 1000),
      sampleBudget "b2" "yearly" (some "food") (some 5000)] }

/-- Equality of everything in two store states except the error field and the
loading flag. -/
def sameDomainData (s t : State) : Prop :=
  s.dashboardData = t.dashboardData ∧ s.subscriptions = t.subscriptions
    ∧ s.expenses = t.expenses ∧ s.budgets = t.budgets ∧ s.preferences = t.preferences

/-- A list of effects that starts with the dispatch of loading = true and ends
with the dispatch of loading = false. -/
def bracketsLoading (effects : List Effect) : Prop :=
  effects.head? = some (Effect.dispatch (Action.SET_LOADING true))
    ∧ effects.getLast? = some (Effect.dispatch (Action.SET_LOADING false))

/-- Whether an effect is a dispatch of SET_LOADING. -/
def Effect.isSetLoading : Effect → Bool
  | .dispatch (.SET_LOADING _) => true
  | _ => false

/-- A sample budget request body. -/
def sampleBudgetData : BudgetData :=
  { type := "monthly", category := some "food", limit := some 1000 }

/-- An error carrying a structured payload detail and a message. -/
def sampleApiError : ApiError :=
  { detail := some "Subscription name already exists",
    message := some "Request failed with status code 400" }

/-- An error without response: no payload detail, only a message. -/
def networkError : ApiError :=
  { detail := none, message := some "Network Error" }

/-- The double that the literal 2.4 denotes: 5404319552844595 / 2^51. -/
def doubleTwoPointFour : ℚ :=
  5404319552844595 / 2251799813685248

/-- Two expenses, the first counted under "food" and the second under
"transport". -/
def twoCategoryExpenses (food transport : ℚ) : List Expense :=
  [expenseIn "e1" food (some "food"), expenseIn "e2" transport (some "transport")]

/-- The double that the literal 0.27 denotes: 4863887597560136 / 2^54. -/
def doublePointTwoSeven : ℚ :=
  4863887597560136 / 18014398509481984

/-- The double that the literal 0.63 denotes: 5674535530486825 / 2^53. -/
def doublePointSixThree : ℚ :=
  5674535530486825 / 9007199254740992

/-- The double that the literal 0.45 denotes: 8106479329266893 / 2^54. -/
def doublePointFourFive : ℚ :=
  8106479329266893 / 18014398509481984

/-- The double that the literal 1.05 denotes: 4728779608739021 / 2^52. -/
def doubleOnePointZeroFive : ℚ :=
  4728779608739021 / 4503599627370496

/-- Expenses of 0.27 under "food" and of 0.63 under "transport"; the sum of the
two doubles is itself a double, the one that 0.9 denotes. -/
def exactSplitExpenses : List Expense :=
  twoCategoryExpenses doublePointTwoSeven doublePointSixThree

/-- Expenses of 0.45 under "food" and of 1.05 under "transport"; the sum of the
two doubles is not a double and rounds to 1.5. -/
def roundedSumExpenses : List Expense :=
  twoCategoryExpenses doublePointFourFive doubleOnePointZeroFive

/-- The initial state with the loading flag raised. -/
def loadingState : State :=
  { initialState with loading := true }

/-- The stored payload with the single key dark_mode, set to true. -/
def darkModePatch : PreferencesPatch :=
  { dark_mode := some true, notifications_enabled := none, alert_days_before_due := none,
    currency := none }

/-- The partial preference set with the single key currency, set to "USD". -/
def usdPatch : PreferencesPatch :=
  { dark_mode := none, notifications_enabled := none, alert_days_before_due := none,
    currency := some "USD" }

/-- An expense as the collaborator returns it when no notes and no tags were
given: `notes` is null and `tags` is the empty array. -/
def bareExpense : Expense :=
  { id := "e1", amount := 100, category := some "food", tags := some [], notes := none,
    date := "2024-01-15T00:00:00.000Z" }

/-- A filter with a category and with the limit 0. -/
def zeroLimitFilters : ExpenseFilters :=
  { category := some "food", start_date := none, end_date := none, limit := some 0 }

/-- A filter with a category, a start date and a limit. -/
def sampleFilters : ExpenseFilters :=
  { category := some "food", start_date := some "2024-01-01", end_date := none,
    limit := some 10 }

/-- A dashboard snapshot with the given spending figures and category breakdown. -/
def sampleDashboard (monthly yearly : ℚ) (breakdown : List (String × ℚ)) : DashboardData :=
  { total_yearly_projection := some 0
    current_monthly_spending := some monthly
    current_yearly_spending := some yearly
    category_breakdown := some breakdown
    upcoming_subscriptions := []
    budget_alerts := []
    savings_suggestions := [] }

/-! ## Store: lemmas on the reducer and on operations run alone -/

theorem stateAfter_createExpense_ok (state : State) (expenseData : ExpenseData) (e : Expense) :
    stateAfter state (createExpense expenseData (.ok e))
      = { state with expenses := e :: state.expenses, loading := false } := by
  rfl

theorem stateAfter_updateSubscription_ok (state : State) (id : EntityId)
    (subscriptionData : SubscriptionData) (e : Subscription) :
    stateAfter state (updateSubscription id subscriptionData (.ok e))
      = { state with
          subscriptions := state.subscriptions.map (fun sub => if sub.id = e.id then e else sub)
          loading := false } := by
  rfl

theorem stateAfter_deleteBudget_ok (state : State) (id : EntityId) :
    stateAfter state (deleteBudget id (.ok ()))
      = { state with
          budgets := state.budgets.filter (fun budget => decide (budget.id ≠ id))
          loading := false } := by
  rfl

theorem stateAfter_deleteBudget_error (state : State) (id : EntityId) (error : ApiError) :
    stateAfter state (deleteBudget id (.error error))
      = { state with error := some "Failed to delete budget", loading := false } := by
  rfl

theorem length_filter_add_countP {α : Type} (p : α → Bool) (l : List α) :
    (l.filter (fun a => !p a)).length + l.countP p = l.length := by
  induction l with
  | nil => rfl
  | cons a t ih =>
      cases h : p a
      · simp [List.filter_cons, List.countP_cons, h]
        omega
      · simp [List.filter_cons, List.countP_cons, h]
        omega

/-! ## Store: claims -/

/-- C1: after a successful createExpense (reducer action ADD_EXPENSE with the
entity returned by the collaborator), that entity is the first element of the
expense sequence and the previous expenses follow in their previous order;
this holds for every previous sequence, the empty one included. -/
theorem createExpense_prepends (state : State) (expenseData : ExpenseData) (e : Expense) :
    (appReducer state (Action.ADD_EXPENSE e)).expenses = e :: state.expenses
    ∧ (stateAfter state (createExpense expenseData (.ok e))).expenses = e :: state.expenses
    ∧ (stateAfter state (createExpense expenseData (.ok e))).expenses.head? = some e
    ∧ (stateAfter state (createExpense expenseData (.ok e))).expenses.tail = state.expenses := by
  rw [stateAfter_createExpense_ok]
  exact ⟨rfl, rfl, rfl, rfl⟩

/-- C2: after updateSubscription(id, data) succeeds, the collaborator having
answered the request for `id` with the updated subscription (the entity it
returns carries that id), the subscription sequence has the same length as
before, every element whose id differs from `id` is unchanged and at the same
index, and every element that had id `id` is replaced, at its old index, by the
entity the collaborator returned. -/
theorem updateSubscription_replaces_in_place (state : State) (id : EntityId)
    (subscriptionData : SubscriptionData) (e : Subscription) (hid : e.id = id) :
    (stateAfter state (updateSubscription id subscriptionData (.ok e))).subscriptions.length
        = state.subscriptions.length
    ∧ ∀ (i : Nat) (sub : Subscription), state.subscriptions[i]? = some sub →
        (sub.id ≠ id →
          (stateAfter state
            (updateSubscription id subscriptionData (.ok e))).subscriptions[i]? = some sub)
        ∧ (sub.id = id →
          (stateAfter state
            (updateSubscription id subscriptionData (.ok e))).subscriptions[i]? = some e) := by
  rw [stateAfter_updateSubscription_ok]
  subst hid
  refine ⟨by simp, ?_⟩
  intro i sub hsub
  constructor
  · intro hne
    simp [List.getElem?_map, hsub, hne]
  · intro heq
    simp [List.getElem?_map, hsub, heq]

theorem updateSubscription_replaces_in_place_witness :
    (sampleSubscription "s1" "Video" 699).id = "s1"
    ∧ (stateAfter twoSubscriptionsState
        (updateSubscription "s1" sampleSubscriptionData
          (.ok (sampleSubscription "s1" "Video" 699)))).subscriptions.length = 2
    ∧ (stateAfter twoSubscriptionsState
        (updateSubscription "s1" sampleSubscriptionData
          (.ok (sampleSubscription "s1" "Video" 699)))).subscriptions[0]?
        = some (sampleSubscription "s1" "Video" 699)
    ∧ (stateAfter twoSubscriptionsState
        (updateSubscription "s1" sampleSubscriptionData
          (.ok (sampleSubscription "s1" "Video" 699)))).subscriptions[1]?
        = some (sampleSubscription "s2" "Music" 119) :=
  ⟨rfl,
    (updateSubscription_replaces_in_place twoSubscriptionsState "s1" sampleSubscriptionData
      (sampleSubscription "s1" "Video" 699) rfl).1,
    ((updateSubscription_replaces_in_place twoSubscriptionsState "s1" sampleSubscriptionData
      (sampleSubscription "s1" "Video" 699) rfl).2 0 _ rfl).2 rfl,
    ((updateSubscription_replaces_in_place twoSubscriptionsState "s1" sampleSubscriptionData
      (sampleSubscription "s1" "Video" 699) rfl).2 1 (sampleSubscription "s2" "Music" 119) rfl).1
      (by simp [sampleSubscription])⟩

/-- C3: after a successful deleteBudget(id) (reducer action DELETE_BUDGET with
payload id) no element of the budget sequence has that id, and the remaining
elements are exactly the previous elements with a different id, each as often as
before and in their previous relative order. -/
theorem deleteBudget_removes_id (state : State) (id : EntityId) :
    (∀ b ∈ (stateAfter state (deleteBudget id (.ok ()))).budgets, b.id ≠ id)
    ∧ (∀ b : Budget, b ∈ (stateAfter state (deleteBudget id (.ok ()))).budgets
        ↔ b ∈ state.budgets ∧ b.id ≠ id)
    ∧ (∀ b : Budget, b.id ≠ id →
        (stateAfter state (deleteBudget id (.ok ()))).budgets.count b = state.budgets.count b)
    ∧ List.Sublist (stateAfter state (deleteBudget id (.ok ()))).budgets state.budgets
    ∧ (stateAfter state (deleteBudget id (.ok ()))).budgets
        = state.budgets.filter (fun b => decide (b.id ≠ id))
    ∧ (appReducer state (Action.DELETE_BUDGET id)).budgets
        = (stateAfter state (deleteBudget id (.ok ()))).budgets := by
  rw [stateAfter_deleteBudget_ok]
  refine ⟨?_, ?_, ?_, ?_, rfl, rfl⟩
  · intro b hb
    simpa using (List.mem_filter.mp hb).2
  · intro b
    simp [List.mem_filter]
  · intro b hb
    exact List.count_filter (decide_eq_true hb)
  · exact List.filter_sublist _

theorem deleteBudget_removes_id_witness :
    sampleBudget "b1" "monthly" none (some 1000) ∈ twoBudgetsState.budgets
    ∧ sampleBudget "b1" "monthly" none (some 1000)
        ∉ (stateAfter twoBudgetsState (deleteBudget "b1" (.ok ()))).budgets
    ∧ (stateAfter twoBudgetsState (deleteBudget "b1" (.ok ()))).budgets
        = [sampleBudget "b2" "yearly" (some "food") (some 5000)] :=
  ⟨by simp [twoBudgetsState],
    fun h => (deleteBudget_removes_id twoBudgetsState "b1").1 _ h rfl,
    by rw [stateAfter_deleteBudget_ok]; simp [twoBudgetsState, initialState, sampleBudget]⟩

/-- C4 (counterexample): the budget sequence holds two elements with id "b1";
after a successful deleteBudget("b1") its length is 0, which is two less than
before and not one less. -/
theorem deleteBudget_length_counterexample :
    sampleBudget "b1" "monthly" none (some 1000) ∈ duplicateBudgetState.budgets
    ∧ (sampleBudget "b1" "monthly" none (some 1000)).id = "b1"
    ∧ duplicateBudgetState.budgets.length = 2
    ∧ (stateAfter duplicateBudgetState (deleteBudget "b1" (.ok ()))).budgets.length = 0
    ∧ (stateAfter duplicateBudgetState (deleteBudget "b1" (.ok ()))).budgets.length + 1
        ≠ duplicateBudgetState.budgets.length := by
  rw [stateAfter_deleteBudget_ok]
  simp [duplicateBudgetState, initialState, sampleBudget]

/-- C4 (amended): when exactly one element of the budget sequence carries the
id, the length of the budget sequence after a successful deleteBudget(id) is
exactly one less than before. -/
theorem deleteBudget_length_pred (state : State) (id : EntityId)
    (hone : state.budgets.countP (fun b => decide (b.id = id)) = 1) :
    (stateAfter state (deleteBudget id (.ok ()))).budgets.length + 1 = state.budgets.length
    ∧ (stateAfter state (deleteBudget id (.ok ()))).budgets.length
        = state.budgets.length - 1 := by
  rw [stateAfter_deleteBudget_ok]
  have h := length_filter_add_countP (fun b : Budget => decide (b.id = id)) state.budgets
  rw [hone] at h
  have hfun : (fun budget : Budget => decide (budget.id ≠ id))
      = (fun a : Budget => !decide (a.id = id)) := by
    funext a
    simp
  simp only [hfun]
  omega

theorem deleteBudget_length_pred_witness :
    twoBudgetsState.budgets.countP (fun b => decide (b.id = "b1")) = 1
    ∧ (stateAfter twoBudgetsState (deleteBudget "b1" (.ok ()))).budgets.length + 1
        = twoBudgetsState.budgets.length
    ∧ (stateAfter twoBudgetsState (deleteBudget "b1" (.ok ()))).budgets.length
        = twoBudgetsState.budgets.length - 1 :=
  ⟨by simp [twoBudgetsState, initialState, sampleBudget, List.countP_cons],
    deleteBudget_length_pred twoBudgetsState "b1"
      (by simp [twoBudgetsState, initialState, sampleBudget, List.countP_cons])⟩

/-- C5 (counterexample): no budget carries the id "b9" and the collaborator
answers the delete with success; the budget sequence is unchanged and the error
field is still null afterwards. -/
theorem deleteBudget_absent_counterexample :
    (∀ b ∈ twoBudgetsState.budgets, b.id ≠ "b9")
    ∧ (stateAfter twoBudgetsState (deleteBudget "b9" (.ok ()))).budgets
        = twoBudgetsState.budgets
    ∧ (stateAfter twoBudgetsState (deleteBudget "b9" (.ok ()))).error = none := by
  rw [stateAfter_deleteBudget_ok]
  simp [twoBudgetsState, initialState, sampleBudget]

/-- C5 (amended): when no element of the budget sequence carries the id,
deleteBudget(id) leaves the budget sequence unchanged whatever the collaborator
answers; when the collaborator call fails the error field is set to the message
"Failed to delete budget", and when it succeeds the error field keeps its
previous value. -/
theorem deleteBudget_absent_id (state : State) (id : EntityId)
    (habsent : ∀ b ∈ state.budgets, b.id ≠ id) :
    (∀ response : Except ApiError Unit,
        (stateAfter state (deleteBudget id response)).budgets = state.budgets)
    ∧ (∀ error : ApiError,
        (stateAfter state (deleteBudget id (.error error))).error
          = some "Failed to delete budget")
    ∧ (stateAfter state (deleteBudget id (.ok ()))).error = state.error := by
  refine ⟨?_, ?_, ?_⟩
  · intro response
    cases response with
    | error error => rw [stateAfter_deleteBudget_error]
    | ok u =>
        cases u
        rw [stateAfter_deleteBudget_ok]
        exact List.filter_eq_self.mpr (fun b hb => decide_eq_true (habsent b hb))
  · intro error
    rw [stateAfter_deleteBudget_error]
  · rw [stateAfter_deleteBudget_ok]

theorem deleteBudget_absent_id_witness :
    (stateAfter twoBudgetsState
        (deleteBudget "b9" (.error { detail := some "Budget not found", message := none }))).budgets
      = twoBudgetsState.budgets
    ∧ (stateAfter twoBudgetsState
        (deleteBudget "b9" (.error { detail := some "Budget not found", message := none }))).error
      = some "Failed to delete budget"
    ∧ (stateAfter twoBudgetsState (deleteBudget "b9" (.ok ()))).error = none :=
  ⟨(deleteBudget_absent_id twoBudgetsState "b9"
      (by simp [twoBudgetsState, initialState, sampleBudget])).1 _,
    (deleteBudget_absent_id twoBudgetsState "b9"
      (by simp [twoBudgetsState, initialState, sampleBudget])).2.1 _,
    (deleteBudget_absent_id twoBudgetsState "b9"
      (by simp [twoBudgetsState, initialState, sampleBudget])).2.2⟩

/-! ## Calculators: lemmas -/

theorem calculateBudgetPercentage_of_ne_zero (spent b : ℚ) (hb : b ≠ 0) :
    calculateBudgetPercentage spent (some b) = some (min (spent / b * 100) 100) := by
  simp [calculateBudgetPercentage, jsDiv, hb]

/-- The division inside calculateBudgetPercentage never has a zero divisor:
the function returns a finite number on every input. -/
theorem calculateBudgetPercentage_total (spent : ℚ) (budget : Option ℚ) :
    ∃ p : ℚ, calculateBudgetPercentage spent budget = some p := by
  cases budget with
  | none => exact ⟨0, rfl⟩
  | some b =>
      by_cases hb : b = 0
      · exact ⟨0, by simp [calculateBudgetPercentage, hb]⟩
      · exact ⟨_, calculateBudgetPercentage_of_ne_zero spent b hb⟩

/-- Upper end of the range: the result never exceeds 100. -/
theorem calculateBudgetPercentage_le_hundred (spent : ℚ) (budget : Option ℚ) (p : ℚ)
    (hp : calculateBudgetPercentage spent budget = some p) : p ≤ 100 := by
  cases budget with
  | none =>
      simp [calculateBudgetPercentage] at hp
      rw [← hp]; norm_num
  | some b =>
      by_cases hb : b = 0
      · simp [calculateBudgetPercentage, hb] at hp
        rw [← hp]; norm_num
      · rw [calculateBudgetPercentage_of_ne_zero spent b hb] at hp
        injection hp with hp
        rw [← hp]
        exact min_le_right _ _

/-- Lower end of the range, for a spending and a limit that are not negative. -/
theorem calculateBudgetPercentage_nonneg (spent b p : ℚ) (hs : 0 ≤ spent) (hb : 0 ≤ b)
    (hp : calculateBudgetPercentage spent (some b) = some p) : 0 ≤ p := by
  by_cases hb0 : b = 0
  · simp [calculateBudgetPercentage, hb0] at hp
    rw [← hp]
  · rw [calculateBudgetPercentage_of_ne_zero spent b hb0] at hp
    injection hp with hp
    rw [← hp]
    exact le_min (mul_nonneg (div_nonneg hs hb) (by norm_num)) (by norm_num)

theorem hundred_le_percentage_iff (s l : ℚ) (hl : 0 < l) :
    100 ≤ min (s / l * 100) 100 ↔ l ≤ s := by
  rw [le_min_iff, div_mul_eq_mul_div, le_div_iff₀ hl]
  constructor
  · intro h
    linarith [h.1]
  · intro h
    exact ⟨by linarith, le_refl _⟩

theorem eighty_le_percentage_iff (s l : ℚ) (hl : 0 < l) :
    80 ≤ min (s / l * 100) 100 ↔ 0.8 * l ≤ s := by
  rw [le_min_iff, div_mul_eq_mul_div, le_div_iff₀ hl]
  constructor
  · intro h
    norm_num
    linarith [h.1]
  · intro h
    norm_num at h
    exact ⟨by linarith, by norm_num⟩

/-! ## Calculators: claims -/

/-- C6 (failing input): calculateBudgetPercentage(-50, 100) is -50, below the
range 0 to 100 announced by the documentation of the function: only the upper
end is clamped. -/
theorem calculateBudgetPercentage_negative :
    calculateBudgetPercentage (-50) (some 100) = some (-50)
    ∧ ¬ (0 ≤ (-50 : ℚ) ∧ (-50 : ℚ) ≤ 100) := by
  constructor
  · rw [calculateBudgetPercentage_of_ne_zero _ _ (by norm_num)]
    norm_num
  · norm_num

/-- C7: for every spending value, when the budget limit is absent or 0,
calculateBudgetPercentage returns 0 (the guard returns before the division, so
no division by zero takes place) and getBudgetStatus returns "safe". -/
theorem zero_or_absent_limit (spent : ℚ) :
    calculateBudgetPercentage spent none = some 0
    ∧ calculateBudgetPercentage spent (some 0) = some 0
    ∧ getBudgetStatus spent none = some "safe"
    ∧ getBudgetStatus spent (some 0) = some "safe" := by
  refine ⟨rfl, ?_, ?_, ?_⟩
  · simp [calculateBudgetPercentage]
  · norm_num [getBudgetStatus, calculateBudgetPercentage]
  · norm_num [getBudgetStatus, calculateBudgetPercentage]

/-- Thresholds of the status in exact arithmetic: with the percentage computed
without rounding, the status is "danger" exactly when s is at least l,
"warning" exactly when s is at least 0.8 l and below l, and "safe" exactly when
s is below 0.8 l. -/
theorem getBudgetStatus_thresholds (s l : ℚ) (hs : 0 ≤ s) (hl : 0 < l) :
    (getBudgetStatus s (some l) = some "danger" ↔ l ≤ s)
    ∧ (getBudgetStatus s (some l) = some "warning" ↔ 0.8 * l ≤ s ∧ s < l)
    ∧ (getBudgetStatus s (some l) = some "safe" ↔ s < 0.8 * l)
    ∧ (getBudgetStatus s (some l) = some "danger"
        ∨ getBudgetStatus s (some l) = some "warning"
        ∨ getBudgetStatus s (some l) = some "safe")
    ∧ ¬ (getBudgetStatus s (some l) = some "danger"
        ∧ getBudgetStatus s (some l) = some "warning")
    ∧ ¬ (getBudgetStatus s (some l) = some "danger"
        ∧ getBudgetStatus s (some l) = some "safe")
    ∧ ¬ (getBudgetStatus s (some l) = some "warning"
        ∧ getBudgetStatus s (some l) = some "safe") := by
  have _hs := hs
  have h100 := hundred_le_percentage_iff s l hl
  have h80 := eighty_le_percentage_iff s l hl
  have hlt : (0.8 : ℚ) * l < l := by
    norm_num
    linarith
  have hstatus : getBudgetStatus s (some l)
      = some (if 100 ≤ min (s / l * 100) 100 then "danger"
          else if 80 ≤ min (s / l * 100) 100 then "warning" else "safe") := by
    simp [getBudgetStatus, calculateBudgetPercentage_of_ne_zero s l (ne_of_gt hl)]
  rw [hstatus]
  by_cases hd : l ≤ s
  · have h1 : 100 ≤ min (s / l * 100) 100 := h100.mpr hd
    have h2 : ¬ s < 0.8 * l := by
      intro h
      linarith
    simp [h1, hd, h2, not_lt.mpr hd]
  · have h1 : ¬ 100 ≤ min (s / l * 100) 100 := fun h => hd (h100.mp h)
    by_cases hw : 0.8 * l ≤ s
    · have h3 : 80 ≤ min (s / l * 100) 100 := h80.mpr hw
      simp [h1, h3, hd, hw, not_lt.mpr hw, not_le.mp hd]
    · have h3 : ¬ 80 ≤ min (s / l * 100) 100 := fun h => hw (h80.mp h)
      simp [h1, h3, hd, hw, not_le.mp hw]

theorem getBudgetStatus_thresholds_witness :
    (0 : ℚ) ≤ 850 ∧ (0 : ℚ) < 1000
    ∧ (getBudgetStatus 850 (some 1000) = some "warning"
        ↔ (0.8 : ℚ) * 1000 ≤ 850 ∧ (850 : ℚ) < 1000) :=
  ⟨by norm_num, by norm_num,
    (getBudgetStatus_thresholds 850 1000 (by norm_num) (by norm_num)).2.1⟩

theorem numOrZero_some (v : ℚ) : numOrZero (some v) = v := by
  by_cases hv : v = 0
  · simp [numOrZero, hv]
  · simp [numOrZero, hv]

theorem truthy_some (c : String) (hc : c ≠ "") : truthy (some c) = true := by
  simp [truthy, hc]

/-- C9: with limit 1000, spending 850 gives percentage exactly 85 and status
"warning", spending 1000 gives percentage 100 and status "danger", spending 0
gives percentage 0 and status "safe"; getBudgetProgress returns these for an
overall monthly budget, a category budget and an overall yearly budget whose
current spending is 850, 1000 and 0. -/
theorem budget_progress_examples :
    calculateBudgetPercentage 850 (some 1000) = some 85
    ∧ getBudgetStatus 850 (some 1000) = some "warning"
    ∧ calculateBudgetPercentage 1000 (some 1000) = some 100
    ∧ getBudgetStatus 1000 (some 1000) = some "danger"
    ∧ calculateBudgetPercentage 0 (some 1000) = some 0
    ∧ getBudgetStatus 0 (some 1000) = some "safe"
    ∧ getBudgetProgress (sampleDashboard 850 0 [("food", 1000)])
        (sampleBudget "b1" "monthly" none (some 1000))
        = { current := 850, percentage := some 85, status := some "warning" }
    ∧ getBudgetProgress (sampleDashboard 850 0 [("food", 1000)])
        (sampleBudget "b2" "monthly" (some "food") (some 1000))
        = { current := 1000, percentage := some 100, status := some "danger" }
    ∧ getBudgetProgress (sampleDashboard 850 0 [("food", 1000)])
        (sampleBudget "b3" "yearly" none (some 1000))
        = { current := 0, percentage := some 0, status := some "safe" } := by
  have hne : (1000 : ℚ) ≠ 0 := by norm_num
  have p850 : calculateBudgetPercentage 850 (some 1000) = some 85 := by
    rw [calculateBudgetPercentage_of_ne_zero _ _ hne]
    norm_num
  have p1000 : calculateBudgetPercentage 1000 (some 1000) = some 100 := by
    rw [calculateBudgetPercentage_of_ne_zero _ _ hne]
    norm_num
  have p0 : calculateBudgetPercentage 0 (some 1000) = some 0 := by
    rw [calculateBudgetPercentage_of_ne_zero _ _ hne]
    norm_num
  have s850 : getBudgetStatus 850 (some 1000) = some "warning" := by
    rw [getBudgetStatus, p850]
    norm_num
  have s1000 : getBudgetStatus 1000 (some 1000) = some "danger" := by
    rw [getBudgetStatus, p1000]
    norm_num
  have s0 : getBudgetStatus 0 (some 1000) = some "safe" := by
    rw [getBudgetStatus, p0]
    norm_num
  refine ⟨p850, s850, p1000, s1000, p0, s0, ?_, ?_, ?_⟩
  · simp [getBudgetProgress, sampleDashboard, sampleBudget, truthy, numOrZero, p850, s850]
  · simp [getBudgetProgress, sampleDashboard, sampleBudget, truthy, numOrZero, List.lookup,
      p1000, s1000]
  · simp [getBudgetProgress, sampleDashboard, sampleBudget, truthy, numOrZero, p0, s0]

/-- C10: the current spending used by getBudgetProgress is the entry of
category_breakdown for budget.category when the budget has a category (0 when
the snapshot has no entry for it), otherwise current_monthly_spending for a
monthly budget and current_yearly_spending for a yearly budget (0 when the
figure is absent); the returned percentage and status are
calculateBudgetPercentage and getBudgetStatus of that spending and budget.limit. -/
theorem getBudgetProgress_current (dashboardData : DashboardData) (budget : Budget) :
    (∀ (c : String) (v : ℚ), budget.category = some c → c ≠ "" →
        (dashboardData.category_breakdown.getD []).lookup c = some v →
        (getBudgetProgress dashboardData budget).current = v)
    ∧ (∀ c : String, budget.category = some c → c ≠ "" →
        (dashboardData.category_breakdown.getD []).lookup c = none →
        (getBudgetProgress dashboardData budget).current = 0)
    ∧ ((budget.category = none ∨ budget.category = some "") → budget.type = "monthly" →
        (getBudgetProgress dashboardData budget).current
          = dashboardData.current_monthly_spending.getD 0)
    ∧ ((budget.category = none ∨ budget.category = some "") → budget.type = "yearly" →
        (getBudgetProgress dashboardData budget).current
          = dashboardData.current_yearly_spending.getD 0)
    ∧ (getBudgetProgress dashboardData budget).percentage
        = calculateBudgetPercentage (getBudgetProgress dashboardData budget).current budget.limit
    ∧ (getBudgetProgress dashboardData budget).status
        = getBudgetStatus (getBudgetProgress dashboardData budget).current budget.limit := by
  have hgetD : ∀ x : Option ℚ, numOrZero x = x.getD 0 := by
    intro x
    cases x with
    | none => rfl
    | some v => exact numOrZero_some v
  refine ⟨?_, ?_, ?_, ?_, rfl, rfl⟩
  · intro c v hc hne hv
    simp [getBudgetProgress, hc, truthy_some c hne, hv, numOrZero_some]
  · intro c hc hne hv
    simp [getBudgetProgress, hc, truthy_some c hne, hv, numOrZero]
  · intro hunset hm
    have ht : truthy budget.category = false := by
      rcases hunset with h | h <;> simp [h, truthy]
    simp [getBudgetProgress, ht, hm, hgetD]
  · intro hunset hy
    have ht : truthy budget.category = false := by
      rcases hunset with h | h <;> simp [h, truthy]
    simp [getBudgetProgress, ht, hy, hgetD]

theorem getBudgetProgress_current_witness :
    (getBudgetProgress (sampleDashboard 850 4200 [("food", 300)])
        (sampleBudget "b2" "monthly" (some "food") (some 1000))).current = 300
    ∧ (getBudgetProgress (sampleDashboard 850 4200 [("food", 300)])
        (sampleBudget "b4" "monthly" (some "transport") (some 1000))).current = 0
    ∧ (getBudgetProgress (sampleDashboard 850 4200 [("food", 300)])
        (sampleBudget "b1" "monthly" none (some 1000))).current = 850
    ∧ (getBudgetProgress (sampleDashboard 850 4200 [("food", 300)])
        (sampleBudget "b3" "yearly" none (some 1000))).current = 4200 :=
  ⟨(getBudgetProgress_current (sampleDashboard 850 4200 [("food", 300)])
      (sampleBudget "b2" "monthly" (some "food") (some 1000))).1 "food" 300 rfl
      (by decide) (by simp [sampleDashboard, List.lookup]),
    (getBudgetProgress_current (sampleDashboard 850 4200 [("food", 300)])
      (sampleBudget "b4" "monthly" (some "transport") (some 1000))).2.1 "transport" rfl
      (by decide) (by simp [sampleDashboard, List.lookup]),
    (getBudgetProgress_current (sampleDashboard 850 4200 [("food", 300)])
      (sampleBudget "b1" "monthly" none (some 1000))).2.2.1 (Or.inl rfl) rfl,
    (getBudgetProgress_current (sampleDashboard 850 4200 [("food", 300)])
      (sampleBudget "b3" "yearly" none (some 1000))).2.2.2.1 (Or.inl rfl) rfl⟩

/-! ## Category totals: lemmas -/

theorem numOrZero_eq_getD (x : Option ℚ) : numOrZero x = x.getD 0 := by
  cases x with
  | none => rfl
  | some v => exact numOrZero_some v

theorem lookup_cons_of_ne (k k1 : String) (v1 : ℚ) (rest : List (String × ℚ)) (h : k ≠ k1) :
    List.lookup k ((k1, v1) :: rest) = List.lookup k rest := by
  have hbeq : (k == k1) = false := by simpa using h
  simp [List.lookup_cons, hbeq]

theorem lookup_objSet (obj : List (String × ℚ)) (key k : String) (value : ℚ) :
    (objSet obj key value).lookup k = if k = key then some value else obj.lookup k := by
  induction obj with
  | nil =>
      by_cases h : k = key
      · simp [objSet, h]
      · simp [objSet, h, lookup_cons_of_ne k key value [] h]
  | cons entry rest ih =>
      obtain ⟨k1, v1⟩ := entry
      by_cases h1 : k1 = key
      · subst h1
        by_cases h : k = k1
        · simp [objSet, h]
        · simp [objSet, h, lookup_cons_of_ne k k1 _ rest h]
      · by_cases h : k = k1
        · have hk : ¬ k = key := fun hkey => h1 (h ▸ hkey)
          subst h
          simp [objSet, h1, hk]
        · simp [objSet, h1, lookup_cons_of_ne k k1 _ _ h, ih]

theorem keys_objSet (obj : List (String × ℚ)) (key : String) (value : ℚ) :
    (objSet obj key value).map Prod.fst
      = if key ∈ obj.map Prod.fst then obj.map Prod.fst else obj.map Prod.fst ++ [key] := by
  induction obj with
  | nil => simp [objSet]
  | cons entry rest ih =>
      obtain ⟨k1, v1⟩ := entry
      by_cases h1 : k1 = key
      · simp [objSet, h1]
      · have h2 : ¬ key = k1 := fun h => h1 h.symm
        by_cases hmem : key ∈ rest.map Prod.fst
        · simp only [objSet, h1, if_false, List.map_cons, ih, hmem, if_true,
            List.mem_cons, or_true]
        · simp only [objSet, h1, if_false, List.map_cons, ih, hmem, List.mem_cons, h2,
            or_self, List.cons_append]

theorem lookup_eq_none_iff_not_mem_keys (obj : List (String × ℚ)) (k : String) :
    obj.lookup k = none ↔ k ∉ obj.map Prod.fst := by
  induction obj with
  | nil => simp
  | cons entry rest ih =>
      obtain ⟨k1, v1⟩ := entry
      by_cases h : k = k1
      · subst h
        simp
      · rw [lookup_cons_of_ne k k1 v1 rest h, ih]
        simp [h]

theorem sum_values_objSet (obj : List (String × ℚ)) (key : String) (a : ℚ) :
    ((objSet obj key (numOrZero (obj.lookup key) + a)).map Prod.snd).sum
      = (obj.map Prod.snd).sum + a := by
  induction obj with
  | nil => simp [objSet, numOrZero]
  | cons entry rest ih =>
      obtain ⟨k1, v1⟩ := entry
      by_cases h1 : k1 = key
      · subst h1
        simp [objSet, numOrZero_some]
        ring
      · have h2 : ¬ key = k1 := fun h => h1 h.symm
        rw [lookup_cons_of_ne key k1 v1 rest h2]
        simp only [objSet, h1, if_false, List.map_cons, List.sum_cons, ih]
        ring
theorem keys_addExpenseToTotals (acc : List (String × ℚ)) (e : Expense) :
    (addExpenseToTotals acc e).map Prod.fst
      = if expenseCategory e ∈ acc.map Prod.fst then acc.map Prod.fst
        else acc.map Prod.fst ++ [expenseCategory e] := by
  rw [addExpenseToTotals, keys_objSet]

theorem keys_foldl_addExpenseToTotals (es : List Expense) (acc : List (String × ℚ)) :
    (es.foldl addExpenseToTotals acc).map Prod.fst
      = List.eraseDups.loop (es.map expenseCategory) (acc.map Prod.fst).reverse := by
  induction es generalizing acc with
  | nil => simp [List.eraseDups.loop]
  | cons e rest ih =>
      rw [List.foldl_cons, ih, keys_addExpenseToTotals, List.map_cons, List.eraseDups.loop]
      by_cases hmem : expenseCategory e ∈ acc.map Prod.fst
      · have helem : List.elem (expenseCategory e) (acc.map Prod.fst).reverse = true := by
          simpa using hmem
        simp only [hmem, if_true, helem]
      · have helem : List.elem (expenseCategory e) (acc.map Prod.fst).reverse = false := by
          simpa using hmem
        simp only [hmem, if_false, helem, List.reverse_append, List.reverse_cons,
          List.reverse_nil, List.nil_append, List.singleton_append]

theorem nodup_keys_foldl_addExpenseToTotals (es : List Expense) (acc : List (String × ℚ))
    (hacc : (acc.map Prod.fst).Nodup) :
    ((es.foldl addExpenseToTotals acc).map Prod.fst).Nodup := by
  induction es generalizing acc with
  | nil => simpa using hacc
  | cons e rest ih =>
      rw [List.foldl_cons]
      apply ih
      rw [keys_addExpenseToTotals]
      by_cases hmem : expenseCategory e ∈ acc.map Prod.fst
      · simpa only [hmem, if_true] using hacc
      · simp only [hmem, if_false]
        exact List.Nodup.append hacc (List.nodup_singleton _)
          (by simpa [List.disjoint_singleton] using hmem)

theorem mem_keys_foldl_addExpenseToTotals (es : List Expense) (acc : List (String × ℚ))
    (k : String) :
    k ∈ (es.foldl addExpenseToTotals acc).map Prod.fst
      ↔ k ∈ acc.map Prod.fst ∨ ∃ e ∈ es, expenseCategory e = k := by
  induction es generalizing acc with
  | nil => simp
  | cons e rest ih =>
      rw [List.foldl_cons, ih, keys_addExpenseToTotals]
      by_cases hmem : expenseCategory e ∈ acc.map Prod.fst
      · simp only [hmem, if_true, List.mem_cons, exists_eq_or_imp]
        constructor
        · rintro (h | h)
          · exact Or.inl h
          · exact Or.inr (Or.inr h)
        · rintro (h | h | h)
          · exact Or.inl h
          · exact Or.inl (h ▸ hmem)
          · exact Or.inr h
      · simp only [hmem, if_false, List.mem_append, List.mem_cons, List.not_mem_nil,
          or_false, exists_eq_or_imp]
        constructor
        · rintro ((h | h) | h)
          · exact Or.inl h
          · exact Or.inr (Or.inl h.symm)
          · exact Or.inr (Or.inr h)
        · rintro (h | h | h)
          · exact Or.inl (Or.inl h)
          · exact Or.inl (Or.inr h.symm)
          · exact Or.inr h

theorem categorySum_cons (e : Expense) (es : List Expense) (k : String) :
    categorySum (e :: es) k
      = (if expenseCategory e = k then e.amount else 0) + categorySum es k := by
  by_cases h : expenseCategory e = k
  · simp [categorySum, List.filter_cons, h]
  · simp [categorySum, List.filter_cons, h]

theorem lookup_foldl_addExpenseToTotals (es : List Expense) (acc : List (String × ℚ))
    (k : String) :
    numOrZero ((es.foldl addExpenseToTotals acc).lookup k)
      = numOrZero (acc.lookup k) + categorySum es k := by
  induction es generalizing acc with
  | nil => simp [categorySum]
  | cons e rest ih =>
      rw [List.foldl_cons, ih, categorySum_cons, addExpenseToTotals, lookup_objSet]
      by_cases h : expenseCategory e = k
      · subst h
        simp [numOrZero_some]
        ring
      · have h2 : ¬ k = expenseCategory e := fun hk => h hk.symm
        simp [h, h2]

theorem sum_values_foldl_addExpenseToTotals (es : List Expense) (acc : List (String × ℚ)) :
    ((es.foldl addExpenseToTotals acc).map Prod.snd).sum
      = (acc.map Prod.snd).sum + (es.map (fun e => e.amount)).sum := by
  induction es generalizing acc with
  | nil => simp
  | cons e rest ih =>
      rw [List.foldl_cons, ih, addExpenseToTotals, sum_values_objSet]
      simp
      ring

theorem entries_eq_map_keys (obj : List (String × ℚ)) (hnodup : (obj.map Prod.fst).Nodup) :
    obj = (obj.map Prod.fst).map (fun k => (k, numOrZero (obj.lookup k))) := by
  induction obj with
  | nil => rfl
  | cons entry rest ih =>
      obtain ⟨k1, v1⟩ := entry
      simp only [List.map_cons, List.nodup_cons] at hnodup
      have hrest : List.map (fun k => (k, numOrZero (List.lookup k ((k1, v1) :: rest))))
            (rest.map Prod.fst)
          = List.map (fun k => (k, numOrZero (List.lookup k rest))) (rest.map Prod.fst) := by
        apply List.map_congr_left
        intro k hk
        have hne : k ≠ k1 := fun h => hnodup.1 (h ▸ hk)
        rw [lookup_cons_of_ne k k1 v1 rest hne]
      simp only [List.map_cons, List.lookup_cons_self, numOrZero_some, hrest]
      rw [← ih hnodup.2]

/-- The totals object, entry by entry: the categories in the order of their
first occurrence, each with the sum of the amounts counted under it. -/
theorem calculateTotalsByCategory_eq (expenses : List Expense) :
    calculateTotalsByCategory expenses
      = ((expenses.map expenseCategory).eraseDups).map
          (fun k => (k, categorySum expenses k)) := by
  have hkeys : (calculateTotalsByCategory expenses).map Prod.fst
      = (expenses.map expenseCategory).eraseDups := by
    rw [calculateTotalsByCategory, keys_foldl_addExpenseToTotals]
    rfl
  have hnodup : ((calculateTotalsByCategory expenses).map Prod.fst).Nodup :=
    nodup_keys_foldl_addExpenseToTotals expenses [] (by simp)
  have hentries := entries_eq_map_keys (calculateTotalsByCategory expenses) hnodup
  rw [hkeys] at hentries
  rw [hentries]
  apply List.map_congr_left
  intro k _
  have hv := lookup_foldl_addExpenseToTotals expenses [] k
  simp only [List.lookup_nil] at hv
  rw [calculateTotalsByCategory, hv]
  simp [numOrZero]

/-! ## Category totals and suggestions: claims -/

/-- C11: calculateTotalsByCategory returns a mapping whose keys are exactly the
categories occurring in the list, an expense without a category counting under
"other", each key once, and whose value for each key is the sum of the amounts
of the expenses of that category; the three expenses 100 food, 50 food and 30
without category give food 150 and other 30. -/
theorem calculateTotalsByCategory_sums (expenses : List Expense) :
    (∀ k : String, k ∈ (calculateTotalsByCategory expenses).map Prod.fst
        ↔ ∃ e ∈ expenses, expenseCategory e = k)
    ∧ ((calculateTotalsByCategory expenses).map Prod.fst).Nodup
    ∧ (∀ (k : String) (v : ℚ), (k, v) ∈ calculateTotalsByCategory expenses
        ↔ (∃ e ∈ expenses, expenseCategory e = k) ∧ v = categorySum expenses k)
    ∧ (∀ k : String, (∃ e ∈ expenses, expenseCategory e = k) →
        (calculateTotalsByCategory expenses).lookup k = some (categorySum expenses k))
    ∧ (∀ e : Expense, e.category = none → expenseCategory e = "other")
    ∧ (∀ (e : Expense) (c : String), e.category = some c → c ≠ "" → expenseCategory e = c)
    ∧ calculateTotalsByCategory
        [expenseIn "e1" 100 (some "food"), expenseIn "e2" 50 (some "food"),
          expenseIn "e3" 30 none]
        = [("food", 150), ("other", 30)] := by
  have hmem : ∀ k : String, k ∈ (calculateTotalsByCategory expenses).map Prod.fst
      ↔ ∃ e ∈ expenses, expenseCategory e = k := by
    intro k
    rw [calculateTotalsByCategory, mem_keys_foldl_addExpenseToTotals]
    simp
  refine ⟨hmem, nodup_keys_foldl_addExpenseToTotals expenses [] (by simp), ?_, ?_, ?_, ?_, ?_⟩
  · intro k v
    rw [← hmem k]
    constructor
    · intro h
      refine ⟨List.mem_map.mpr ⟨(k, v), h, rfl⟩, ?_⟩
      rw [calculateTotalsByCategory_eq] at h
      obtain ⟨k2, _, h2⟩ := List.mem_map.mp h
      simp only [Prod.mk.injEq] at h2
      rw [← h2.2, h2.1]
    · rintro ⟨hk, hv⟩
      obtain ⟨entry, hentry, hfst⟩ := List.mem_map.mp hk
      rw [calculateTotalsByCategory_eq] at hentry ⊢
      obtain ⟨k2, hk2, h2⟩ := List.mem_map.mp hentry
      refine List.mem_map.mpr ⟨k2, hk2, ?_⟩
      rw [← h2] at hfst
      simp only at hfst
      rw [hv, hfst]
  · intro k hk
    have hkey := (hmem k).mpr hk
    have hv := lookup_foldl_addExpenseToTotals expenses [] k
    simp only [List.lookup_nil] at hv
    rw [← calculateTotalsByCategory] at hv
    cases hl : (calculateTotalsByCategory expenses).lookup k with
    | none => exact absurd hkey ((lookup_eq_none_iff_not_mem_keys _ k).mp hl)
    | some v =>
        rw [hl, numOrZero_some] at hv
        rw [hv]
        simp [numOrZero]
  · intro e he
    simp [expenseCategory, jsOrDefault, he]
  · intro e c he hc
    simp [expenseCategory, jsOrDefault, he, hc]
  · have h1 : ("food" : String) ≠ "" := by decide
    have h2 : ("food" : String) ≠ "other" := by decide
    have h3 : (("other" : String) == "food") = false := by decide
    norm_num [calculateTotalsByCategory, addExpenseToTotals, objSet, expenseCategory,
      jsOrDefault, expenseIn, numOrZero, List.lookup, h1, h2, h3]

theorem calculateTotalsByCategory_sums_witness :
    (∃ e ∈ [expenseIn "e1" 100 (some "food"), expenseIn "e2" 50 (some "food"),
        expenseIn "e3" 30 none], expenseCategory e = "other")
    ∧ (calculateTotalsByCategory
        [expenseIn "e1" 100 (some "food"), expenseIn "e2" 50 (some "food"),
          expenseIn "e3" 30 none]).lookup "other"
        = some (categorySum
            [expenseIn "e1" 100 (some "food"), expenseIn "e2" 50 (some "food"),
              expenseIn "e3" 30 none] "other") :=
  ⟨⟨expenseIn "e3" 30 none, by simp, rfl⟩,
    (calculateTotalsByCategory_sums
      [expenseIn "e1" 100 (some "food"), expenseIn "e2" 50 (some "food"),
        expenseIn "e3" 30 none]).2.2.2.1 "other" ⟨expenseIn "e3" 30 none, by simp, rfl⟩⟩

/-! ## Savings suggestions: lemmas -/

theorem foldl_add_eq_sum {α : Type} (f : α → ℚ) (l : List α) (a : ℚ) :
    l.foldl (fun sum x => sum + f x) a = a + (l.map f).sum := by
  induction l generalizing a with
  | nil => simp
  | cons x rest ih =>
      rw [List.foldl_cons, ih]
      simp
      ring

theorem foldl_push_category (entries : List (String × ℚ)) (init : List Suggestion) (t : ℚ) :
    entries.foldl
        (fun suggestions entry =>
          if entry.2 > t then suggestions ++ [Suggestion.reduceCategory entry.1 entry.2]
          else suggestions)
        init
      = init ++ (entries.filter (fun entry => decide (entry.2 > t))).map
          (fun entry => Suggestion.reduceCategory entry.1 entry.2) := by
  induction entries generalizing init with
  | nil => simp
  | cons entry rest ih =>
      rw [List.foldl_cons, ih]
      by_cases h : entry.2 > t
      · simp [h, List.filter_cons]
      · simp [h, List.filter_cons]

theorem totalExpenses_eq (expenses : List Expense) :
    ((calculateTotalsByCategory expenses).map Prod.snd).foldl (fun sum amount => sum + amount) 0
      = (expenses.map (fun e => e.amount)).sum := by
  rw [foldl_add_eq_sum (fun amount : ℚ => amount), List.map_id', zero_add,
    calculateTotalsByCategory, sum_values_foldl_addExpenseToTotals]
  simp

/-- The suggestions in closed form: the subscription suggestion when there is an
expensive subscription, then the category suggestions in the order of the
totals object. -/
theorem savingsSuggestionItems_eq (subscriptions : List Subscription)
    (expenses : List Expense) :
    savingsSuggestionItems subscriptions expenses
      = (if (subscriptions.filter (fun sub => sub.is_active && decide (sub.cost > 500))).length > 0
          then
            [Suggestion.reviewSubscriptions
              (subscriptions.filter (fun sub => sub.is_active && decide (sub.cost > 500))).length
              (((subscriptions.filter
                (fun sub => sub.is_active && decide (sub.cost > 500))).map annualCost).sum)]
          else [])
        ++ (((expenses.map expenseCategory).eraseDups).filter
              (fun k => decide (categorySum expenses k
                > (expenses.map (fun e => e.amount)).sum * 0.3))).map
            (fun k => Suggestion.reduceCategory k (categorySum expenses k)) := by
  have hannual : ∀ l : List Subscription,
      l.foldl
          (fun sum sub =>
            sum + (if sub.billing_frequency = "monthly" then sub.cost * 12 else sub.cost))
          0
        = (l.map annualCost).sum := by
    intro l
    have h := foldl_add_eq_sum annualCost l 0
    rw [zero_add] at h
    exact h
  unfold savingsSuggestionItems
  simp only []
  rw [foldl_push_category, totalExpenses_eq, calculateTotalsByCategory_eq, hannual]
  simp [List.filter_map, List.map_map, Function.comp_def]

/-! ## Order of first occurrence: lemmas on `List.eraseDups` -/

theorem eraseDups_loop_cons (a : String) (as bs : List String) :
    List.eraseDups.loop (a :: as) bs
      = if a ∈ bs then List.eraseDups.loop as bs else List.eraseDups.loop as (a :: bs) := by
  rw [List.eraseDups.loop]
  by_cases h : a ∈ bs
  · have helem : List.elem a bs = true := by simpa using h
    simp only [helem, h, if_true]
  · have helem : List.elem a bs = false := by simpa using h
    simp only [helem, h, if_false]

theorem mem_eraseDups_loop (x : String) (as bs : List String) :
    x ∈ List.eraseDups.loop as bs ↔ x ∈ bs ∨ x ∈ as := by
  induction as generalizing bs with
  | nil => simp [List.eraseDups.loop]
  | cons a rest ih =>
      rw [eraseDups_loop_cons]
      by_cases h : a ∈ bs
      · simp only [h, if_true, ih, List.mem_cons]
        constructor
        · rintro (hx | hx)
          · exact Or.inl hx
          · exact Or.inr (Or.inr hx)
        · rintro (hx | hx | hx)
          · exact Or.inl hx
          · exact Or.inl (hx ▸ h)
          · exact Or.inr hx
      · simp only [h, if_false, ih, List.mem_cons]
        constructor
        · rintro ((hx | hx) | hx)
          · exact Or.inr (Or.inl hx)
          · exact Or.inl hx
          · exact Or.inr (Or.inr hx)
        · rintro (hx | hx | hx)
          · exact Or.inl (Or.inr hx)
          · exact Or.inl (Or.inl hx)
          · exact Or.inr hx

theorem nodup_eraseDups_loop (as bs : List String) (hbs : bs.Nodup) :
    (List.eraseDups.loop as bs).Nodup := by
  induction as generalizing bs with
  | nil => simpa [List.eraseDups.loop] using hbs
  | cons a rest ih =>
      rw [eraseDups_loop_cons]
      by_cases h : a ∈ bs
      · simpa only [h, if_true] using ih bs hbs
      · simpa only [h, if_false] using ih (a :: bs) (List.nodup_cons.mpr ⟨h, hbs⟩)

theorem eraseDups_loop_concat (x : String) (as bs : List String) :
    List.eraseDups.loop (as ++ [x]) bs
      = if x ∈ bs ∨ x ∈ as then List.eraseDups.loop as bs
        else List.eraseDups.loop as bs ++ [x] := by
  induction as generalizing bs with
  | nil =>
      rw [List.nil_append, eraseDups_loop_cons]
      by_cases h : x ∈ bs
      · simp [h]
      · simp [h, List.eraseDups.loop]
  | cons a rest ih =>
      rw [List.cons_append, eraseDups_loop_cons, eraseDups_loop_cons]
      by_cases h : a ∈ bs
      · simp only [h, if_true, ih, List.mem_cons]
        have hiff : (x ∈ bs ∨ x ∈ rest) ↔ (x ∈ bs ∨ x = a ∨ x ∈ rest) := by
          constructor
          · rintro (hx | hx)
            · exact Or.inl hx
            · exact Or.inr (Or.inr hx)
          · rintro (hx | hx | hx)
            · exact Or.inl hx
            · exact Or.inl (hx ▸ h)
            · exact Or.inr hx
        simp only [hiff]
      · simp only [h, if_false, ih, List.mem_cons]
        have hiff : ((x = a ∨ x ∈ bs) ∨ x ∈ rest) ↔ (x ∈ bs ∨ x = a ∨ x ∈ rest) := by
          constructor
          · rintro ((hx | hx) | hx)
            · exact Or.inr (Or.inl hx)
            · exact Or.inl hx
            · exact Or.inr (Or.inr hx)
          · rintro (hx | hx | hx)
            · exact Or.inl (Or.inr hx)
            · exact Or.inl (Or.inl hx)
            · exact Or.inr hx
        simp only [hiff]

/-- Order of first occurrence: a further element goes last when it has not
occurred before and changes nothing when it has. -/
theorem eraseDups_concat (l : List String) (x : String) :
    (l ++ [x]).eraseDups = if x ∈ l then l.eraseDups else l.eraseDups ++ [x] := by
  have h := eraseDups_loop_concat x l []
  simp only [List.not_mem_nil, false_or] at h
  exact h

theorem mem_eraseDups (l : List String) (x : String) : x ∈ l.eraseDups ↔ x ∈ l := by
  have h := mem_eraseDups_loop x l []
  simp only [List.not_mem_nil, false_or] at h
  exact h

theorem nodup_eraseDups (l : List String) : l.eraseDups.Nodup :=
  nodup_eraseDups_loop l [] List.nodup_nil

theorem expensive_length_pos_iff (subscriptions : List Subscription) :
    (subscriptions.filter (fun sub => sub.is_active && decide (sub.cost > 500))).length > 0
      ↔ ∃ sub ∈ subscriptions, sub.is_active = true ∧ sub.cost > 500 := by
  rw [gt_iff_lt, List.length_pos_iff_exists_mem]
  constructor
  · rintro ⟨sub, hsub⟩
    rw [List.mem_filter] at hsub
    exact ⟨sub, hsub.1, by simpa using hsub.2⟩
  · rintro ⟨sub, hmem, hp⟩
    exact ⟨sub, List.mem_filter.mpr ⟨hmem, by simpa using hp⟩⟩

theorem isReviewSubscriptions_category_part (l : List String) (f : String → ℚ)
    (s : Suggestion) (hs : s ∈ l.map (fun k => Suggestion.reduceCategory k (f k))) :
    s.isReviewSubscriptions = false := by
  obtain ⟨k, _, hk⟩ := List.mem_map.mp hs
  rw [← hk]
  rfl

/-- C12: generateSavingsSuggestions emits a subscription suggestion if and only
if at least one subscription is active and costs strictly more than 500; when
emitted it is the first suggestion, it is emitted once, and it reports the
number of such subscriptions and their total annualized cost, a monthly
subscription counting twelve times its cost and any other its cost once. -/
theorem subscription_suggestion (subscriptions : List Subscription)
    (expenses : List Expense) :
    ((∃ s ∈ savingsSuggestionItems subscriptions expenses, s.isReviewSubscriptions = true)
        ↔ ∃ sub ∈ subscriptions, sub.is_active = true ∧ sub.cost > 500)
    ∧ ((∃ sub ∈ subscriptions, sub.is_active = true ∧ sub.cost > 500) →
        (savingsSuggestionItems subscriptions expenses).head?
            = some (Suggestion.reviewSubscriptions
                (subscriptions.countP (fun sub => sub.is_active && decide (sub.cost > 500)))
                (((subscriptions.filter
                  (fun sub => sub.is_active && decide (sub.cost > 500))).map annualCost).sum))
        ∧ (generateSavingsSuggestions subscriptions expenses).head?
            = some ("Consider reviewing "
                ++ toString
                    (subscriptions.countP (fun sub => sub.is_active && decide (sub.cost > 500)))
                ++ " expensive subscriptions to save up to ₹"
                ++ toFixed0 (((subscriptions.filter
                    (fun sub => sub.is_active && decide (sub.cost > 500))).map annualCost).sum)
                ++ " annually"))
    ∧ (savingsSuggestionItems subscriptions expenses).countP
        Suggestion.isReviewSubscriptions ≤ 1
    ∧ (∀ sub : Subscription, sub.billing_frequency = "monthly" →
        annualCost sub = sub.cost * 12)
    ∧ (∀ sub : Subscription, sub.billing_frequency ≠ "monthly" → annualCost sub = sub.cost) := by
  have hpos := expensive_length_pos_iff subscriptions
  refine ⟨?_, ?_, ?_, ?_, ?_⟩
  · rw [← hpos, savingsSuggestionItems_eq]
    constructor
    · rintro ⟨s, hs, hreview⟩
      by_contra hlen
      rw [if_neg hlen, List.nil_append] at hs
      rw [isReviewSubscriptions_category_part _ _ s hs] at hreview
      exact Bool.false_ne_true hreview
    · intro hlen
      rw [if_pos hlen]
      exact ⟨_, List.mem_append_left _ (List.mem_singleton.mpr rfl), rfl⟩
  · intro hex
    have hlen := hpos.mpr hex
    have hitems : (savingsSuggestionItems subscriptions expenses).head?
        = some (Suggestion.reviewSubscriptions
            (subscriptions.countP (fun sub => sub.is_active && decide (sub.cost > 500)))
            (((subscriptions.filter
              (fun sub => sub.is_active && decide (sub.cost > 500))).map annualCost).sum)) := by
      rw [savingsSuggestionItems_eq, if_pos hlen, List.countP_eq_length_filter]
      rfl
    refine ⟨hitems, ?_⟩
    rw [generateSavingsSuggestions, List.head?_map, hitems]
    rfl
  · rw [savingsSuggestionItems_eq, List.countP_append]
    have hzero : ∀ l : List Suggestion, (∀ s ∈ l, s.isReviewSubscriptions = false) →
        l.countP Suggestion.isReviewSubscriptions = 0 := by
      intro l hl
      rw [List.countP_eq_zero]
      intro s hs
      rw [hl s hs]
      exact Bool.false_ne_true
    rw [hzero _ (fun s hs => isReviewSubscriptions_category_part _ _ s hs)]
    by_cases hlen :
        (subscriptions.filter (fun sub => sub.is_active && decide (sub.cost > 500))).length > 0
    · rw [if_pos hlen]
      simp [List.countP_cons, Suggestion.isReviewSubscriptions]
    · rw [if_neg hlen]
      simp
  · intro sub hm
    simp [annualCost, hm]
  · intro sub hm
    simp [annualCost, hm]

theorem subscription_suggestion_witness :
    (∃ sub ∈ sampleSubscriptions, sub.is_active = true ∧ sub.cost > 500)
    ∧ (savingsSuggestionItems sampleSubscriptions []).head?
        = some (Suggestion.reviewSubscriptions 1 7788) := by
  have hex : ∃ sub ∈ sampleSubscriptions, sub.is_active = true ∧ sub.cost > 500 :=
    ⟨sampleSubscription "s1" "Video" 649, by simp [sampleSubscriptions], rfl,
      by norm_num [sampleSubscription]⟩
  refine ⟨hex, ?_⟩
  rw [((subscription_suggestion sampleSubscriptions []).2.1 hex).1]
  norm_num [sampleSubscriptions, sampleSubscription, annualCost, List.countP_cons,
    List.filter_cons]

/-- Category suggestions in exact arithmetic: with the totals and the product
computed without rounding, there is exactly one category suggestion for each
category whose sum strictly exceeds 30% of the sum of all amounts and none for
any other category, in the order in which the categories first occur. -/
theorem category_suggestions (subscriptions : List Subscription) (expenses : List Expense) :
    (savingsSuggestionItems subscriptions expenses).filterMap Suggestion.categoryEntry
        = (((expenses.map expenseCategory).eraseDups).filter
            (fun k => decide (categorySum expenses k
              > (expenses.map (fun e => e.amount)).sum * 0.3))).map
          (fun k => (k, categorySum expenses k))
    ∧ (∀ (k : String) (a : ℚ),
        Suggestion.reduceCategory k a ∈ savingsSuggestionItems subscriptions expenses
          ↔ (∃ e ∈ expenses, expenseCategory e = k)
            ∧ categorySum expenses k > (expenses.map (fun e => e.amount)).sum * 0.3
            ∧ a = categorySum expenses k)
    ∧ (((savingsSuggestionItems subscriptions expenses).filterMap
          Suggestion.categoryEntry).map Prod.fst).Nodup
    ∧ (generateSavingsSuggestions subscriptions expenses).length
        = (savingsSuggestionItems subscriptions expenses).length
    ∧ (∀ (subscriptions2 : List Subscription) (expenses2 : List Expense),
        subscriptions2 = subscriptions → expenses2 = expenses →
        generateSavingsSuggestions subscriptions2 expenses2
          = generateSavingsSuggestions subscriptions expenses) := by
  have hentries : (savingsSuggestionItems subscriptions expenses).filterMap
        Suggestion.categoryEntry
      = (((expenses.map expenseCategory).eraseDups).filter
          (fun k => decide (categorySum expenses k
            > (expenses.map (fun e => e.amount)).sum * 0.3))).map
        (fun k => (k, categorySum expenses k)) := by
    rw [savingsSuggestionItems_eq, List.filterMap_append, List.filterMap_map]
    have hfirst : ∀ l : List Suggestion, (∀ s ∈ l, s.isReviewSubscriptions = true) →
        l.filterMap Suggestion.categoryEntry = [] := by
      intro l hl
      rw [List.filterMap_eq_nil_iff]
      intro s hs
      have := hl s hs
      cases s with
      | reviewSubscriptions n t => rfl
      | reduceCategory k a => exact absurd this (by simp [Suggestion.isReviewSubscriptions])
    rw [hfirst, List.nil_append]
    · have hcomp : (Suggestion.categoryEntry
            ∘ fun k : String => Suggestion.reduceCategory k (categorySum expenses k))
          = (some ∘ fun k : String => (k, categorySum expenses k)) := rfl
      rw [hcomp, List.filterMap_eq_map]
    · intro s hs
      split at hs
      · rw [List.mem_singleton.mp hs]
        rfl
      · exact absurd hs (List.not_mem_nil s)
  refine ⟨hentries, ?_, ?_, ?_, ?_⟩
  · intro k a
    have hiff : Suggestion.reduceCategory k a ∈ savingsSuggestionItems subscriptions expenses
        ↔ (k, a) ∈ (savingsSuggestionItems subscriptions expenses).filterMap
            Suggestion.categoryEntry := by
      rw [List.mem_filterMap]
      constructor
      · intro h
        exact ⟨_, h, rfl⟩
      · rintro ⟨s, hs, hentry⟩
        cases s with
        | reviewSubscriptions n t => simp [Suggestion.categoryEntry] at hentry
        | reduceCategory k2 a2 =>
            simp only [Suggestion.categoryEntry, Option.some.injEq, Prod.mk.injEq] at hentry
            rw [← hentry.1, ← hentry.2]
            exact hs
    rw [hiff, hentries, List.mem_map]
    constructor
    · rintro ⟨k2, hk2, heq⟩
      simp only [Prod.mk.injEq] at heq
      rw [List.mem_filter, mem_eraseDups, List.mem_map] at hk2
      obtain ⟨⟨e, he, hcat⟩, hgt⟩ := hk2
      rw [← heq.1]
      exact ⟨⟨e, he, hcat⟩, by simpa using hgt, heq.2.symm⟩
    · rintro ⟨⟨e, he, hcat⟩, hgt, ha⟩
      refine ⟨k, ?_, by rw [ha]⟩
      rw [List.mem_filter, mem_eraseDups, List.mem_map]
      exact ⟨⟨e, he, hcat⟩, by simpa using hgt⟩
  · rw [hentries, List.map_map]
    have hid : (Prod.fst ∘ fun k : String => (k, categorySum expenses k)) = id := rfl
    rw [hid, List.map_id]
    exact (nodup_eraseDups _).filter _
  · rw [generateSavingsSuggestions, List.length_map]
  · intro subscriptions2 expenses2 hs he
    rw [hs, he]

theorem category_suggestions_witness :
    (savingsSuggestionItems [] sampleExpenses).filterMap Suggestion.categoryEntry
        = [("food", 150)]
    ∧ (Suggestion.reduceCategory "food" 150 ∈ savingsSuggestionItems [] sampleExpenses
        ↔ (∃ e ∈ sampleExpenses, expenseCategory e = "food")
          ∧ categorySum sampleExpenses "food"
              > (sampleExpenses.map (fun e => e.amount)).sum * 0.3
          ∧ (150 : ℚ) = categorySum sampleExpenses "food") := by
  refine ⟨?_, (category_suggestions [] sampleExpenses).2.1 "food" 150⟩
  rw [(category_suggestions [] sampleExpenses).1]
  have h1 : ("food" : String) ≠ "" := by decide
  have h2 : ("transport" : String) ≠ "" := by decide
  have h3 : ("food" : String) ≠ "transport" := by decide
  have h4 : ("food" : String) ≠ "other" := by decide
  have h5 : ("transport" : String) ≠ "other" := by decide
  have hcats : sampleExpenses.map expenseCategory = ["food", "transport", "food", "other"] := by
    simp [sampleExpenses, expenseIn, expenseCategory, jsOrDefault, h1, h2]
  have hdups : (["food", "transport", "food", "other"] : List String).eraseDups
      = ["food", "transport", "other"] := by
    decide
  rw [hcats, hdups]
  norm_num [categorySum, sampleExpenses, expenseIn, expenseCategory, jsOrDefault,
    List.filter_cons, h1, h2, h3, h4, h5, h3.symm, h4.symm, h5.symm]

/-! ## Formatters: lemmas and claims -/

theorem formatRelativeTime_some (time now : Int) :
    formatRelativeTime (some time) now
      = if Int.ceil (((time - now : Int) : ℚ) / (1000 * 60 * 60 * 24)) = 0 then "Today"
        else if Int.ceil (((time - now : Int) : ℚ) / (1000 * 60 * 60 * 24)) = 1 then "Tomorrow"
        else if Int.ceil (((time - now : Int) : ℚ) / (1000 * 60 * 60 * 24)) = -1
          then "Yesterday"
        else if Int.ceil (((time - now : Int) : ℚ) / (1000 * 60 * 60 * 24)) > 1
          then "In " ++ toString (Int.ceil (((time - now : Int) : ℚ) / (1000 * 60 * 60 * 24)))
            ++ " days"
        else toString (Int.ceil (((time - now : Int) : ℚ) / (1000 * 60 * 60 * 24))).natAbs
          ++ " days ago" := by
  rfl

/-- For a date at the start of a calendar day, the whole days from now rounded
up are the difference of the calendar-day numbers. -/
theorem ceil_diff_of_midnight (offset time now k : Int)
    (hmidnight : time + offset = k * (1000 * 60 * 60 * 24)) :
    Int.ceil (((time - now : Int) : ℚ) / (1000 * 60 * 60 * 24))
      = calendarDay offset time - calendarDay offset now := by
  have htime : calendarDay offset time = k := by
    rw [calendarDay, hmidnight]
    have hk : ((k * (1000 * 60 * 60 * 24) : Int) : ℚ) / (1000 * 60 * 60 * 24) = (k : ℚ) := by
      push_cast
      norm_num
    rw [hk]
    exact Int.floor_intCast k
  have hdiff : ((time - now : Int) : ℚ) / (1000 * 60 * 60 * 24)
      = -(((now + offset : Int) : ℚ) / (1000 * 60 * 60 * 24)) + (k : ℚ) := by
    have hq : ((time + offset : Int) : ℚ) = (k : ℚ) * (1000 * 60 * 60 * 24) := by
      rw [hmidnight]
      push_cast
      ring
    have hq2 : (time : ℚ) = (k : ℚ) * (1000 * 60 * 60 * 24) - (offset : ℚ) := by
      push_cast at hq
      linarith
    push_cast
    rw [hq2]
    field_simp
    ring
  rw [hdiff, Int.ceil_add_int, Int.ceil_neg, htime, calendarDay]
  ring

/-- C14 (counterexample): now is 10:00 UTC on 10 January 2024. A date at 15:00
UTC on the same calendar day (in UTC and in the zone five and a half hours
ahead) is labelled "Tomorrow", and a date at 09:00 UTC on that day "Today": the
label follows the elapsed time and not the calendar-day difference, which is 0
for both dates. -/
theorem formatRelativeTime_counterexample :
    calendarDay 0 1704898800000 - calendarDay 0 1704880800000 = 0
    ∧ calendarDay 19800000 1704898800000 - calendarDay 19800000 1704880800000 = 0
    ∧ formatRelativeTime (some 1704898800000) 1704880800000 = "Tomorrow"
    ∧ calendarDay 0 1704877200000 - calendarDay 0 1704880800000 = 0
    ∧ formatRelativeTime (some 1704877200000) 1704880800000 = "Today" := by
  have hday : ∀ offset time : Int,
      (19732 : ℚ) ≤ ((time + offset : Int) : ℚ) / (1000 * 60 * 60 * 24) →
      ((time + offset : Int) : ℚ) / (1000 * 60 * 60 * 24) < 19732 + 1 →
      calendarDay offset time = 19732 := by
    intro offset time h1 h2
    rw [calendarDay, Int.floor_eq_iff]
    exact ⟨by exact_mod_cast h1, by exact_mod_cast h2⟩
  have hnow := hday 0 1704880800000 (by norm_num) (by norm_num)
  have hnowIST := hday 19800000 1704880800000 (by norm_num) (by norm_num)
  have hlater := hday 0 1704898800000 (by norm_num) (by norm_num)
  have hlaterIST := hday 19800000 1704898800000 (by norm_num) (by norm_num)
  have hearlier := hday 0 1704877200000 (by norm_num) (by norm_num)
  have hceil1 : Int.ceil ((((1704898800000 : Int) - 1704880800000 : Int) : ℚ)
      / (1000 * 60 * 60 * 24)) = 1 := by
    rw [Int.ceil_eq_iff]
    norm_num
  have hceil0 : Int.ceil ((((1704877200000 : Int) - 1704880800000 : Int) : ℚ)
      / (1000 * 60 * 60 * 24)) = 0 := by
    rw [Int.ceil_eq_iff]
    norm_num
  refine ⟨by rw [hnow, hlater]; rfl, by rw [hnowIST, hlaterIST]; rfl, ?_,
    by rw [hnow, hearlier]; rfl, ?_⟩
  · rw [formatRelativeTime_some, hceil1]
    rfl
  · rw [formatRelativeTime_some, hceil0]
    rfl

/-- C14 (amended): for a valid date d that is the start (00:00) of a calendar
day and every current moment now, formatRelativeTime(d) depends only on the
calendar-day difference n between d and now, the days being counted in the time
zone in which d is a midnight: "Today" when n = 0, "Tomorrow" when n = 1,
"Yesterday" when n = -1, "In n days" when n > 1 and "|n| days ago" when n < -1. -/
theorem formatRelativeTime_of_midnight (offset time now k : Int)
    (hmidnight : time + offset = k * (1000 * 60 * 60 * 24)) :
    (calendarDay offset time - calendarDay offset now = 0 →
        formatRelativeTime (some time) now = "Today")
    ∧ (calendarDay offset time - calendarDay offset now = 1 →
        formatRelativeTime (some time) now = "Tomorrow")
    ∧ (calendarDay offset time - calendarDay offset now = -1 →
        formatRelativeTime (some time) now = "Yesterday")
    ∧ (calendarDay offset time - calendarDay offset now > 1 →
        formatRelativeTime (some time) now
          = "In " ++ toString (calendarDay offset time - calendarDay offset now) ++ " days")
    ∧ (calendarDay offset time - calendarDay offset now < -1 →
        formatRelativeTime (some time) now
          = toString (calendarDay offset time - calendarDay offset now).natAbs
            ++ " days ago") := by
  rw [formatRelativeTime_some, ceil_diff_of_midnight offset time now k hmidnight]
  refine ⟨?_, ?_, ?_, ?_, ?_⟩
  · intro h
    rw [if_pos h]
  · intro h
    rw [h]
    rfl
  · intro h
    rw [h]
    rfl
  · intro h
    have h0 : ¬ calendarDay offset time - calendarDay offset now = 0 := by omega
    have h1 : ¬ calendarDay offset time - calendarDay offset now = 1 := by omega
    have h2 : ¬ calendarDay offset time - calendarDay offset now = -1 := by omega
    rw [if_neg h0, if_neg h1, if_neg h2, if_pos h]
  · intro h
    have h0 : ¬ calendarDay offset time - calendarDay offset now = 0 := by omega
    have h1 : ¬ calendarDay offset time - calendarDay offset now = 1 := by omega
    have h2 : ¬ calendarDay offset time - calendarDay offset now = -1 := by omega
    have h3 : ¬ calendarDay offset time - calendarDay offset now > 1 := by omega
    rw [if_neg h0, if_neg h1, if_neg h2, if_neg h3]

theorem formatRelativeTime_of_midnight_witness :
    (1704931200000 : Int) + 0 = 19733 * (1000 * 60 * 60 * 24)
    ∧ calendarDay 0 1704931200000 - calendarDay 0 1704880800000 = 1
    ∧ formatRelativeTime (some 1704931200000) 1704880800000 = "Tomorrow" := by
  have hmidnight : (1704931200000 : Int) + 0 = 19733 * (1000 * 60 * 60 * 24) := by norm_num
  have hdiff : calendarDay 0 1704931200000 - calendarDay 0 1704880800000 = 1 := by
    have h1 : calendarDay 0 1704931200000 = 19733 := by
      rw [calendarDay, Int.floor_eq_iff]
      norm_num
    have h2 : calendarDay 0 1704880800000 = 19732 := by
      rw [calendarDay, Int.floor_eq_iff]
      norm_num
    rw [h1, h2]
    rfl
  exact ⟨hmidnight, hdiff,
    (formatRelativeTime_of_midnight 0 1704931200000 1704880800000 19733 hmidnight).2.1 hdiff⟩

/-! ## Store: error handling, claims -/

theorem handleError_custom (error : ApiError) (customMessage : String)
    (hcustom : customMessage ≠ "") :
    handleError error (some customMessage)
      = [Effect.dispatch (Action.SET_ERROR customMessage), Effect.toastError customMessage] := by
  simp [handleError, jsOr, jsOrDefault, truthy, hcustom]

theorem operation_error_field (state : State) (error : ApiError) :
    (stateAfter state (fetchDashboardData (.error error))).error
        = some "Failed to fetch dashboard data"
    ∧ (stateAfter state (fetchSubscriptions (.error error))).error
        = some "Failed to fetch subscriptions"
    ∧ (∀ data, (stateAfter state (createSubscription data (.error error))).error
        = some "Failed to create subscription")
    ∧ (∀ id data, (stateAfter state (updateSubscription id data (.error error))).error
        = some "Failed to update subscription")
    ∧ (∀ id, (stateAfter state (deleteSubscription id (.error error))).error
        = some "Failed to delete subscription")
    ∧ (∀ filters, (stateAfter state (fetchExpenses filters (.error error))).error
        = some "Failed to fetch expenses")
    ∧ (∀ data, (stateAfter state (createExpense data (.error error))).error
        = some "Failed to create expense")
    ∧ (∀ id data, (stateAfter state (updateExpense id data (.error error))).error
        = some "Failed to update expense")
    ∧ (∀ id, (stateAfter state (deleteExpense id (.error error))).error
        = some "Failed to delete expense")
    ∧ (stateAfter state (fetchBudgets (.error error))).error = some "Failed to fetch budgets"
    ∧ (∀ data, (stateAfter state (createBudget data (.error error))).error
        = some "Failed to create budget")
    ∧ (∀ id data, (stateAfter state (updateBudget id data (.error error))).error
        = some "Failed to update budget")
    ∧ (∀ id, (stateAfter state (deleteBudget id (.error error))).error
        = some "Failed to delete budget") :=
  ⟨rfl, rfl, fun _ => rfl, fun _ _ => rfl, fun _ => rfl, fun _ => rfl, fun _ => rfl,
    fun _ _ => rfl, fun _ => rfl, rfl, fun _ => rfl, fun _ _ => rfl, fun _ => rfl⟩

/-- C15 (counterexample): createSubscription fails with an error whose payload
detail is "Subscription name already exists"; the error recorded in the store
is "Failed to create subscription" and not the detail. With an error that
carries neither payload nor message the recorded error is that same message and
not the generic fallback "An error occurred". -/
theorem recorded_error_counterexample :
    sampleApiError.detail = some "Subscription name already exists"
    ∧ (stateAfter initialState
        (createSubscription sampleSubscriptionData (.error sampleApiError))).error
        = some "Failed to create subscription"
    ∧ (stateAfter initialState
        (createSubscription sampleSubscriptionData (.error sampleApiError))).error
        ≠ some "Subscription name already exists"
    ∧ (stateAfter initialState
        (createSubscription sampleSubscriptionData
          (.error { detail := none, message := none }))).error
        ≠ some "An error occurred" := by
  refine ⟨rfl, rfl, ?_, ?_⟩
  · have h : (stateAfter initialState
        (createSubscription sampleSubscriptionData (.error sampleApiError))).error
        = some "Failed to create subscription" := rfl
    rw [h]
    decide
  · have h : (stateAfter initialState
        (createSubscription sampleSubscriptionData
          (.error { detail := none, message := none }))).error
        = some "Failed to create subscription" := rfl
    rw [h]
    decide

/-- C15 (amended): when a create, update, delete or fetch operation fails, the
error message recorded in the store is the fixed message of the operation,
whatever payload detail or message the error carries. handleError takes the
payload detail verbatim, then, when there is no detail, the message of the
error, then, when there is neither, the generic fallback "An error occurred",
only when it is called without a custom message, and every operation passes
one. -/
theorem recorded_error_message (state : State) (error : ApiError) :
    (stateAfter state (fetchDashboardData (.error error))).error
        = some "Failed to fetch dashboard data"
    ∧ (stateAfter state (fetchSubscriptions (.error error))).error
        = some "Failed to fetch subscriptions"
    ∧ (∀ data, (stateAfter state (createSubscription data (.error error))).error
        = some "Failed to create subscription")
    ∧ (∀ id data, (stateAfter state (updateSubscription id data (.error error))).error
        = some "Failed to update subscription")
    ∧ (∀ id, (stateAfter state (deleteSubscription id (.error error))).error
        = some "Failed to delete subscription")
    ∧ (∀ filters, (stateAfter state (fetchExpenses filters (.error error))).error
        = some "Failed to fetch expenses")
    ∧ (∀ data, (stateAfter state (createExpense data (.error error))).error
        = some "Failed to create expense")
    ∧ (∀ id data, (stateAfter state (updateExpense id data (.error error))).error
        = some "Failed to update expense")
    ∧ (∀ id, (stateAfter state (deleteExpense id (.error error))).error
        = some "Failed to delete expense")
    ∧ (stateAfter state (fetchBudgets (.error error))).error = some "Failed to fetch budgets"
    ∧ (∀ data, (stateAfter state (createBudget data (.error error))).error
        = some "Failed to create budget")
    ∧ (∀ id data, (stateAfter state (updateBudget id data (.error error))).error
        = some "Failed to update budget")
    ∧ (∀ id, (stateAfter state (deleteBudget id (.error error))).error
        = some "Failed to delete budget")
    ∧ (∀ m : String, m ≠ "" → error.detail = some m →
        handleError error none
          = [Effect.dispatch (Action.SET_ERROR m), Effect.toastError m])
    ∧ (∀ m : String, m ≠ "" → truthy error.detail = false → error.message = some m →
        handleError error none
          = [Effect.dispatch (Action.SET_ERROR m), Effect.toastError m])
    ∧ (truthy error.detail = false → truthy error.message = false →
        handleError error none
          = [Effect.dispatch (Action.SET_ERROR "An error occurred"),
              Effect.toastError "An error occurred"])
    ∧ handleError { detail := none, message := none } none
        = [Effect.dispatch (Action.SET_ERROR "An error occurred"),
            Effect.toastError "An error occurred"] := by
  refine ⟨rfl, rfl, fun _ => rfl, fun _ _ => rfl, fun _ => rfl, fun _ => rfl, fun _ => rfl,
    fun _ _ => rfl, fun _ => rfl, rfl, fun _ => rfl, fun _ _ => rfl, fun _ => rfl, ?_, ?_, ?_,
    rfl⟩
  · intro m hm hdetail
    simp [handleError, jsOr, jsOrDefault, truthy, hdetail, hm]
  · intro m hm hdetail hmessage
    have hnone : truthy (none : Option String) = false := rfl
    have hfirst : jsOr none error.detail = error.detail := by
      simp [jsOr, hnone]
    have hchain : jsOr (jsOr none error.detail) error.message = some m := by
      rw [hfirst]
      simp [jsOr, hdetail, hmessage]
    have hdefault : jsOrDefault (some m) "An error occurred" = m := by
      simp [jsOrDefault, hm]
    simp only [handleError, hchain, hdefault]
  · intro hdetail hmessage
    have hnone : truthy (none : Option String) = false := rfl
    have hfallback : jsOrDefault error.message "An error occurred" = "An error occurred" := by
      cases hmsg : error.message with
      | none => rfl
      | some m =>
          rw [hmsg] at hmessage
          have hm : m = "" := by simpa [truthy] using hmessage
          simp [jsOrDefault, hm]
    have hfirst : jsOr none error.detail = error.detail := by
      simp [jsOr, hnone]
    have hchain : jsOr (jsOr none error.detail) error.message = error.message := by
      rw [hfirst]
      simp [jsOr, hdetail]
    simp only [handleError, hchain, hfallback]

theorem recorded_error_message_witness :
    (stateAfter initialState
        (updateExpense "e1" sampleExpenseData (.error sampleApiError))).error
        = some "Failed to update expense"
    ∧ handleError sampleApiError none
        = [Effect.dispatch (Action.SET_ERROR "Subscription name already exists"),
            Effect.toastError "Subscription name already exists"]
    ∧ handleError networkError none
        = [Effect.dispatch (Action.SET_ERROR "Network Error"),
            Effect.toastError "Network Error"] :=
  ⟨(recorded_error_message initialState sampleApiError).2.2.2.2.2.2.2.1 "e1" sampleExpenseData,
    (recorded_error_message initialState sampleApiError).2.2.2.2.2.2.2.2.2.2.2.2.2.1
      "Subscription name already exists" (by decide) rfl,
    (recorded_error_message initialState networkError).2.2.2.2.2.2.2.2.2.2.2.2.2.2.1
      "Network Error" (by decide) rfl rfl⟩

/-- C16: when the collaborator call fails, every create and update operation
returns the failure to its caller and records the store error, whereas every
delete and fetch operation returns normally and only records the store error;
when the collaborator call succeeds, create and update return the entity the
collaborator returned. -/
theorem propagation_policy (state : State) (error : ApiError) :
    (∀ data, (createSubscription data (.error error)).result = .error error
        ∧ (stateAfter state (createSubscription data (.error error))).error ≠ none)
    ∧ (∀ id data, (updateSubscription id data (.error error)).result = .error error
        ∧ (stateAfter state (updateSubscription id data (.error error))).error ≠ none)
    ∧ (∀ data, (createExpense data (.error error)).result = .error error
        ∧ (stateAfter state (createExpense data (.error error))).error ≠ none)
    ∧ (∀ id data, (updateExpense id data (.error error)).result = .error error
        ∧ (stateAfter state (updateExpense id data (.error error))).error ≠ none)
    ∧ (∀ data, (createBudget data (.error error)).result = .error error
        ∧ (stateAfter state (createBudget data (.error error))).error ≠ none)
    ∧ (∀ id data, (updateBudget id data (.error error)).result = .error error
        ∧ (stateAfter state (updateBudget id data (.error error))).error ≠ none)
    ∧ (∀ id, (deleteSubscription id (.error error)).result = .ok ()
        ∧ (stateAfter state (deleteSubscription id (.error error))).error ≠ none)
    ∧ (∀ id, (deleteExpense id (.error error)).result = .ok ()
        ∧ (stateAfter state (deleteExpense id (.error error))).error ≠ none)
    ∧ (∀ id, (deleteBudget id (.error error)).result = .ok ()
        ∧ (stateAfter state (deleteBudget id (.error error))).error ≠ none)
    ∧ ((fetchDashboardData (.error error)).result = .ok ()
        ∧ (stateAfter state (fetchDashboardData (.error error))).error ≠ none)
    ∧ ((fetchSubscriptions (.error error)).result = .ok ()
        ∧ (stateAfter state (fetchSubscriptions (.error error))).error ≠ none)
    ∧ (∀ filters, (fetchExpenses filters (.error error)).result = .ok ()
        ∧ (stateAfter state (fetchExpenses filters (.error error))).error ≠ none)
    ∧ ((fetchBudgets (.error error)).result = .ok ()
        ∧ (stateAfter state (fetchBudgets (.error error))).error ≠ none)
    ∧ (∀ data e, (createSubscription data (.ok e)).result = .ok e)
    ∧ (∀ id data e, (updateSubscription id data (.ok e)).result = .ok e)
    ∧ (∀ data e, (createExpense data (.ok e)).result = .ok e)
    ∧ (∀ id data e, (updateExpense id data (.ok e)).result = .ok e)
    ∧ (∀ data e, (createBudget data (.ok e)).result = .ok e)
    ∧ (∀ id data e, (updateBudget id data (.ok e)).result = .ok e) := by
  obtain ⟨h1, h2, h3, h4, h5, h6, h7, h8, h9, h10, h11, h12, h13⟩ :=
    operation_error_field state error
  refine ⟨fun d => ⟨rfl, ?_⟩, fun i d => ⟨rfl, ?_⟩, fun d => ⟨rfl, ?_⟩, fun i d => ⟨rfl, ?_⟩,
    fun d => ⟨rfl, ?_⟩, fun i d => ⟨rfl, ?_⟩, fun i => ⟨rfl, ?_⟩, fun i => ⟨rfl, ?_⟩,
    fun i => ⟨rfl, ?_⟩, ⟨rfl, ?_⟩, ⟨rfl, ?_⟩, fun f => ⟨rfl, ?_⟩, ⟨rfl, ?_⟩,
    fun _ _ => rfl, fun _ _ _ => rfl, fun _ _ => rfl, fun _ _ _ => rfl, fun _ _ => rfl,
    fun _ _ _ => rfl⟩
  · rw [h3 d]; exact Option.some_ne_none _
  · rw [h4 i d]; exact Option.some_ne_none _
  · rw [h7 d]; exact Option.some_ne_none _
  · rw [h8 i d]; exact Option.some_ne_none _
  · rw [h11 d]; exact Option.some_ne_none _
  · rw [h12 i d]; exact Option.some_ne_none _
  · rw [h5 i]; exact Option.some_ne_none _
  · rw [h9 i]; exact Option.some_ne_none _
  · rw [h13 i]; exact Option.some_ne_none _
  · rw [h1]; exact Option.some_ne_none _
  · rw [h2]; exact Option.some_ne_none _
  · rw [h6 f]; exact Option.some_ne_none _
  · rw [h10]; exact Option.some_ne_none _

/-- C17: when the collaborator call of an update or delete operation fails, the
state after the operation has the same dashboard snapshot, subscriptions,
expenses, budgets and preferences as before; the error field holds the message
and the loading flag is false. -/
theorem failure_leaves_domain_data (state : State) (error : ApiError) :
    (∀ id data,
        sameDomainData state (stateAfter state (updateSubscription id data (.error error)))
        ∧ (stateAfter state (updateSubscription id data (.error error))).error
            = some "Failed to update subscription"
        ∧ (stateAfter state (updateSubscription id data (.error error))).loading = false)
    ∧ (∀ id data,
        sameDomainData state (stateAfter state (updateExpense id data (.error error)))
        ∧ (stateAfter state (updateExpense id data (.error error))).error
            = some "Failed to update expense"
        ∧ (stateAfter state (updateExpense id data (.error error))).loading = false)
    ∧ (∀ id data,
        sameDomainData state (stateAfter state (updateBudget id data (.error error)))
        ∧ (stateAfter state (updateBudget id data (.error error))).error
            = some "Failed to update budget"
        ∧ (stateAfter state (updateBudget id data (.error error))).loading = false)
    ∧ (∀ id,
        sameDomainData state (stateAfter state (deleteSubscription id (.error error)))
        ∧ (stateAfter state (deleteSubscription id (.error error))).error
            = some "Failed to delete subscription"
        ∧ (stateAfter state (deleteSubscription id (.error error))).loading = false)
    ∧ (∀ id,
        sameDomainData state (stateAfter state (deleteExpense id (.error error)))
        ∧ (stateAfter state (deleteExpense id (.error error))).error
            = some "Failed to delete expense"
        ∧ (stateAfter state (deleteExpense id (.error error))).loading = false)
    ∧ (∀ id,
        sameDomainData state (stateAfter state (deleteBudget id (.error error)))
        ∧ (stateAfter state (deleteBudget id (.error error))).error
            = some "Failed to delete budget"
        ∧ (stateAfter state (deleteBudget id (.error error))).loading = false) :=
  ⟨fun _ _ => ⟨⟨rfl, rfl, rfl, rfl, rfl⟩, rfl, rfl⟩,
    fun _ _ => ⟨⟨rfl, rfl, rfl, rfl, rfl⟩, rfl, rfl⟩,
    fun _ _ => ⟨⟨rfl, rfl, rfl, rfl, rfl⟩, rfl, rfl⟩,
    fun _ => ⟨⟨rfl, rfl, rfl, rfl, rfl⟩, rfl, rfl⟩,
    fun _ => ⟨⟨rfl, rfl, rfl, rfl, rfl⟩, rfl, rfl⟩,
    fun _ => ⟨⟨rfl, rfl, rfl, rfl, rfl⟩, rfl, rfl⟩⟩

/-! ## Store: loading flag, claims -/

theorem loading_false_of_getLast (state : State) (effects : List Effect)
    (hlast : effects.getLast? = some (Effect.dispatch (Action.SET_LOADING false))) :
    (applyEffects state effects).loading = false := by
  obtain ⟨init, hinit⟩ : ∃ init, effects
      = init ++ [Effect.dispatch (Action.SET_LOADING false)] := by
    rcases List.eq_nil_or_concat effects with hnil | ⟨init, last, hconcat⟩
    · rw [hnil] at hlast
      simp at hlast
    · rw [hconcat, List.concat_eq_append, List.getLast?_concat] at hlast
      exact ⟨init, by rw [hconcat, List.concat_eq_append, Option.some.inj hlast]⟩
  rw [hinit, applyEffects, List.foldl_append]
  rfl

/-- C18 (counterexample): a successful fetchSubscriptions performs the single
dispatch SET_SUBSCRIPTIONS: it does not start with loading = true and dispatches
no loading change at all, and run from a state whose loading flag is true it
leaves the flag true. -/
theorem fetchSubscriptions_loading_counterexample :
    (fetchSubscriptions (.ok sampleSubscriptions)).effects
        = [Effect.dispatch (Action.SET_SUBSCRIPTIONS sampleSubscriptions)]
    ∧ (fetchSubscriptions (.ok sampleSubscriptions)).effects.head?
        ≠ some (Effect.dispatch (Action.SET_LOADING true))
    ∧ (fetchSubscriptions (.ok sampleSubscriptions)).effects.any Effect.isSetLoading = false
    ∧ loadingState.loading = true
    ∧ (stateAfter loadingState (fetchSubscriptions (.ok sampleSubscriptions))).loading
        = true := by
  refine ⟨rfl, ?_, rfl, rfl, rfl⟩
  have h : (fetchSubscriptions (.ok sampleSubscriptions)).effects.head?
      = some (Effect.dispatch (Action.SET_SUBSCRIPTIONS sampleSubscriptions)) := rfl
  rw [h]
  intro hne
  injection hne with hne
  injection hne with hne
  cases hne

/-- C18 (amended): every create, update and delete operation and
fetchDashboardData dispatches loading = true first, whatever the collaborator
answers, and loading = false as its last state change on both the success and
the failure path, so that run on its own from any state the loading flag is
false at completion. fetchSubscriptions, fetchExpenses and fetchBudgets
dispatch no loading change: on success the loading flag keeps its previous
value, and on failure the recording of the error sets it to false. -/
theorem loading_flag_bracket (state : State) :
    (∀ r, bracketsLoading (fetchDashboardData r).effects
        ∧ (stateAfter state (fetchDashboardData r)).loading = false)
    ∧ (∀ data r, bracketsLoading (createSubscription data r).effects
        ∧ (stateAfter state (createSubscription data r)).loading = false)
    ∧ (∀ id data r, bracketsLoading (updateSubscription id data r).effects
        ∧ (stateAfter state (updateSubscription id data r)).loading = false)
    ∧ (∀ id r, bracketsLoading (deleteSubscription id r).effects
        ∧ (stateAfter state (deleteSubscription id r)).loading = false)
    ∧ (∀ data r, bracketsLoading (createExpense data r).effects
        ∧ (stateAfter state (createExpense data r)).loading = false)
    ∧ (∀ id data r, bracketsLoading (updateExpense id data r).effects
        ∧ (stateAfter state (updateExpense id data r)).loading = false)
    ∧ (∀ id r, bracketsLoading (deleteExpense id r).effects
        ∧ (stateAfter state (deleteExpense id r)).loading = false)
    ∧ (∀ data r, bracketsLoading (createBudget data r).effects
        ∧ (stateAfter state (createBudget data r)).loading = false)
    ∧ (∀ id data r, bracketsLoading (updateBudget id data r).effects
        ∧ (stateAfter state (updateBudget id data r)).loading = false)
    ∧ (∀ id r, bracketsLoading (deleteBudget id r).effects
        ∧ (stateAfter state (deleteBudget id r)).loading = false)
    ∧ (∀ data, (fetchSubscriptions (.ok data)).effects.any Effect.isSetLoading = false
        ∧ (stateAfter state (fetchSubscriptions (.ok data))).loading = state.loading)
    ∧ (∀ filters data,
        (fetchExpenses filters (.ok data)).effects.any Effect.isSetLoading = false
        ∧ (stateAfter state (fetchExpenses filters (.ok data))).loading = state.loading)
    ∧ (∀ data, (fetchBudgets (.ok data)).effects.any Effect.isSetLoading = false
        ∧ (stateAfter state (fetchBudgets (.ok data))).loading = state.loading)
    ∧ (∀ error, (fetchSubscriptions (.error error)).effects.any Effect.isSetLoading = false
        ∧ (stateAfter state (fetchSubscriptions (.error error))).loading = false)
    ∧ (∀ filters error,
        (fetchExpenses filters (.error error)).effects.any Effect.isSetLoading = false
        ∧ (stateAfter state (fetchExpenses filters (.error error))).loading = false)
    ∧ (∀ error, (fetchBudgets (.error error)).effects.any Effect.isSetLoading = false
        ∧ (stateAfter state (fetchBudgets (.error error))).loading = false) := by
  refine ⟨?_, ?_, ?_, ?_, ?_, ?_, ?_, ?_, ?_, ?_, fun _ => ⟨rfl, rfl⟩, fun _ _ => ⟨rfl, rfl⟩,
    fun _ => ⟨rfl, rfl⟩, fun _ => ⟨rfl, rfl⟩, fun _ _ => ⟨rfl, rfl⟩, fun _ => ⟨rfl, rfl⟩⟩
  · intro r
    have hb : bracketsLoading (fetchDashboardData r).effects := by
      cases r <;> exact ⟨rfl, rfl⟩
    exact ⟨hb, loading_false_of_getLast state _ hb.2⟩
  · intro data r
    have hb : bracketsLoading (createSubscription data r).effects := by
      cases r <;> exact ⟨rfl, rfl⟩
    exact ⟨hb, loading_false_of_getLast state _ hb.2⟩
  · intro id data r
    have hb : bracketsLoading (updateSubscription id data r).effects := by
      cases r <;> exact ⟨rfl, rfl⟩
    exact ⟨hb, loading_false_of_getLast state _ hb.2⟩
  · intro id r
    have hb : bracketsLoading (deleteSubscription id r).effects := by
      cases r <;> exact ⟨rfl, rfl⟩
    exact ⟨hb, loading_false_of_getLast state _ hb.2⟩
  · intro data r
    have hb : bracketsLoading (createExpense data r).effects := by
      cases r <;> exact ⟨rfl, rfl⟩
    exact ⟨hb, loading_false_of_getLast state _ hb.2⟩
  · intro id data r
    have hb : bracketsLoading (updateExpense id data r).effects := by
      cases r <;> exact ⟨rfl, rfl⟩
    exact ⟨hb, loading_false_of_getLast state _ hb.2⟩
  · intro id r
    have hb : bracketsLoading (deleteExpense id r).effects := by
      cases r <;> exact ⟨rfl, rfl⟩
    exact ⟨hb, loading_false_of_getLast state _ hb.2⟩
  · intro data r
    have hb : bracketsLoading (createBudget data r).effects := by
      cases r <;> exact ⟨rfl, rfl⟩
    exact ⟨hb, loading_false_of_getLast state _ hb.2⟩
  · intro id data r
    have hb : bracketsLoading (updateBudget id data r).effects := by
      cases r <;> exact ⟨rfl, rfl⟩
    exact ⟨hb, loading_false_of_getLast state _ hb.2⟩
  · intro id r
    have hb : bracketsLoading (deleteBudget id r).effects := by
      cases r <;> exact ⟨rfl, rfl⟩
    exact ⟨hb, loading_false_of_getLast state _ hb.2⟩

/-! ## Store: error clearing and preferences, claims -/

/-- C19: clearing the error (reducer action CLEAR_ERROR, dispatched by
clearError) yields a state whose error field is null and whose dashboard
snapshot, subscriptions, expenses, budgets, loading flag and preferences equal
their previous values. -/
theorem clearError_frame (state : State) :
    (appReducer state Action.CLEAR_ERROR).error = none
    ∧ (appReducer state Action.CLEAR_ERROR).dashboardData = state.dashboardData
    ∧ (appReducer state Action.CLEAR_ERROR).subscriptions = state.subscriptions
    ∧ (appReducer state Action.CLEAR_ERROR).expenses = state.expenses
    ∧ (appReducer state Action.CLEAR_ERROR).budgets = state.budgets
    ∧ (appReducer state Action.CLEAR_ERROR).loading = state.loading
    ∧ (appReducer state Action.CLEAR_ERROR).preferences = state.preferences
    ∧ applyEffects state clearError = appReducer state Action.CLEAR_ERROR :=
  ⟨rfl, rfl, rfl, rfl, rfl, rfl, rfl, rfl⟩

/-- C20: applying a partial preference set Q to the current set P (reducer
action SET_PREFERENCES) yields a set in which each key present in Q has the
value of Q and each key absent from Q keeps the value of P; the stored payload
with dark_mode true alone, applied over the defaults, gives dark_mode true with
currency "INR", notifications_enabled true and alert_days_before_due 7; no
other field of the store state changes. -/
theorem setPreferences_merges (state : State) (q : PreferencesPatch) :
    (∀ v, q.dark_mode = some v →
        (appReducer state (Action.SET_PREFERENCES q)).preferences.dark_mode = v)
    ∧ (q.dark_mode = none →
        (appReducer state (Action.SET_PREFERENCES q)).preferences.dark_mode
          = state.preferences.dark_mode)
    ∧ (∀ v, q.notifications_enabled = some v →
        (appReducer state (Action.SET_PREFERENCES q)).preferences.notifications_enabled = v)
    ∧ (q.notifications_enabled = none →
        (appReducer state (Action.SET_PREFERENCES q)).preferences.notifications_enabled
          = state.preferences.notifications_enabled)
    ∧ (∀ v, q.alert_days_before_due = some v →
        (appReducer state (Action.SET_PREFERENCES q)).preferences.alert_days_before_due = v)
    ∧ (q.alert_days_before_due = none →
        (appReducer state (Action.SET_PREFERENCES q)).preferences.alert_days_before_due
          = state.preferences.alert_days_before_due)
    ∧ (∀ v, q.currency = some v →
        (appReducer state (Action.SET_PREFERENCES q)).preferences.currency = v)
    ∧ (q.currency = none →
        (appReducer state (Action.SET_PREFERENCES q)).preferences.currency
          = state.preferences.currency)
    ∧ (appReducer initialState (Action.SET_PREFERENCES darkModePatch)).preferences
        = { dark_mode := true, notifications_enabled := true, alert_days_before_due := 7,
            currency := "INR" }
    ∧ (appReducer state (Action.SET_PREFERENCES q)).dashboardData = state.dashboardData
    ∧ (appReducer state (Action.SET_PREFERENCES q)).subscriptions = state.subscriptions
    ∧ (appReducer state (Action.SET_PREFERENCES q)).expenses = state.expenses
    ∧ (appReducer state (Action.SET_PREFERENCES q)).budgets = state.budgets
    ∧ (appReducer state (Action.SET_PREFERENCES q)).loading = state.loading
    ∧ (appReducer state (Action.SET_PREFERENCES q)).error = state.error := by
  refine ⟨?_, ?_, ?_, ?_, ?_, ?_, ?_, ?_, rfl, rfl, rfl, rfl, rfl, rfl, rfl⟩
  · intro v h
    simp [appReducer, mergePreferences, h]
  · intro h
    simp [appReducer, mergePreferences, h]
  · intro v h
    simp [appReducer, mergePreferences, h]
  · intro h
    simp [appReducer, mergePreferences, h]
  · intro v h
    simp [appReducer, mergePreferences, h]
  · intro h
    simp [appReducer, mergePreferences, h]
  · intro v h
    simp [appReducer, mergePreferences, h]
  · intro h
    simp [appReducer, mergePreferences, h]

theorem setPreferences_merges_witness :
    darkModePatch.dark_mode = some true
    ∧ darkModePatch.currency = none
    ∧ (appReducer initialState (Action.SET_PREFERENCES darkModePatch)).preferences.dark_mode
        = true
    ∧ (appReducer initialState (Action.SET_PREFERENCES darkModePatch)).preferences.currency
        = "INR" :=
  ⟨rfl, rfl, (setPreferences_merges initialState darkModePatch).1 true rfl,
    (setPreferences_merges initialState darkModePatch).2.2.2.2.2.2.2.1 rfl⟩

/-! ## Durable preferences and initialization: claims -/

theorem mergePreferences_stored (p m : Preferences) :
    (applyEffects { initialState with preferences := p }
        (loadPreferences (storedPreferences m))).preferences = m := by
  rfl

/-- C21: updatePreferences(Q), called from a state with preference set P, puts
P merged with Q in memory and writes that same full set to durable storage, so
that a reload (fresh defaults, then load of the stored payload) yields P merged
with Q; after updatePreferences of the single key currency = "USD" the reloaded
set has currency "USD" and every other key as before the update. -/
theorem updatePreferences_round_trip (state : State) (q : PreferencesPatch) :
    (applyEffects state (updatePreferences state q).1).preferences
        = mergePreferences state.preferences q
    ∧ (updatePreferences state q).2
        = storedPreferences (applyEffects state (updatePreferences state q).1).preferences
    ∧ (applyEffects initialState (loadPreferences (updatePreferences state q).2)).preferences
        = mergePreferences state.preferences q
    ∧ (applyEffects initialState
        (loadPreferences (updatePreferences state usdPatch).2)).preferences
        = { dark_mode := state.preferences.dark_mode
            notifications_enabled := state.preferences.notifications_enabled
            alert_days_before_due := state.preferences.alert_days_before_due
            currency := "USD" } :=
  ⟨rfl, rfl, rfl, rfl⟩

/-- C22: when the stored preferences payload is absent or cannot be parsed, the
load of the preferences dispatches nothing, initialization goes on with the
four fetches, the in-memory preference set equals the defaults (dark_mode
false, notifications_enabled true, alert_days_before_due 7, currency "INR")
whatever the fetches answer, and the error field is null after the load and
stays null through fetches that succeed. -/
theorem initialization_without_saved_preferences (savedPreferences : StoredItem)
    (hsaved : savedPreferences = StoredItem.absent
      ∨ ∃ text, savedPreferences = StoredItem.unparsable text) :
    loadPreferences savedPreferences = []
    ∧ (applyEffects initialState (loadPreferences savedPreferences)).preferences
        = { dark_mode := false, notifications_enabled := true, alert_days_before_due := 7,
            currency := "INR" }
    ∧ (applyEffects initialState (loadPreferences savedPreferences)).error = none
    ∧ (∀ dashboard subscriptions expenses budgets,
        (applyEffects initialState
          (initializeApp savedPreferences dashboard subscriptions expenses budgets)).preferences
          = { dark_mode := false, notifications_enabled := true, alert_days_before_due := 7,
              currency := "INR" })
    ∧ (∀ dashboard subscriptions expenses budgets,
        (applyEffects initialState
          (initializeApp savedPreferences (.ok dashboard) (.ok subscriptions) (.ok expenses)
            (.ok budgets))).error = none) := by
  have hload : loadPreferences savedPreferences = [] := by
    rcases hsaved with h | ⟨text, h⟩ <;> rw [h] <;> rfl
  refine ⟨hload, by rw [hload]; rfl, by rw [hload]; rfl, ?_, ?_⟩
  · intro dashboard subscriptions expenses budgets
    rw [initializeApp, hload]
    cases dashboard <;> cases subscriptions <;> cases expenses <;> cases budgets <;> rfl
  · intro dashboard subscriptions expenses budgets
    rw [initializeApp, hload]
    rfl

theorem initialization_without_saved_preferences_witness :
    (∃ text, StoredItem.unparsable "dark_mode=true" = StoredItem.unparsable text)
    ∧ loadPreferences (StoredItem.unparsable "dark_mode=true") = []
    ∧ (applyEffects initialState
        (initializeApp (StoredItem.unparsable "dark_mode=true") (.error sampleApiError) (.ok [])
          (.ok []) (.ok []))).preferences
        = { dark_mode := false, notifications_enabled := true, alert_days_before_due := 7,
            currency := "INR" } :=
  ⟨⟨_, rfl⟩,
    (initialization_without_saved_preferences (StoredItem.unparsable "dark_mode=true")
      (Or.inr ⟨_, rfl⟩)).1,
    (initialization_without_saved_preferences (StoredItem.unparsable "dark_mode=true")
      (Or.inr ⟨_, rfl⟩)).2.2.2.1 _ _ _ _⟩

/-! ## Store: independence and frame, claims -/

/-- C23: applying the result of a successful fetchSubscriptions
(SET_SUBSCRIPTIONS L) and of a failed fetchBudgets (SET_ERROR m) in either
order yields the same final state, whose subscriptions equal L, whose error
equals m and whose budgets are unchanged; the same holds for the two operations
themselves, the message being "Failed to fetch budgets". -/
theorem fetch_results_commute (state : State) (l : List Subscription) (m : String)
    (error : ApiError) :
    appReducer (appReducer state (Action.SET_SUBSCRIPTIONS l)) (Action.SET_ERROR m)
        = appReducer (appReducer state (Action.SET_ERROR m)) (Action.SET_SUBSCRIPTIONS l)
    ∧ (appReducer (appReducer state (Action.SET_SUBSCRIPTIONS l))
        (Action.SET_ERROR m)).subscriptions = l
    ∧ (appReducer (appReducer state (Action.SET_SUBSCRIPTIONS l))
        (Action.SET_ERROR m)).error = some m
    ∧ (appReducer (appReducer state (Action.SET_SUBSCRIPTIONS l))
        (Action.SET_ERROR m)).budgets = state.budgets
    ∧ applyEffects state
          ((fetchSubscriptions (.ok l)).effects ++ (fetchBudgets (.error error)).effects)
        = applyEffects state
          ((fetchBudgets (.error error)).effects ++ (fetchSubscriptions (.ok l)).effects)
    ∧ (applyEffects state
          ((fetchBudgets (.error error)).effects
            ++ (fetchSubscriptions (.ok l)).effects)).subscriptions = l
    ∧ (applyEffects state
          ((fetchBudgets (.error error)).effects
            ++ (fetchSubscriptions (.ok l)).effects)).error = some "Failed to fetch budgets"
    ∧ (applyEffects state
          ((fetchBudgets (.error error)).effects
            ++ (fetchSubscriptions (.ok l)).effects)).budgets = state.budgets :=
  ⟨rfl, rfl, rfl, rfl, rfl, rfl, rfl, rfl⟩

/-- C24: the reducer action SET_DASHBOARD_DATA sets the dashboard snapshot to
exactly the received payload, and every other reducer action leaves the
dashboard snapshot equal to its previous value. -/
theorem dashboard_replaced_wholesale (state : State) :
    (∀ payload : DashboardData,
        (appReducer state (Action.SET_DASHBOARD_DATA payload)).dashboardData = payload)
    ∧ (∀ action : Action, (∀ payload, action ≠ Action.SET_DASHBOARD_DATA payload) →
        (appReducer state action).dashboardData = state.dashboardData) := by
  refine ⟨fun _ => rfl, ?_⟩
  intro action hne
  cases action with
  | SET_DASHBOARD_DATA payload => exact absurd rfl (hne payload)
  | _ => rfl

theorem dashboard_replaced_wholesale_witness :
    (∀ payload, Action.ADD_EXPENSE bareExpense ≠ Action.SET_DASHBOARD_DATA payload)
    ∧ (appReducer initialState (Action.ADD_EXPENSE bareExpense)).dashboardData
        = initialState.dashboardData
    ∧ (appReducer initialState
        (Action.SET_DASHBOARD_DATA (sampleDashboard 850 4200 [("food", 300)]))).dashboardData
        = sampleDashboard 850 4200 [("food", 300)] :=
  ⟨fun _ h => Action.noConfusion h,
    (dashboard_replaced_wholesale initialState).2 _ (fun _ h => Action.noConfusion h),
    (dashboard_replaced_wholesale initialState).1 _⟩

/-! ## Store: query of fetchExpenses and creation, claims -/

theorem truthy_eq_true_iff (x : Option String) :
    truthy x = true ↔ ∃ v, x = some v ∧ v ≠ "" := by
  cases x with
  | none => simp [truthy]
  | some v => simp [truthy]

theorem stringParam_mem (key : String) (x : Option String) (k v : String) :
    (k, v) ∈ (if truthy x then [(key, x.getD "")] else []) ↔ k = key ∧ x = some v ∧ v ≠ "" := by
  cases x with
  | none => simp [truthy]
  | some w =>
      by_cases hw : w = ""
      · subst hw
        have hfalse : truthy (some "") = false := by simp [truthy]
        rw [hfalse]
        constructor
        · intro h
          simp at h
        · rintro ⟨_, hv, hne⟩
          exact absurd (Option.some.inj hv).symm hne
      · simp only [truthy, ne_eq, hw, not_false_eq_true, decide_True, if_true,
          Option.getD_some, List.mem_singleton, Prod.mk.injEq, Option.some.injEq]
        constructor
        · rintro ⟨hk, hv⟩
          exact ⟨hk, hv.symm, hv ▸ hw⟩
        · rintro ⟨hk, hv, _⟩
          exact ⟨hk, hv.symm⟩

theorem limitParam_mem (limit : Option Nat) (k v : String) :
    (k, v) ∈ (match limit with
        | some n => if n ≠ 0 then [("limit", toString n)] else []
        | none => ([] : List (String × String)))
      ↔ k = "limit" ∧ ∃ n, limit = some n ∧ n ≠ 0 ∧ v = toString n := by
  cases limit with
  | none => simp
  | some n =>
      by_cases hn : n = 0
      · simp [hn]
      · simp only [ne_eq, hn, not_false_eq_true, if_true, List.mem_singleton, Prod.mk.injEq,
          Option.some.injEq]
        constructor
        · rintro ⟨hk, hv⟩
          exact ⟨hk, n, rfl, hn, hv⟩
        · rintro ⟨hk, n2, hn2, _, hv⟩
          exact ⟨hk, by rw [hv, hn2]⟩

theorem keys_sublist_single (key : String) (l : List (String × String))
    (hl : l = [] ∨ ∃ v, l = [(key, v)]) : (l.map Prod.fst).Sublist [key] := by
  rcases hl with h | ⟨v, h⟩
  · rw [h]
    exact List.nil_sublist _
  · rw [h]
    exact List.Sublist.refl _

/-- C25 (counterexample): the filter has a category and the limit 0; the limit
is present in the filter, yet the query holds the category parameter alone and
no limit parameter. -/
theorem expenseQueryParams_counterexample :
    zeroLimitFilters.limit = some 0
    ∧ expenseQueryParams zeroLimitFilters = [("category", "food")]
    ∧ ∀ v : String, ("limit", v) ∉ expenseQueryParams zeroLimitFilters := by
  have h : expenseQueryParams zeroLimitFilters = [("category", "food")] := by
    simp [expenseQueryParams, zeroLimitFilters, truthy]
  refine ⟨rfl, h, ?_⟩
  intro v hv
  rw [h] at hv
  simp at hv

/-- C25 (amended): the query built by fetchExpenses contains a parameter for
exactly those of category, start_date, end_date and limit whose value in the
filter is present and truthy (a non-empty string, a limit other than 0), each
with the value of the filter, in that order and at most once, and no parameter
for a field that is absent, empty or 0; with no filter the query has no
parameters. -/
theorem expenseQueryParams_truthy_fields (filters : ExpenseFilters) :
    (∀ v : String, ("category", v) ∈ expenseQueryParams filters
        ↔ filters.category = some v ∧ v ≠ "")
    ∧ (∀ v : String, ("start_date", v) ∈ expenseQueryParams filters
        ↔ filters.start_date = some v ∧ v ≠ "")
    ∧ (∀ v : String, ("end_date", v) ∈ expenseQueryParams filters
        ↔ filters.end_date = some v ∧ v ≠ "")
    ∧ (∀ v : String, ("limit", v) ∈ expenseQueryParams filters
        ↔ ∃ n, filters.limit = some n ∧ n ≠ 0 ∧ v = toString n)
    ∧ ((expenseQueryParams filters).map Prod.fst).Sublist
        ["category", "start_date", "end_date", "limit"]
    ∧ expenseQueryParams noFilters = [] := by
  have hmem : ∀ k v : String, (k, v) ∈ expenseQueryParams filters
      ↔ (k = "category" ∧ filters.category = some v ∧ v ≠ "")
        ∨ (k = "start_date" ∧ filters.start_date = some v ∧ v ≠ "")
        ∨ (k = "end_date" ∧ filters.end_date = some v ∧ v ≠ "")
        ∨ (k = "limit" ∧ ∃ n, filters.limit = some n ∧ n ≠ 0 ∧ v = toString n) := by
    intro k v
    rw [expenseQueryParams, List.mem_append, List.mem_append, List.mem_append,
      stringParam_mem, stringParam_mem, stringParam_mem, limitParam_mem]
    tauto
  have h1 : ("category" : String) ≠ "start_date" := by decide
  have h2 : ("category" : String) ≠ "end_date" := by decide
  have h3 : ("category" : String) ≠ "limit" := by decide
  have h4 : ("start_date" : String) ≠ "end_date" := by decide
  have h5 : ("start_date" : String) ≠ "limit" := by decide
  have h6 : ("end_date" : String) ≠ "limit" := by decide
  refine ⟨?_, ?_, ?_, ?_, ?_, ?_⟩
  · intro v
    rw [hmem]
    simp [h1, h2, h3]
  · intro v
    rw [hmem]
    simp [h1.symm, h4, h5]
  · intro v
    rw [hmem]
    simp [h2.symm, h4.symm, h6]
  · intro v
    rw [hmem]
    simp [h3.symm, h5.symm, h6.symm]
  · rw [expenseQueryParams, List.map_append, List.map_append, List.map_append]
    have hsplit : (["category", "start_date", "end_date", "limit"] : List String)
        = ["category"] ++ ["start_date"] ++ ["end_date"] ++ ["limit"] := rfl
    rw [hsplit]
    refine List.Sublist.append (List.Sublist.append (List.Sublist.append ?_ ?_) ?_) ?_
    · apply keys_sublist_single
      by_cases h : truthy filters.category = true
      · exact Or.inr ⟨_, by rw [if_pos h]⟩
      · exact Or.inl (by rw [if_neg h])
    · apply keys_sublist_single
      by_cases h : truthy filters.start_date = true
      · exact Or.inr ⟨_, by rw [if_pos h]⟩
      · exact Or.inl (by rw [if_neg h])
    · apply keys_sublist_single
      by_cases h : truthy filters.end_date = true
      · exact Or.inr ⟨_, by rw [if_pos h]⟩
      · exact Or.inl (by rw [if_neg h])
    · apply keys_sublist_single
      cases hl : filters.limit with
      | none => exact Or.inl rfl
      | some n =>
          by_cases hn : n = 0
          · exact Or.inl (by simp [hn])
          · exact Or.inr ⟨toString n, by simp [hn]⟩
  · rfl

theorem expenseQueryParams_truthy_fields_witness :
    (("category", "food") ∈ expenseQueryParams sampleFilters
        ↔ sampleFilters.category = some "food" ∧ ("food" : String) ≠ "")
    ∧ expenseQueryParams sampleFilters
        = [("category", "food"), ("start_date", "2024-01-01"), ("limit", "10")] :=
  ⟨(expenseQueryParams_truthy_fields sampleFilters).1 "food", by
    simp [expenseQueryParams, sampleFilters, truthy]
    rfl⟩

/-- C26: a successful createSubscription or createBudget (ADD_SUBSCRIPTION,
ADD_BUDGET) yields the previous sequence with the returned entity appended as
its last element, so the length grows by exactly 1 and the existing elements
stay unchanged at their indices; this holds whatever the sequence contains,
also a budget with the same type and category as the new one. -/
theorem create_appends (state : State) :
    (∀ (data : SubscriptionData) (e : Subscription),
        (stateAfter state (createSubscription data (.ok e))).subscriptions
            = state.subscriptions ++ [e]
        ∧ (appReducer state (Action.ADD_SUBSCRIPTION e)).subscriptions
            = state.subscriptions ++ [e]
        ∧ (stateAfter state (createSubscription data (.ok e))).subscriptions.length
            = state.subscriptions.length + 1
        ∧ (stateAfter state (createSubscription data (.ok e))).subscriptions.getLast?
            = some e
        ∧ (stateAfter state (createSubscription data (.ok e))).subscriptions.take
            state.subscriptions.length = state.subscriptions)
    ∧ (∀ (data : BudgetData) (e : Budget),
        (stateAfter state (createBudget data (.ok e))).budgets = state.budgets ++ [e]
        ∧ (appReducer state (Action.ADD_BUDGET e)).budgets = state.budgets ++ [e]
        ∧ (stateAfter state (createBudget data (.ok e))).budgets.length
            = state.budgets.length + 1
        ∧ (stateAfter state (createBudget data (.ok e))).budgets.getLast? = some e
        ∧ (stateAfter state (createBudget data (.ok e))).budgets.take state.budgets.length
            = state.budgets)
    ∧ (stateAfter twoBudgetsState
        (createBudget sampleBudgetData
          (.ok (sampleBudget "b3" "monthly" none (some 2000))))).budgets
        = [sampleBudget "b1" "monthly" none (some 1000),
            sampleBudget "b2" "yearly" (some "food") (some 5000),
            sampleBudget "b3" "monthly" none (some 2000)] := by
  refine ⟨?_, ?_, rfl⟩
  · intro data e
    have h : (stateAfter state (createSubscription data (.ok e))).subscriptions
        = state.subscriptions ++ [e] := rfl
    rw [h]
    exact ⟨rfl, rfl, by simp, by simp, by simp⟩
  · intro data e
    have h : (stateAfter state (createBudget data (.ok e))).budgets
        = state.budgets ++ [e] := rfl
    rw [h]
    exact ⟨rfl, rfl, by simp, by simp, by simp⟩

/-! ## Expenses page: claims -/

theorem nodup_applyTagCall (tags : List String) (call : TagCall) (htags : tags.Nodup) :
    (applyTagCall tags call).Nodup := by
  cases call with
  | addTag tag =>
      by_cases h : tag ≠ "" ∧ tag ∉ tags
      · rw [applyTagCall, addTag, if_pos h]
        exact List.Nodup.append htags (List.nodup_singleton _)
          (by simpa [List.disjoint_singleton] using h.2)
      · rw [applyTagCall, addTag, if_neg h]
        exact htags
  | removeTag tagToRemove => exact htags.filter _

theorem nodup_foldl_applyTagCall (calls : List TagCall) (tags : List String)
    (htags : tags.Nodup) : (calls.foldl applyTagCall tags).Nodup := by
  induction calls generalizing tags with
  | nil => exact htags
  | cons call rest ih =>
      rw [List.foldl_cons]
      exact ih _ (nodup_applyTagCall tags call htags)

/-- C27: starting from the empty list, after any sequence of addTag and
removeTag calls, each made from a form rendered with the current tags, the tag
list contains no tag twice; addTag of a tag already present leaves the list
unchanged, addTag of a new non-empty tag appends it at the end, and
removeTag(t) removes t and keeps the other tags, each as often as before and in
their relative order. -/
theorem tag_list_invariant :
    (∀ calls : List TagCall, (runTagCalls calls).Nodup)
    ∧ (∀ (tags : List String) (tag : String), tag ∈ tags → addTag tags tag tags = tags)
    ∧ (∀ (tags : List String) (tag : String), tag ≠ "" → tag ∉ tags →
        addTag tags tag tags = tags ++ [tag])
    ∧ (∀ (tags : List String) (t : String),
        t ∉ removeTag t tags
        ∧ List.Sublist (removeTag t tags) tags
        ∧ (∀ x : String, x ≠ t → (removeTag t tags).count x = tags.count x)
        ∧ (∀ x : String, x ∈ removeTag t tags ↔ x ∈ tags ∧ x ≠ t)) := by
  refine ⟨fun calls => nodup_foldl_applyTagCall calls [] List.nodup_nil, ?_, ?_, ?_⟩
  · intro tags tag hmem
    simp [addTag, hmem]
  · intro tags tag hne hnot
    simp [addTag, hne, hnot]
  · intro tags t
    refine ⟨?_, List.filter_sublist _, ?_, ?_⟩
    · intro hmem
      have h := (List.mem_filter.mp hmem).2
      simp at h
    · intro x hx
      exact List.count_filter (decide_eq_true hx)
    · intro x
      simp [removeTag, List.mem_filter]

theorem tag_list_invariant_witness :
    ("b" : String) ≠ "" ∧ "b" ∉ ["a"]
    ∧ addTag ["a"] "b" ["a"] = ["a", "b"]
    ∧ addTag ["a", "b"] "a" ["a", "b"] = ["a", "b"]
    ∧ (runTagCalls [TagCall.addTag "a", TagCall.addTag "b", TagCall.addTag "a",
        TagCall.removeTag "a", TagCall.addTag "a"]).Nodup :=
  ⟨by decide, by decide, tag_list_invariant.2.2.1 ["a"] "b" (by decide) (by decide),
    tag_list_invariant.2.1 ["a", "b"] "a" (by decide), tag_list_invariant.1 _⟩

/-- C28 (failing input): the store holds one expense whose notes are null and
whose tag array is empty, and the search term, the category filter and the date
filter are all empty; the filter callback rejects the expense and the filtered
list is empty. -/
theorem filteredExpenses_drops_bare_expense :
    bareExpense.notes = none ∧ bareExpense.tags = some []
    ∧ expenseMatches "" "" "" bareExpense = false
    ∧ filteredExpenses sortByAmount [bareExpense] "" "" "" = []
    ∧ bareExpense ∉ filteredExpenses sortByAmount [bareExpense] "" "" "" := by
  have hmatch : expenseMatches "" "" "" bareExpense = false := by
    simp [expenseMatches, bareExpense]
  have hlist : filteredExpenses sortByAmount [bareExpense] "" "" "" = [] := by
    simp [filteredExpenses, sortByAmount, List.filter_cons, hmatch]
  refine ⟨rfl, rfl, hmatch, hlist, ?_⟩
  rw [hlist]
  exact List.not_mem_nil _

/-! ## Savings suggestions: number of category suggestions -/

theorem categoryEntries_eq (subscriptions : List Subscription) (expenses : List Expense) :
    (savingsSuggestionItems subscriptions expenses).filterMap Suggestion.categoryEntry
      = (((expenses.map expenseCategory).eraseDups).filter
          (fun k => decide (categorySum expenses k
            > (expenses.map (fun e => e.amount)).sum * 0.3))).map
        (fun k => (k, categorySum expenses k)) := by
  rw [savingsSuggestionItems_eq, List.filterMap_append, List.filterMap_map]
  have hfirst : (if (subscriptions.filter
        (fun sub => sub.is_active && decide (sub.cost > 500))).length > 0
      then
        [Suggestion.reviewSubscriptions
          (subscriptions.filter (fun sub => sub.is_active && decide (sub.cost > 500))).length
          (((subscriptions.filter
            (fun sub => sub.is_active && decide (sub.cost > 500))).map annualCost).sum)]
      else []).filterMap Suggestion.categoryEntry = [] := by
    split <;> rfl
  have hcomp : (Suggestion.categoryEntry
        ∘ fun k : String => Suggestion.reduceCategory k (categorySum expenses k))
      = (some ∘ fun k : String => (k, categorySum expenses k)) := rfl
  rw [hfirst, List.nil_append, hcomp, List.filterMap_eq_map]

theorem categorySum_nonneg (expenses : List Expense) (k : String)
    (hpos : ∀ e ∈ expenses, 0 < e.amount) : 0 ≤ categorySum expenses k := by
  rw [categorySum]
  apply List.sum_nonneg
  intro x hx
  obtain ⟨e, he, hxe⟩ := List.mem_map.mp hx
  rw [← hxe]
  exact le_of_lt (hpos e (List.mem_filter.mp he).1)

theorem sum_categorySum_keys (expenses : List Expense) :
    (((expenses.map expenseCategory).eraseDups).map (categorySum expenses)).sum
      = (expenses.map (fun e => e.amount)).sum := by
  have hsum := sum_values_foldl_addExpenseToTotals expenses []
  rw [← calculateTotalsByCategory, calculateTotalsByCategory_eq, List.map_map] at hsum
  simp only [List.map_nil, List.sum_nil, zero_add] at hsum
  rw [← hsum]
  rfl

theorem sum_filter_le_sum (l : List String) (f : String → ℚ) (p : String → Bool)
    (hf : ∀ k ∈ l, 0 ≤ f k) : ((l.filter p).map f).sum ≤ (l.map f).sum := by
  induction l with
  | nil => simp
  | cons k rest ih =>
      have hrest := ih (fun x hx => hf x (List.mem_cons_of_mem _ hx))
      have hk := hf k (List.mem_cons_self _ _)
      cases hp : p k
      · simp only [List.filter_cons, hp, List.map_cons, List.sum_cons]
        simp only [Bool.false_eq_true, if_false]
        linarith
      · simp only [List.filter_cons, hp, if_true, List.map_cons, List.sum_cons]
        linarith

theorem length_mul_le_sum (l : List String) (f : String → ℚ) (c : ℚ)
    (hf : ∀ k ∈ l, c ≤ f k) : (l.length : ℚ) * c ≤ (l.map f).sum := by
  induction l with
  | nil => simp
  | cons k rest ih =>
      have hrest := ih (fun x hx => hf x (List.mem_cons_of_mem _ hx))
      have hk := hf k (List.mem_cons_self _ _)
      simp only [List.length_cons, List.map_cons, List.sum_cons]
      push_cast
      linarith

theorem sum_amounts_pos (expenses : List Expense) (hne : expenses ≠ [])
    (hpos : ∀ e ∈ expenses, 0 < e.amount) : 0 < (expenses.map (fun e => e.amount)).sum := by
  cases expenses with
  | nil => exact absurd rfl hne
  | cons e rest =>
      have hrest : 0 ≤ (rest.map (fun e => e.amount)).sum := by
        apply List.sum_nonneg
        intro x hx
        obtain ⟨e2, he2, hx2⟩ := List.mem_map.mp hx
        rw [← hx2]
        exact le_of_lt (hpos e2 (List.mem_cons_of_mem _ he2))
      have hhead := hpos e (List.mem_cons_self _ _)
      simp only [List.map_cons, List.sum_cons]
      linarith

/-- C29: for a list of expenses whose amounts are all positive,
generateSavingsSuggestions emits at most 3 category suggestions, and for an
empty expense list it emits no category suggestion. -/
theorem category_suggestions_at_most_three (subscriptions : List Subscription)
    (expenses : List Expense) (hpos : ∀ e ∈ expenses, 0 < e.amount) :
    ((savingsSuggestionItems subscriptions expenses).filterMap
        Suggestion.categoryEntry).length ≤ 3
    ∧ (generateSavingsSuggestions subscriptions expenses).length ≤ 4
    ∧ (savingsSuggestionItems subscriptions []).filterMap Suggestion.categoryEntry = [] := by
  have hempty : (savingsSuggestionItems subscriptions []).filterMap Suggestion.categoryEntry
      = [] := by
    rw [categoryEntries_eq]
    rfl
  have hthree : ((savingsSuggestionItems subscriptions expenses).filterMap
      Suggestion.categoryEntry).length ≤ 3 := by
    by_cases hne : expenses = []
    · rw [hne, hempty]
      simp
    · rw [categoryEntries_eq, List.length_map]
      have htotal := sum_amounts_pos expenses hne hpos
      have hle := sum_filter_le_sum ((expenses.map expenseCategory).eraseDups)
        (categorySum expenses)
        (fun k => decide (categorySum expenses k
          > (expenses.map (fun e => e.amount)).sum * 0.3))
        (fun k _ => categorySum_nonneg expenses k hpos)
      have hge := length_mul_le_sum
        (((expenses.map expenseCategory).eraseDups).filter
          (fun k => decide (categorySum expenses k
            > (expenses.map (fun e => e.amount)).sum * 0.3)))
        (categorySum expenses) ((expenses.map (fun e => e.amount)).sum * 0.3)
        (fun k hk => le_of_lt (by simpa using (List.mem_filter.mp hk).2))
      rw [sum_categorySum_keys] at hle
      by_contra hgt
      have hfour : (4 : ℚ) ≤ ((((expenses.map expenseCategory).eraseDups).filter
          (fun k => decide (categorySum expenses k
            > (expenses.map (fun e => e.amount)).sum * 0.3))).length : ℚ) := by
        exact_mod_cast Nat.lt_of_not_le hgt
      have hmul : (4 : ℚ) * ((expenses.map (fun e => e.amount)).sum * 0.3)
          ≤ (expenses.map (fun e => e.amount)).sum :=
        le_trans (le_trans (mul_le_mul_of_nonneg_right hfour (by positivity)) hge) hle
      norm_num at hmul
      linarith
  refine ⟨hthree, ?_, hempty⟩
  rw [generateSavingsSuggestions, List.length_map, savingsSuggestionItems_eq,
    List.length_append]
  have hcat := hthree
  rw [categoryEntries_eq, List.length_map] at hcat
  rw [List.length_map]
  have hfirst : (if (subscriptions.filter
        (fun sub => sub.is_active && decide (sub.cost > 500))).length > 0
      then
        [Suggestion.reviewSubscriptions
          (subscriptions.filter (fun sub => sub.is_active && decide (sub.cost > 500))).length
          (((subscriptions.filter
            (fun sub => sub.is_active && decide (sub.cost > 500))).map annualCost).sum)]
      else []).length ≤ 1 := by
    split <;> simp
  omega

theorem category_suggestions_at_most_three_witness :
    (∀ e ∈ sampleExpenses, 0 < e.amount)
    ∧ ((savingsSuggestionItems sampleSubscriptions sampleExpenses).filterMap
        Suggestion.categoryEntry).length ≤ 3 := by
  have hpos : ∀ e ∈ sampleExpenses, 0 < e.amount := by
    intro e he
    simp only [sampleExpenses, List.mem_cons, List.mem_singleton, List.not_mem_nil,
      or_false] at he
    rcases he with h | h | h | h <;> rw [h] <;> norm_num [expenseIn]
  exact ⟨hpos, (category_suggestions_at_most_three sampleSubscriptions sampleExpenses hpos).1⟩

/-! ## Budget colour: claim -/

/-- C30: for every amount and every budget limit other than zero, the colour
chosen by getColorForBudget from the unclamped ratio agrees with the status
that getBudgetStatus computes from the ratio clamped at 100: red exactly when
the status is "danger", yellow exactly when "warning", green exactly when
"safe". -/
theorem getColorForBudget_agrees (amount b : ℚ) (hb : b ≠ 0) :
    (getColorForBudget amount (some b) = some "text-red-600"
        ↔ getBudgetStatus amount (some b) = some "danger")
    ∧ (getColorForBudget amount (some b) = some "text-yellow-600"
        ↔ getBudgetStatus amount (some b) = some "warning")
    ∧ (getColorForBudget amount (some b) = some "text-green-600"
        ↔ getBudgetStatus amount (some b) = some "safe") := by
  have hcolor : getColorForBudget amount (some b)
      = some (if amount / b * 100 ≥ 100 then "text-red-600"
          else if amount / b * 100 ≥ 80 then "text-yellow-600" else "text-green-600") := by
    simp [getColorForBudget, jsDiv, hb]
  have hstatus : getBudgetStatus amount (some b)
      = some (if min (amount / b * 100) 100 ≥ 100 then "danger"
          else if min (amount / b * 100) 100 ≥ 80 then "warning" else "safe") := by
    simp [getBudgetStatus, calculateBudgetPercentage_of_ne_zero amount b hb]
  have h100 : min (amount / b * 100) 100 ≥ 100 ↔ amount / b * 100 ≥ 100 := by
    simp [ge_iff_le, le_min_iff]
  have h80 : min (amount / b * 100) 100 ≥ 80 ↔ amount / b * 100 ≥ 80 := by
    rw [ge_iff_le, le_min_iff]
    constructor
    · intro h
      exact h.1
    · intro h
      exact ⟨h, by norm_num⟩
  rw [hcolor, hstatus]
  by_cases hd : amount / b * 100 ≥ 100
  · have hd2 := h100.mpr hd
    rw [if_pos hd, if_pos hd2]
    simp
  · have hd2 : ¬ min (amount / b * 100) 100 ≥ 100 := fun h => hd (h100.mp h)
    rw [if_neg hd, if_neg hd2]
    by_cases hw : amount / b * 100 ≥ 80
    · have hw2 := h80.mpr hw
      rw [if_pos hw, if_pos hw2]
      simp
    · have hw2 : ¬ min (amount / b * 100) 100 ≥ 80 := fun h => hw (h80.mp h)
      rw [if_neg hw, if_neg hw2]
      simp

theorem getColorForBudget_agrees_witness :
    (1000 : ℚ) ≠ 0
    ∧ (getColorForBudget 1200 (some 1000) = some "text-red-600"
        ↔ getBudgetStatus 1200 (some 1000) = some "danger") :=
  ⟨by norm_num, (getColorForBudget_agrees 1200 1000 (by norm_num)).1⟩

/-! ## Double-precision arithmetic: lemmas -/

theorem roundHalfEven_of_near (x : ℚ) (m : Int) (hlow : (m : ℚ) - 1 / 2 < x)
    (hhigh : x < (m : ℚ) + 1 / 2) : roundHalfEven x = m := by
  by_cases hx : (m : ℚ) ≤ x
  · have hfloor : Int.floor x = m := by
      rw [Int.floor_eq_iff]
      exact ⟨hx, by linarith⟩
    have hfrac : x - (m : ℚ) < 1 / 2 := by linarith
    simp only [roundHalfEven, hfloor, hfrac, if_true]
  · have hfloor : Int.floor x = m - 1 := by
      rw [Int.floor_eq_iff]
      push_cast
      exact ⟨by linarith, by linarith [not_le.mp hx]⟩
    have hnot : ¬ x - ((m - 1 : Int) : ℚ) < 1 / 2 := by
      push_cast
      linarith
    have hfrac : 1 / 2 < x - ((m - 1 : Int) : ℚ) := by
      push_cast
      linarith [not_le.mp hx]
    simp only [roundHalfEven, hfloor, hnot, hfrac, if_false, if_true]
    omega

theorem roundHalfEven_intCast (m : Int) : roundHalfEven (m : ℚ) = m :=
  roundHalfEven_of_near _ m (by linarith) (by linarith)

theorem roundHalfEven_tie_even (m : Int) (heven : m % 2 = 0) :
    roundHalfEven ((m : ℚ) + 1 / 2) = m := by
  have hfloor : Int.floor ((m : ℚ) + 1 / 2) = m := by
    rw [Int.floor_eq_iff]
    exact ⟨by linarith, by linarith⟩
  have h1 : ¬ (m : ℚ) + 1 / 2 - (m : ℚ) < 1 / 2 := by
    norm_num
  have h2 : ¬ 1 / 2 < (m : ℚ) + 1 / 2 - (m : ℚ) := by
    norm_num
  simp only [roundHalfEven, hfloor, h1, h2, heven, if_false, if_true]

theorem roundHalfEven_mono (x y : ℚ) (hxy : x ≤ y) : roundHalfEven x ≤ roundHalfEven y := by
  have hfloor := Int.floor_le_floor hxy
  have hx0 := Int.floor_le x
  have hx1 := Int.lt_floor_add_one x
  have hy0 := Int.floor_le y
  have hy1 := Int.lt_floor_add_one y
  rcases lt_or_eq_of_le hfloor with hlt | heq
  · unfold roundHalfEven
    split_ifs <;> omega
  · have hcast : ((Int.floor x : Int) : ℚ) = ((Int.floor y : Int) : ℚ) := by rw [heq]
    unfold roundHalfEven
    split_ifs <;> first
      | omega
      | (exfalso; linarith)

theorem log_two_eq (x : ℚ) (e : Int) (hx : 0 < x) (hlow : (2 : ℚ) ^ e ≤ x)
    (hhigh : x < (2 : ℚ) ^ (e + 1)) : Int.log 2 x = e := by
  have h1 : e ≤ Int.log 2 x := by
    rw [← Int.zpow_le_iff_le_log (by norm_num) hx]
    exact_mod_cast hlow
  have h2 : Int.log 2 x < e + 1 := by
    rw [← Int.lt_zpow_iff_log_lt (by norm_num) hx]
    exact_mod_cast hhigh
  omega

theorem zpow_log_two_le (x : ℚ) (hx : 0 < x) : (2 : ℚ) ^ Int.log 2 x ≤ x := by
  have h := Int.zpow_log_le_self (b := 2) (by norm_num) hx
  exact_mod_cast h

theorem lt_zpow_log_two_succ (x : ℚ) : x < (2 : ℚ) ^ (Int.log 2 x + 1) := by
  have h := Int.lt_zpow_succ_log_self (b := 2) (by norm_num) x
  exact_mod_cast h

theorem two_zpow_pos (e : Int) : (0 : ℚ) < (2 : ℚ) ^ e :=
  zpow_pos (by norm_num) e

theorem two_zpow_split (e : Int) : (2 : ℚ) ^ e = 2 ^ (52 : Int) * 2 ^ (e - 52) := by
  rw [← zpow_add₀ (by norm_num : (2 : ℚ) ≠ 0)]
  congr 1
  omega

theorem two_zpow_succ (e : Int) : (2 : ℚ) ^ (e + 1) = 2 ^ (53 : Int) * 2 ^ (e - 52) := by
  rw [← zpow_add₀ (by norm_num : (2 : ℚ) ≠ 0)]
  congr 1
  omega

/-- The significand before rounding lies between 2^52 and 2^53. -/
theorem significand_bounds (x : ℚ) (hx : 0 < x) :
    (2 : ℚ) ^ (52 : Int) ≤ x / 2 ^ (Int.log 2 x - 52)
    ∧ x / 2 ^ (Int.log 2 x - 52) < 2 ^ (53 : Int) := by
  have hu := two_zpow_pos (Int.log 2 x - 52)
  have hlow := zpow_log_two_le x hx
  have hhigh := lt_zpow_log_two_succ x
  rw [two_zpow_split] at hlow
  rw [two_zpow_succ] at hhigh
  exact ⟨(le_div_iff₀ hu).mpr hlow, (div_lt_iff₀ hu).mpr hhigh⟩

theorem roundPositive_of_binade (x : ℚ) (e : Int) (hx : 0 < x) (hlow : (2 : ℚ) ^ e ≤ x)
    (hhigh : x < (2 : ℚ) ^ (e + 1)) :
    roundPositive x = (roundHalfEven (x / 2 ^ (e - 52)) : ℚ) * 2 ^ (e - 52) := by
  rw [roundPositive, log_two_eq x e hx hlow hhigh]

theorem roundDouble_of_pos (x : ℚ) (hx : 0 < x) : roundDouble x = roundPositive x := by
  simp [roundDouble, hx]

theorem roundDouble_zero : roundDouble 0 = 0 := by
  simp [roundDouble]

/-- Evaluation of a rounding: the binade of the value and an integer within
half a unit of the scaled value. -/
theorem roundDouble_of_near (x : ℚ) (e m : Int) (hx : 0 < x) (hlow : (2 : ℚ) ^ e ≤ x)
    (hhigh : x < (2 : ℚ) ^ (e + 1)) (hmlow : (m : ℚ) - 1 / 2 < x / 2 ^ (e - 52))
    (hmhigh : x / 2 ^ (e - 52) < (m : ℚ) + 1 / 2) :
    roundDouble x = (m : ℚ) * 2 ^ (e - 52) := by
  rw [roundDouble_of_pos x hx, roundPositive_of_binade x e hx hlow hhigh,
    roundHalfEven_of_near _ m hmlow hmhigh]

/-- Evaluation of a rounding at a tie. -/
theorem roundDouble_of_tie (x : ℚ) (e m : Int) (hx : 0 < x) (hlow : (2 : ℚ) ^ e ≤ x)
    (hhigh : x < (2 : ℚ) ^ (e + 1)) (htie : x / 2 ^ (e - 52) = (m : ℚ) + 1 / 2)
    (heven : m % 2 = 0) : roundDouble x = (m : ℚ) * 2 ^ (e - 52) := by
  rw [roundDouble_of_pos x hx, roundPositive_of_binade x e hx hlow hhigh, htie,
    roundHalfEven_tie_even m heven]

/-- A value with a 53-bit significand is a double. -/
theorem roundDouble_of_significand (k j : Int) (hklow : (2 : Int) ^ 52 ≤ k)
    (hkhigh : k < (2 : Int) ^ 53) : roundDouble ((k : ℚ) * 2 ^ j) = (k : ℚ) * 2 ^ j := by
  have hu := two_zpow_pos j
  have hk0 : (0 : ℚ) < (k : ℚ) := by
    have h : (0 : Int) < k := by omega
    exact_mod_cast h
  have hkl : (2 : ℚ) ^ (52 : Int) ≤ (k : ℚ) := by
    have h : ((2 : Int) ^ 52 : Int) ≤ k := hklow
    exact_mod_cast h
  have hkh : (k : ℚ) < (2 : ℚ) ^ (53 : Int) := by
    have h : k < ((2 : Int) ^ 53 : Int) := hkhigh
    exact_mod_cast h
  have hx : (0 : ℚ) < (k : ℚ) * 2 ^ j := mul_pos hk0 hu
  have hsplit : (2 : ℚ) ^ (j + 52) = 2 ^ (52 : Int) * 2 ^ j := by
    rw [← zpow_add₀ (by norm_num : (2 : ℚ) ≠ 0)]
    congr 1
    omega
  have hsucc : (2 : ℚ) ^ (j + 52 + 1) = 2 ^ (53 : Int) * 2 ^ j := by
    rw [← zpow_add₀ (by norm_num : (2 : ℚ) ≠ 0)]
    congr 1
    omega
  have hlow : (2 : ℚ) ^ (j + 52) ≤ (k : ℚ) * 2 ^ j := by
    rw [hsplit]
    exact mul_le_mul_of_nonneg_right hkl (le_of_lt hu)
  have hhigh : (k : ℚ) * 2 ^ j < (2 : ℚ) ^ (j + 52 + 1) := by
    rw [hsucc]
    exact mul_lt_mul_of_pos_right hkh hu
  have hexp : j + 52 - 52 = j := by omega
  have hdiv : (k : ℚ) * 2 ^ j / 2 ^ j = (k : ℚ) := by
    field_simp
  have h := roundDouble_of_near ((k : ℚ) * 2 ^ j) (j + 52) k hx hlow hhigh
  rw [hexp, hdiv] at h
  exact h (by linarith) (by linarith)

theorem roundHalfEven_significand_bounds (x : ℚ) (hx : 0 < x) :
    (2 : Int) ^ 52 ≤ roundHalfEven (x / 2 ^ (Int.log 2 x - 52))
    ∧ roundHalfEven (x / 2 ^ (Int.log 2 x - 52)) ≤ (2 : Int) ^ 53 := by
  obtain ⟨hlow, hhigh⟩ := significand_bounds x hx
  have h52 : (((2 : Int) ^ 52 : Int) : ℚ) = (2 : ℚ) ^ (52 : Int) := by norm_num
  have h53 : (((2 : Int) ^ 53 : Int) : ℚ) = (2 : ℚ) ^ (53 : Int) := by norm_num
  constructor
  · have h := roundHalfEven_mono _ _ (h52 ▸ hlow)
    rwa [roundHalfEven_intCast] at h
  · have h := roundHalfEven_mono _ _ (h53 ▸ le_of_lt hhigh)
    rwa [roundHalfEven_intCast] at h

/-- A rounded positive value stays in the closed binade of the value. -/
theorem roundPositive_range (x : ℚ) (hx : 0 < x) :
    (2 : ℚ) ^ Int.log 2 x ≤ roundPositive x
    ∧ roundPositive x ≤ (2 : ℚ) ^ (Int.log 2 x + 1) := by
  obtain ⟨hlow, hhigh⟩ := roundHalfEven_significand_bounds x hx
  have hu := two_zpow_pos (Int.log 2 x - 52)
  have hl : (2 : ℚ) ^ (52 : Int) ≤ (roundHalfEven (x / 2 ^ (Int.log 2 x - 52)) : ℚ) := by
    have h : (((2 : Int) ^ 52 : Int) : ℚ)
        ≤ (roundHalfEven (x / 2 ^ (Int.log 2 x - 52)) : ℚ) := by exact_mod_cast hlow
    norm_num at h ⊢
    exact h
  have hh : (roundHalfEven (x / 2 ^ (Int.log 2 x - 52)) : ℚ) ≤ (2 : ℚ) ^ (53 : Int) := by
    have h : (roundHalfEven (x / 2 ^ (Int.log 2 x - 52)) : ℚ)
        ≤ (((2 : Int) ^ 53 : Int) : ℚ) := by exact_mod_cast hhigh
    norm_num at h ⊢
    exact h
  rw [two_zpow_split (Int.log 2 x), two_zpow_succ (Int.log 2 x), roundPositive]
  exact ⟨mul_le_mul_of_nonneg_right hl (le_of_lt hu),
    mul_le_mul_of_nonneg_right hh (le_of_lt hu)⟩

theorem roundPositive_pos (x : ℚ) (hx : 0 < x) : 0 < roundPositive x :=
  lt_of_lt_of_le (two_zpow_pos _) (roundPositive_range x hx).1

theorem roundPositive_mono (x y : ℚ) (hx : 0 < x) (hxy : x ≤ y) :
    roundPositive x ≤ roundPositive y := by
  have hy : 0 < y := lt_of_lt_of_le hx hxy
  have hlog := Int.log_mono_right (b := 2) hx hxy
  rcases lt_or_eq_of_le hlog with hlt | heq
  · have h1 := (roundPositive_range x hx).2
    have h2 := (roundPositive_range y hy).1
    have h3 : (2 : ℚ) ^ (Int.log 2 x + 1) ≤ (2 : ℚ) ^ Int.log 2 y :=
      zpow_le_zpow_right₀ (by norm_num) (by omega)
    linarith
  · have hu := two_zpow_pos (Int.log 2 y - 52)
    rw [roundPositive, roundPositive, heq]
    have hdiv : x / 2 ^ (Int.log 2 y - 52) ≤ y / 2 ^ (Int.log 2 y - 52) :=
      div_le_div_of_nonneg_right hxy (le_of_lt hu)
    have hround := roundHalfEven_mono _ _ hdiv
    have hcast : (roundHalfEven (x / 2 ^ (Int.log 2 y - 52)) : ℚ)
        ≤ (roundHalfEven (y / 2 ^ (Int.log 2 y - 52)) : ℚ) := by exact_mod_cast hround
    exact mul_le_mul_of_nonneg_right hcast (le_of_lt hu)

/-- Rounding is monotone on the values that are not negative. -/
theorem roundDouble_mono (x y : ℚ) (hx : 0 ≤ x) (hxy : x ≤ y) :
    roundDouble x ≤ roundDouble y := by
  rcases lt_or_eq_of_le hx with hpos | hzero
  · have hy : 0 < y := lt_of_lt_of_le hpos hxy
    rw [roundDouble_of_pos x hpos, roundDouble_of_pos y hy]
    exact roundPositive_mono x y hpos hxy
  · rw [← hzero, roundDouble_zero]
    rcases lt_or_eq_of_le (hzero ▸ hxy : (0 : ℚ) ≤ y) with hy | hy
    · rw [roundDouble_of_pos y hy]
      exact le_of_lt (roundPositive_pos y hy)
    · rw [← hy, roundDouble_zero]

theorem roundDouble_nonneg (x : ℚ) (hx : 0 ≤ x) : 0 ≤ roundDouble x := by
  have h := roundDouble_mono 0 x (le_refl 0) hx
  rwa [roundDouble_zero] at h

/-- A positive double is an integer significand of 53 bits times the spacing of
its binade. -/
theorem isDouble_significand (x : ℚ) (hx : 0 < x) (hdouble : IsDouble x) :
    ∃ k : Int, x = (k : ℚ) * 2 ^ (Int.log 2 x - 52) ∧ (2 : Int) ^ 52 ≤ k
      ∧ k < (2 : Int) ^ 53 := by
  have hu := two_zpow_pos (Int.log 2 x - 52)
  have hround : roundPositive x = x := by
    rw [← roundDouble_of_pos x hx]
    exact hdouble
  obtain ⟨hlow, _⟩ := roundHalfEven_significand_bounds x hx
  refine ⟨roundHalfEven (x / 2 ^ (Int.log 2 x - 52)), ?_, hlow, ?_⟩
  · rw [roundPositive] at hround
    exact hround.symm
  · have hx53 := (significand_bounds x hx).2
    have hk : (roundHalfEven (x / 2 ^ (Int.log 2 x - 52)) : ℚ)
        = x / 2 ^ (Int.log 2 x - 52) := by
      rw [roundPositive] at hround
      rw [eq_div_iff (ne_of_gt hu)]
      exact hround
    have hlt : (roundHalfEven (x / 2 ^ (Int.log 2 x - 52)) : ℚ) < (2 : ℚ) ^ (53 : Int) := by
      rw [hk]
      exact hx53
    have hcast : (roundHalfEven (x / 2 ^ (Int.log 2 x - 52)) : ℚ)
        < (((2 : Int) ^ 53 : Int) : ℚ) := by
      norm_num at hlt ⊢
      exact hlt
    exact_mod_cast hcast

/-- Two doubles that differ are apart by at least one part in 2^53 of the
larger one. -/
theorem isDouble_gap (s l : ℚ) (hs : 0 < s) (hsl : s < l) (hsd : IsDouble s)
    (hld : IsDouble l) : s ≤ l * (1 - 2 ^ (-53 : Int)) := by
  have hl : 0 < l := lt_trans hs hsl
  obtain ⟨ks, hks, _, hks53⟩ := isDouble_significand s hs hsd
  obtain ⟨kl, hkl, _, _⟩ := isDouble_significand l hl hld
  have hlog := Int.log_mono_right (b := 2) hs (le_of_lt hsl)
  have hlhigh := lt_zpow_log_two_succ l
  have hllow := zpow_log_two_le l hl
  have hul := two_zpow_pos (Int.log 2 l - 52)
  have hq : (1 : ℚ) - 2 ^ (-53 : Int) = (2 ^ (53 : Int) - 1) / 2 ^ (53 : Int) := by
    norm_num
  rcases lt_or_eq_of_le hlog with hlt | heq
  · -- the binade of s lies below the binade of l
    have hks' : (ks : ℚ) ≤ 2 ^ (53 : Int) - 1 := by
      have h : ks ≤ (2 : Int) ^ 53 - 1 := by omega
      have hc : (ks : ℚ) ≤ (((2 : Int) ^ 53 - 1 : Int) : ℚ) := by exact_mod_cast h
      norm_num at hc ⊢
      exact hc
    have hus := two_zpow_pos (Int.log 2 s - 52)
    have hstep : (2 : ℚ) ^ (Int.log 2 s + 1) ≤ (2 : ℚ) ^ Int.log 2 l :=
      zpow_le_zpow_right₀ (by norm_num) (by omega)
    have hsucc := two_zpow_succ (Int.log 2 s)
    have hsle : s ≤ (2 ^ (53 : Int) - 1) * 2 ^ (Int.log 2 s - 52) := by
      have h := mul_le_mul_of_nonneg_right hks' (le_of_lt hus)
      rw [← hks] at h
      exact h
    have hbound : (2 ^ (53 : Int) - 1) * (2 : ℚ) ^ (Int.log 2 s - 52)
        ≤ l * (1 - 2 ^ (-53 : Int)) := by
      have h1 : (2 : ℚ) ^ (53 : Int) * 2 ^ (Int.log 2 s - 52) ≤ l := by
        rw [← hsucc]
        exact le_trans hstep hllow
      rw [hq]
      have h53 : (0 : ℚ) < 2 ^ (53 : Int) := two_zpow_pos 53
      rw [mul_div_assoc', le_div_iff₀ h53]
      have h2 : (0 : ℚ) ≤ 2 ^ (53 : Int) - 1 := by norm_num
      calc (2 ^ (53 : Int) - 1) * (2 : ℚ) ^ (Int.log 2 s - 52) * 2 ^ (53 : Int)
          = (2 ^ (53 : Int) - 1) * (2 ^ (53 : Int) * (2 : ℚ) ^ (Int.log 2 s - 52)) := by ring
        _ ≤ (2 ^ (53 : Int) - 1) * l := mul_le_mul_of_nonneg_left h1 h2
        _ = l * (2 ^ (53 : Int) - 1) := by ring
    exact le_trans hsle hbound
  · -- same binade: the significands differ by at least one
    rw [heq] at hks
    have hklt : ks < kl := by
      have h : (ks : ℚ) * 2 ^ (Int.log 2 l - 52) < (kl : ℚ) * 2 ^ (Int.log 2 l - 52) := by
        rw [← hks, ← hkl]
        exact hsl
      have h2 : (ks : ℚ) < (kl : ℚ) := lt_of_mul_lt_mul_right h (le_of_lt hul)
      exact_mod_cast h2
    have hkle : (ks : ℚ) ≤ (kl : ℚ) - 1 := by
      have h : ks ≤ kl - 1 := by omega
      exact_mod_cast h
    have hsle : s ≤ l - 2 ^ (Int.log 2 l - 52) := by
      have h := mul_le_mul_of_nonneg_right hkle (le_of_lt hul)
      rw [← hks] at h
      have hexp : ((kl : ℚ) - 1) * 2 ^ (Int.log 2 l - 52)
          = l - 2 ^ (Int.log 2 l - 52) := by
        rw [sub_mul, one_mul, ← hkl]
      rw [hexp] at h
      exact h
    have hsucc := two_zpow_succ (Int.log 2 l)
    have hspacing : l * 2 ^ (-53 : Int) ≤ (2 : ℚ) ^ (Int.log 2 l - 52) := by
      have h1 : l ≤ 2 ^ (53 : Int) * (2 : ℚ) ^ (Int.log 2 l - 52) := by
        rw [← hsucc]
        exact le_of_lt hlhigh
      have h2 : l * 2 ^ (-53 : Int)
          ≤ 2 ^ (53 : Int) * (2 : ℚ) ^ (Int.log 2 l - 52) * 2 ^ (-53 : Int) :=
        mul_le_mul_of_nonneg_right h1 (le_of_lt (two_zpow_pos _))
      have h3 : (2 : ℚ) ^ (53 : Int) * (2 : ℚ) ^ (Int.log 2 l - 52) * 2 ^ (-53 : Int)
          = (2 : ℚ) ^ (Int.log 2 l - 52) := by
        have h4 : (2 : ℚ) ^ (53 : Int) * 2 ^ (-53 : Int) = 1 := by norm_num
        calc (2 : ℚ) ^ (53 : Int) * (2 : ℚ) ^ (Int.log 2 l - 52) * 2 ^ (-53 : Int)
            = (2 : ℚ) ^ (53 : Int) * 2 ^ (-53 : Int) * (2 : ℚ) ^ (Int.log 2 l - 52) := by
              ring
          _ = (2 : ℚ) ^ (Int.log 2 l - 52) := by rw [h4, one_mul]
      rw [h3] at h2
      exact h2
    have hexpand : l * (1 - 2 ^ (-53 : Int)) = l - l * 2 ^ (-53 : Int) := by ring
    rw [hexpand]
    linarith

/-! ## Budget status in double precision: lemmas -/

theorem isDouble_of_significand (x : ℚ) (k j : Int) (hx : x = (k : ℚ) * 2 ^ j)
    (hklow : (2 : Int) ^ 52 ≤ k) (hkhigh : k < (2 : Int) ^ 53) : IsDouble x := by
  rw [IsDouble, hx]
  exact roundDouble_of_significand k j hklow hkhigh

theorem isDouble_one : IsDouble 1 :=
  isDouble_of_significand 1 4503599627370496 (-52) (by norm_num) (by norm_num) (by norm_num)

theorem isDouble_eighty : IsDouble 80 :=
  isDouble_of_significand 80 5629499534213120 (-46) (by norm_num) (by norm_num) (by norm_num)

theorem isDouble_hundred : IsDouble 100 :=
  isDouble_of_significand 100 7036874417766400 (-46) (by norm_num) (by norm_num)
    (by norm_num)

/-- The largest double below 1. -/
theorem isDouble_pred_one : IsDouble (1 - 2 ^ (-53 : Int)) :=
  isDouble_of_significand _ 9007199254740991 (-53) (by norm_num) (by norm_num) (by norm_num)

/-- A hundred times the largest double below 1 rounds below 100. -/
theorem roundDouble_pred_one_mul_hundred :
    roundDouble ((1 - 2 ^ (-53 : Int)) * 100) = 7036874417766399 * 2 ^ (-46 : Int) := by
  have h := roundDouble_of_near ((1 - 2 ^ (-53 : Int)) * 100) 6 7036874417766399
    (by norm_num) (by norm_num) (by norm_num) (by norm_num) (by norm_num)
  norm_num at h ⊢
  exact h

/-- The double written 0.8 is the value four fifths rounded up. -/
theorem roundDouble_four_fifths :
    roundDouble (4 / 5) = 7205759403792794 * 2 ^ (-53 : Int) := by
  have h := roundDouble_of_near (4 / 5) (-1) 7205759403792794
    (by norm_num) (by norm_num) (by norm_num) (by norm_num) (by norm_num)
  norm_num at h ⊢
  exact h

theorem calculateBudgetPercentageDouble_of_ne_zero (spent b : ℚ) (hb : b ≠ 0) :
    calculateBudgetPercentageDouble spent (some b)
      = some (min (roundDouble (roundDouble (spent / b) * 100)) 100) := by
  simp [calculateBudgetPercentageDouble, doubleDiv, doubleMul, jsDiv, hb]

/-- The computed percentage reaches 100 exactly when the spending reaches the
limit. -/
theorem hundred_le_percentageDouble_iff (s l : ℚ) (hs : 0 ≤ s) (hl : 0 < l)
    (hsd : IsDouble s) (hld : IsDouble l) :
    100 ≤ min (roundDouble (roundDouble (s / l) * 100)) 100 ↔ l ≤ s := by
  rw [le_min_iff]
  constructor
  · rintro ⟨h, _⟩
    by_contra hlt
    have hsl : s < l := not_le.mp hlt
    have hquot : roundDouble (s / l) ≤ 1 - 2 ^ (-53 : Int) := by
      rcases lt_or_eq_of_le hs with hpos | hzero
      · have hgap := isDouble_gap s l hpos hsl hsd hld
        have hdiv : s / l ≤ 1 - 2 ^ (-53 : Int) := by
          rw [div_le_iff₀ hl]
          linarith
        have hmono := roundDouble_mono _ _ (le_of_lt (div_pos hpos hl)) hdiv
        rwa [isDouble_pred_one] at hmono
      · rw [← hzero, zero_div, roundDouble_zero]
        norm_num
    have hnonneg : 0 ≤ roundDouble (s / l) :=
      roundDouble_nonneg _ (div_nonneg hs (le_of_lt hl))
    have hprod : roundDouble (s / l) * 100 ≤ (1 - 2 ^ (-53 : Int)) * 100 :=
      mul_le_mul_of_nonneg_right hquot (by norm_num)
    have hmono := roundDouble_mono _ _ (mul_nonneg hnonneg (by norm_num)) hprod
    rw [roundDouble_pred_one_mul_hundred] at hmono
    have hbelow : (7036874417766399 : ℚ) * 2 ^ (-46 : Int) < 100 := by norm_num
    linarith
  · intro hle
    refine ⟨?_, le_refl _⟩
    have hdiv : (1 : ℚ) ≤ s / l := by
      rw [le_div_iff₀ hl]
      linarith
    have hquot := roundDouble_mono 1 (s / l) (by norm_num) hdiv
    rw [isDouble_one] at hquot
    have hprod : (100 : ℚ) ≤ roundDouble (s / l) * 100 := by linarith
    have hmono := roundDouble_mono 100 _ (by norm_num) hprod
    rwa [isDouble_hundred] at hmono

/-- The computed percentage reaches 80 whenever the spending reaches four
fifths of the limit. -/
theorem eighty_le_percentageDouble (s l : ℚ) (hl : 0 < l) (hsl : 4 / 5 * l ≤ s) :
    80 ≤ min (roundDouble (roundDouble (s / l) * 100)) 100 := by
  rw [le_min_iff]
  refine ⟨?_, by norm_num⟩
  have hdiv : (4 / 5 : ℚ) ≤ s / l := by
    rw [le_div_iff₀ hl]
    exact hsl
  have hquot := roundDouble_mono (4 / 5) (s / l) (by norm_num) hdiv
  rw [roundDouble_four_fifths] at hquot
  have hup : (4 / 5 : ℚ) ≤ 7205759403792794 * 2 ^ (-53 : Int) := by norm_num
  have hprod : (80 : ℚ) ≤ roundDouble (s / l) * 100 := by linarith
  have hmono := roundDouble_mono 80 _ (by norm_num) hprod
  rwa [isDouble_eighty] at hmono

/-! ## Budget status in double precision: claim -/

theorem getBudgetStatusDouble_of_pos (s l : ℚ) (hl : 0 < l) :
    getBudgetStatusDouble s (some l)
      = some (if 100 ≤ min (roundDouble (roundDouble (s / l) * 100)) 100 then "danger"
          else if 80 ≤ min (roundDouble (roundDouble (s / l) * 100)) 100 then "warning"
          else "safe") := by
  simp [getBudgetStatusDouble, calculateBudgetPercentageDouble_of_ne_zero s l (ne_of_gt hl)]

/-- C8 (counterexample): the spending is the double 2.4 and the limit is 3. The
quotient rounds to 0.7999999999999999 and its product with 100 rounds to
exactly 80, so the status is "warning", while the spending is below 0.8 times
the limit. -/
theorem getBudgetStatus_counterexample :
    IsDouble doubleTwoPointFour ∧ IsDouble 3
    ∧ (0 : ℚ) ≤ doubleTwoPointFour ∧ (0 : ℚ) < 3
    ∧ calculateBudgetPercentageDouble doubleTwoPointFour (some 3) = some 80
    ∧ getBudgetStatusDouble doubleTwoPointFour (some 3) = some "warning"
    ∧ doubleTwoPointFour < 0.8 * 3
    ∧ ¬ (0.8 * 3 ≤ doubleTwoPointFour ∧ doubleTwoPointFour < 3) := by
  have hquot : roundDouble (doubleTwoPointFour / 3)
      = 7205759403792793 * 2 ^ (-53 : Int) := by
    have h := roundDouble_of_near (doubleTwoPointFour / 3) (-1) 7205759403792793
      (by norm_num [doubleTwoPointFour]) (by norm_num [doubleTwoPointFour])
      (by norm_num [doubleTwoPointFour]) (by norm_num [doubleTwoPointFour])
      (by norm_num [doubleTwoPointFour])
    norm_num at h ⊢
    exact h
  have hprod : roundDouble (7205759403792793 * 2 ^ (-53 : Int) * 100) = 80 := by
    have h := roundDouble_of_near (7205759403792793 * 2 ^ (-53 : Int) * 100) 6
      5629499534213120 (by norm_num) (by norm_num) (by norm_num) (by norm_num)
      (by norm_num)
    norm_num at h ⊢
    exact h
  have hpct : calculateBudgetPercentageDouble doubleTwoPointFour (some 3) = some 80 := by
    rw [calculateBudgetPercentageDouble_of_ne_zero _ _ (by norm_num), hquot, hprod]
    norm_num
  refine ⟨?_, ?_, by norm_num [doubleTwoPointFour], by norm_num, hpct, ?_,
    by norm_num [doubleTwoPointFour], ?_⟩
  · exact isDouble_of_significand _ 5404319552844595 (-51)
      (by norm_num [doubleTwoPointFour]) (by norm_num) (by norm_num)
  · exact isDouble_of_significand _ 6755399441055744 (-51) (by norm_num) (by norm_num)
      (by norm_num)
  · rw [getBudgetStatusDouble, hpct]
    norm_num
  · rintro ⟨h, _⟩
    norm_num [doubleTwoPointFour] at h

/-- C8 (amended): for doubles s, not negative, and l, above 0,
getBudgetStatus(s, l) is "danger" exactly when s is at least l; it is "warning"
whenever s is at least 0.8 l and below l, and "warning" only when s is below l;
it is "safe" only when s is below 0.8 l. The three statuses are exhaustive and
mutually exclusive. (A spending a rounding error below 0.8 l can be "warning"
as well, the test being made on the rounded percentage.) -/
theorem getBudgetStatusDouble_thresholds (s l : ℚ) (hs : 0 ≤ s) (hl : 0 < l)
    (hsd : IsDouble s) (hld : IsDouble l) :
    (getBudgetStatusDouble s (some l) = some "danger" ↔ l ≤ s)
    ∧ (0.8 * l ≤ s → s < l → getBudgetStatusDouble s (some l) = some "warning")
    ∧ (getBudgetStatusDouble s (some l) = some "warning" → s < l)
    ∧ (getBudgetStatusDouble s (some l) = some "safe" → s < 0.8 * l)
    ∧ (getBudgetStatusDouble s (some l) = some "danger"
        ∨ getBudgetStatusDouble s (some l) = some "warning"
        ∨ getBudgetStatusDouble s (some l) = some "safe")
    ∧ ¬ (getBudgetStatusDouble s (some l) = some "danger"
        ∧ getBudgetStatusDouble s (some l) = some "warning")
    ∧ ¬ (getBudgetStatusDouble s (some l) = some "danger"
        ∧ getBudgetStatusDouble s (some l) = some "safe")
    ∧ ¬ (getBudgetStatusDouble s (some l) = some "warning"
        ∧ getBudgetStatusDouble s (some l) = some "safe") := by
  have h100 := hundred_le_percentageDouble_iff s l hs hl hsd hld
  have h80 : 0.8 * l ≤ s → 80 ≤ min (roundDouble (roundDouble (s / l) * 100)) 100 := by
    intro h
    apply eighty_le_percentageDouble s l hl
    norm_num at h ⊢
    linarith
  rw [getBudgetStatusDouble_of_pos s l hl]
  by_cases hd : l ≤ s
  · have h1 : 100 ≤ min (roundDouble (roundDouble (s / l) * 100)) 100 := h100.mpr hd
    have h2 : ¬ s < l := not_lt.mpr hd
    simp [h1, hd, h2]
  · have h1 : ¬ 100 ≤ min (roundDouble (roundDouble (s / l) * 100)) 100 :=
      fun h => hd (h100.mp h)
    have hlt : s < l := not_le.mp hd
    by_cases hw : 80 ≤ min (roundDouble (roundDouble (s / l) * 100)) 100
    · simp [h1, hw, hd, hlt]
    · have hsafe : ¬ 0.8 * l ≤ s := fun h => hw (h80 h)
      simp [h1, hw, hd, hsafe, not_le.mp hsafe]

theorem getBudgetStatusDouble_thresholds_witness :
    (0 : ℚ) ≤ 850 ∧ (0 : ℚ) < 1000 ∧ IsDouble 850 ∧ IsDouble 1000
    ∧ (0.8 : ℚ) * 1000 ≤ 850 ∧ (850 : ℚ) < 1000
    ∧ getBudgetStatusDouble 850 (some 1000) = some "warning" := by
  have h850 : IsDouble 850 :=
    isDouble_of_significand 850 7476679068876800 (-43) (by norm_num) (by norm_num)
      (by norm_num)
  have h1000 : IsDouble 1000 :=
    isDouble_of_significand 1000 8796093022208000 (-43) (by norm_num) (by norm_num)
      (by norm_num)
  exact ⟨by norm_num, by norm_num, h850, h1000, by norm_num, by norm_num,
    (getBudgetStatusDouble_thresholds 850 1000 (by norm_num) (by norm_num) h850 h1000).2.1
      (by norm_num) (by norm_num)⟩

/-! ## Savings suggestions in double precision: lemmas -/

theorem keys_foldl_addExpenseToTotalsDouble (es : List Expense) (acc : List (String × ℚ)) :
    (es.foldl addExpenseToTotalsDouble acc).map Prod.fst
      = List.eraseDups.loop (es.map expenseCategory) (acc.map Prod.fst).reverse := by
  induction es generalizing acc with
  | nil => simp [List.eraseDups.loop]
  | cons e rest ih =>
      rw [List.foldl_cons, ih, addExpenseToTotalsDouble, keys_objSet, List.map_cons,
        List.eraseDups.loop]
      by_cases hmem : expenseCategory e ∈ acc.map Prod.fst
      · have helem : List.elem (expenseCategory e) (acc.map Prod.fst).reverse = true := by
          simpa using hmem
        simp only [hmem, if_true, helem]
      · have helem : List.elem (expenseCategory e) (acc.map Prod.fst).reverse = false := by
          simpa using hmem
        simp only [hmem, if_false, helem, List.reverse_append, List.reverse_cons,
          List.reverse_nil, List.nil_append, List.singleton_append]

theorem lookup_foldl_addExpenseToTotalsDouble (es : List Expense) (acc : List (String × ℚ))
    (k : String) :
    numOrZero ((es.foldl addExpenseToTotalsDouble acc).lookup k)
      = ((es.filter (fun e => decide (expenseCategory e = k))).map
          (fun e => e.amount)).foldl doubleAdd (numOrZero (acc.lookup k)) := by
  induction es generalizing acc with
  | nil => simp
  | cons e rest ih =>
      rw [List.foldl_cons, ih, addExpenseToTotalsDouble, lookup_objSet]
      by_cases h : expenseCategory e = k
      · subst h
        simp [numOrZero_some, List.filter_cons]
      · have h2 : ¬ k = expenseCategory e := fun hk => h hk.symm
        simp [h, h2, List.filter_cons]

/-- The totals object in double precision, entry by entry: the categories in the
order of their first occurrence, each with its accumulated total. -/
theorem calculateTotalsByCategoryDouble_eq (expenses : List Expense) :
    calculateTotalsByCategoryDouble expenses
      = ((expenses.map expenseCategory).eraseDups).map
          (fun k => (k, categoryTotalDouble expenses k)) := by
  have hkeys : (calculateTotalsByCategoryDouble expenses).map Prod.fst
      = (expenses.map expenseCategory).eraseDups := by
    rw [calculateTotalsByCategoryDouble, keys_foldl_addExpenseToTotalsDouble]
    rfl
  have hnodup : ((calculateTotalsByCategoryDouble expenses).map Prod.fst).Nodup := by
    rw [hkeys]
    exact nodup_eraseDups _
  have hentries := entries_eq_map_keys (calculateTotalsByCategoryDouble expenses) hnodup
  rw [hkeys] at hentries
  rw [hentries]
  apply List.map_congr_left
  intro k _
  have hv := lookup_foldl_addExpenseToTotalsDouble expenses [] k
  simp only [List.lookup_nil] at hv
  rw [calculateTotalsByCategoryDouble, hv]
  simp [numOrZero, categoryTotalDouble]

/-- The suggestions in double precision, in closed form. -/
theorem savingsSuggestionItemsDouble_eq (subscriptions : List Subscription)
    (expenses : List Expense) :
    savingsSuggestionItemsDouble subscriptions expenses
      = savingsSuggestionItemsDouble subscriptions []
        ++ (((expenses.map expenseCategory).eraseDups).filter
              (fun k => decide (categoryTotalDouble expenses k
                > doubleMul (totalExpensesDouble expenses) doubleThreeTenths))).map
            (fun k => Suggestion.reduceCategory k (categoryTotalDouble expenses k)) := by
  have hempty : calculateTotalsByCategoryDouble [] = [] := rfl
  have htotal : ((calculateTotalsByCategoryDouble expenses).map Prod.snd).foldl
        (fun sum amount => doubleAdd sum amount) 0
      = totalExpensesDouble expenses := by
    rw [calculateTotalsByCategoryDouble_eq, List.map_map, totalExpensesDouble]
    rfl
  unfold savingsSuggestionItemsDouble
  simp only [hempty, List.foldl_nil]
  rw [foldl_push_category, htotal, calculateTotalsByCategoryDouble_eq]
  simp [List.filter_map, List.map_map, Function.comp_def]

theorem savingsSuggestionItemsDouble_nil_subscriptions (expenses : List Expense) :
    savingsSuggestionItemsDouble [] expenses
      = (((expenses.map expenseCategory).eraseDups).filter
            (fun k => decide (categoryTotalDouble expenses k
              > doubleMul (totalExpensesDouble expenses) doubleThreeTenths))).map
          (fun k => Suggestion.reduceCategory k (categoryTotalDouble expenses k)) := by
  rw [savingsSuggestionItemsDouble_eq]
  rfl

theorem savingsSuggestionItemsDouble_nil_expenses (subscriptions : List Subscription) :
    (savingsSuggestionItemsDouble subscriptions []).length ≤ 1
    ∧ ∀ s ∈ savingsSuggestionItemsDouble subscriptions [], s.isReviewSubscriptions = true := by
  have hempty : calculateTotalsByCategoryDouble [] = [] := rfl
  unfold savingsSuggestionItemsDouble
  simp only [hempty, List.foldl_nil]
  split
  · exact ⟨by simp, fun s hs => by rw [List.mem_singleton.mp hs]; rfl⟩
  · exact ⟨by simp, fun s hs => absurd hs (List.not_mem_nil s)⟩

/-! ## Double-precision arithmetic: whole numbers -/

theorem roundDouble_nat_mul_zpow (n : Nat) (j : Int) (hn : n < 2 ^ 53) :
    roundDouble ((n : ℚ) * 2 ^ j) = (n : ℚ) * 2 ^ j := by
  rcases Nat.eq_zero_or_pos n with hzero | hpos
  · subst hzero
    simp [roundDouble_zero]
  · have hne : n ≠ 0 := Nat.pos_iff_ne_zero.mp hpos
    have hlow := Nat.pow_log_le_self 2 hne
    have hhigh := Nat.lt_pow_succ_log_self (by norm_num : 1 < 2) n
    have hlog : Nat.log 2 n ≤ 52 := by
      by_contra hcon
      have h53 : 53 ≤ Nat.log 2 n := by omega
      have hpow : 2 ^ 53 ≤ 2 ^ Nat.log 2 n := Nat.pow_le_pow_right (by norm_num) h53
      omega
    obtain ⟨s, hs⟩ : ∃ s : Nat, Nat.log 2 n + s = 52 := ⟨52 - Nat.log 2 n, by omega⟩
    have hklow : 2 ^ 52 ≤ n * 2 ^ s := by
      calc 2 ^ 52 = 2 ^ Nat.log 2 n * 2 ^ s := by rw [← pow_add, hs]
        _ ≤ n * 2 ^ s := Nat.mul_le_mul_right _ hlow
    have hkhigh : n * 2 ^ s < 2 ^ 53 := by
      calc n * 2 ^ s < 2 ^ (Nat.log 2 n).succ * 2 ^ s :=
            Nat.mul_lt_mul_of_pos_right hhigh (by positivity)
        _ = 2 ^ 53 := by
            rw [← pow_add]
            congr 1
            omega
    have hrewrite : (n : ℚ) * 2 ^ j = (((n * 2 ^ s : Nat) : Int) : ℚ) * 2 ^ (j - (s : Int)) := by
      rw [zpow_sub₀ (by norm_num : (2 : ℚ) ≠ 0), zpow_natCast]
      push_cast
      field_simp
      ring
    rw [hrewrite]
    apply roundDouble_of_significand
    · exact_mod_cast hklow
    · exact_mod_cast hkhigh

theorem roundDouble_natCast (n : Nat) (hn : n < 2 ^ 53) : roundDouble (n : ℚ) = (n : ℚ) := by
  have h := roundDouble_nat_mul_zpow n 0 hn
  simpa using h

theorem doubleAdd_natCast (a b : Nat) (h : a + b < 2 ^ 53) :
    doubleAdd (a : ℚ) (b : ℚ) = ((a + b : Nat) : ℚ) := by
  rw [doubleAdd, ← Nat.cast_add]
  exact roundDouble_natCast (a + b) h

/-! ## Savings suggestions in double precision: evaluation -/

theorem doubleThreeTenths_eq : doubleThreeTenths = 5404319552844595 / 18014398509481984 := by
  have h := roundDouble_of_near (3 / 10) (-2) 5404319552844595 (by norm_num) (by norm_num)
    (by norm_num) (by norm_num) (by norm_num)
  rw [doubleThreeTenths, h]
  norm_num

theorem doubleAdd_zero_left (x : ℚ) (hx : IsDouble x) : doubleAdd 0 x = x := by
  rw [doubleAdd, zero_add]
  exact hx

theorem twoCategoryExpenses_totals (a b : ℚ) (ha : IsDouble a) (hb : IsDouble b) :
    ((twoCategoryExpenses a b).map expenseCategory).eraseDups = ["food", "transport"]
    ∧ categoryTotalDouble (twoCategoryExpenses a b) "food" = a
    ∧ categoryTotalDouble (twoCategoryExpenses a b) "transport" = b
    ∧ totalExpensesDouble (twoCategoryExpenses a b) = doubleAdd a b := by
  have h1 : ("food" : String) ≠ "" := by decide
  have h2 : ("transport" : String) ≠ "" := by decide
  have h3 : ("food" : String) ≠ "transport" := by decide
  have hcats : (twoCategoryExpenses a b).map expenseCategory = ["food", "transport"] := by
    simp [twoCategoryExpenses, expenseIn, expenseCategory, jsOrDefault, h1, h2]
  have hdups : (["food", "transport"] : List String).eraseDups = ["food", "transport"] := by
    decide
  have hfood : categoryTotalDouble (twoCategoryExpenses a b) "food" = a := by
    simp [categoryTotalDouble, twoCategoryExpenses, expenseIn, expenseCategory, jsOrDefault,
      List.filter_cons, h1, h2, h3, h3.symm, doubleAdd_zero_left a ha]
  have htransport : categoryTotalDouble (twoCategoryExpenses a b) "transport" = b := by
    simp [categoryTotalDouble, twoCategoryExpenses, expenseIn, expenseCategory, jsOrDefault,
      List.filter_cons, h1, h2, h3, h3.symm, doubleAdd_zero_left b hb]
  refine ⟨by rw [hcats, hdups], hfood, htransport, ?_⟩
  rw [totalExpensesDouble, hcats, hdups]
  simp only [List.map_cons, List.map_nil, List.foldl_cons, List.foldl_nil, hfood, htransport,
    doubleAdd_zero_left a ha]

theorem isDouble_pointTwoSeven : IsDouble doublePointTwoSeven :=
  isDouble_of_significand _ 4863887597560136 (-54) (by norm_num [doublePointTwoSeven])
    (by norm_num) (by norm_num)

theorem isDouble_pointSixThree : IsDouble doublePointSixThree :=
  isDouble_of_significand _ 5674535530486825 (-53) (by norm_num [doublePointSixThree])
    (by norm_num) (by norm_num)

theorem isDouble_pointFourFive : IsDouble doublePointFourFive :=
  isDouble_of_significand _ 8106479329266893 (-54) (by norm_num [doublePointFourFive])
    (by norm_num) (by norm_num)

theorem isDouble_onePointZeroFive : IsDouble doubleOnePointZeroFive :=
  isDouble_of_significand _ 4728779608739021 (-52) (by norm_num [doubleOnePointZeroFive])
    (by norm_num) (by norm_num)

/-- The sum 0.27 + 0.63 is exact and the product of the sum with 0.3 rounds up
to 0.27. -/
theorem exactSplit_threshold :
    doubleAdd doublePointTwoSeven doublePointSixThree
        = doublePointTwoSeven + doublePointSixThree
    ∧ doubleMul (doubleAdd doublePointTwoSeven doublePointSixThree) doubleThreeTenths
        = doublePointTwoSeven := by
  have hsum : doubleAdd doublePointTwoSeven doublePointSixThree
      = doublePointTwoSeven + doublePointSixThree := by
    rw [doubleAdd]
    exact isDouble_of_significand _ 8106479329266893 (-53)
      (by norm_num [doublePointTwoSeven, doublePointSixThree]) (by norm_num) (by norm_num)
  refine ⟨hsum, ?_⟩
  rw [hsum, doubleMul, doubleThreeTenths_eq]
  have h := roundDouble_of_near
    ((doublePointTwoSeven + doublePointSixThree) * (5404319552844595 / 18014398509481984))
    (-2) 4863887597560136
    (by norm_num [doublePointTwoSeven, doublePointSixThree])
    (by norm_num [doublePointTwoSeven, doublePointSixThree])
    (by norm_num [doublePointTwoSeven, doublePointSixThree])
    (by norm_num [doublePointTwoSeven, doublePointSixThree])
    (by norm_num [doublePointTwoSeven, doublePointSixThree])
  rw [h]
  norm_num [doublePointTwoSeven]

/-- The sum 0.45 + 1.05 rounds to 1.5 and the product of 1.5 with 0.3, a tie,
rounds down to the double below 0.45. -/
theorem roundedSum_threshold :
    doubleAdd doublePointFourFive doubleOnePointZeroFive = 3 / 2
    ∧ doubleMul (doubleAdd doublePointFourFive doubleOnePointZeroFive) doubleThreeTenths
        = 8106479329266892 / 18014398509481984 := by
  have hsum : doubleAdd doublePointFourFive doubleOnePointZeroFive = 3 / 2 := by
    have h := roundDouble_of_near (doublePointFourFive + doubleOnePointZeroFive) 0
      6755399441055744
      (by norm_num [doublePointFourFive, doubleOnePointZeroFive])
      (by norm_num [doublePointFourFive, doubleOnePointZeroFive])
      (by norm_num [doublePointFourFive, doubleOnePointZeroFive])
      (by norm_num [doublePointFourFive, doubleOnePointZeroFive])
      (by norm_num [doublePointFourFive, doubleOnePointZeroFive])
    rw [doubleAdd, h]
    norm_num
  refine ⟨hsum, ?_⟩
  rw [hsum, doubleMul, doubleThreeTenths_eq]
  have h := roundDouble_of_tie (3 / 2 * (5404319552844595 / 18014398509481984)) (-2)
    8106479329266892 (by norm_num) (by norm_num) (by norm_num) (by norm_num) (by norm_num)
  rw [h]
  norm_num

theorem toFixed0_of_floor (x : ℚ) (n : Nat) (hx : 0 ≤ x) (hlow : (n : ℚ) ≤ x + 1 / 2)
    (hhigh : x + 1 / 2 < (n : ℚ) + 1) : toFixed0 x = toString n := by
  have hfloor : Int.floor (x + 1 / 2) = (n : Int) := by
    rw [Int.floor_eq_iff]
    exact ⟨by exact_mod_cast hlow, by exact_mod_cast hhigh⟩
  rw [toFixed0, if_neg (not_lt.mpr hx), hfloor, Int.toNat_natCast]

/-! ## Savings suggestions in double precision: whole amounts -/

/-- A value less than a quarter of the spacing below a positive double rounds to
that double. -/
theorem roundDouble_close_below (t x : ℚ) (ht : 0 < t) (htd : IsDouble t)
    (hlow : t * (1 - 2 ^ (-54 : Int)) < x) (hx : x ≤ t) : roundDouble x = t := by
  rcases eq_or_lt_of_le hx with heq | hlt
  · rw [heq]
    exact htd
  · obtain ⟨k, hk, hk52, hk53⟩ := isDouble_significand t ht htd
    generalize Int.log 2 t = e at hk
    have hu := two_zpow_pos (e - 52)
    have hlow2 : t - t * (1 / 18014398509481984) < x := by
      have h54 : (2 : ℚ) ^ (-54 : Int) = 1 / 18014398509481984 := by norm_num
      rw [h54] at hlow
      linarith
    have hkq53 : (k : ℚ) < 9007199254740992 := by
      have h : k < (9007199254740992 : Int) := by
        norm_num at hk53
        exact hk53
      exact_mod_cast h
    have hx0 : 0 < x := by
      have h1 : 0 < t * (1 - 1 / 18014398509481984) := by
        apply mul_pos ht
        norm_num
      linarith
    have he : (2 : ℚ) ^ e = 4503599627370496 * 2 ^ (e - 52) := by
      rw [two_zpow_split e]
      norm_num
    have he1 : (2 : ℚ) ^ (e + 1) = 9007199254740992 * 2 ^ (e - 52) := by
      rw [two_zpow_succ e]
      norm_num
    have hu2 : (2 : ℚ) ^ (e - 1 - 52) = 2 ^ (e - 52) / 2 := by
      have h : e - 1 - 52 = e - 52 - 1 := by omega
      rw [h, zpow_sub_one₀ (by norm_num : (2 : ℚ) ≠ 0)]
      ring
    have hem : (2 : ℚ) ^ (e - 1) = 2251799813685248 * 2 ^ (e - 52) := by
      have h : e - 1 = e - 52 + 51 := by omega
      rw [h, zpow_add₀ (by norm_num : (2 : ℚ) ≠ 0)]
      norm_num
      ring
    have hee : (2 : ℚ) ^ (e - 1 + 1) = 4503599627370496 * 2 ^ (e - 52) := by
      have h : e - 1 + 1 = e := by omega
      rw [h, he]
    obtain ⟨u, hud⟩ : ∃ u : ℚ, (2 : ℚ) ^ (e - 52) = u := ⟨_, rfl⟩
    rw [hud] at hk hu he he1 hu2 hem hee
    subst hk
    rcases eq_or_lt_of_le hk52 with hkeq | hkgt
    · have hkq : (k : ℚ) = 4503599627370496 := by
        rw [← hkeq]
        norm_num
      rw [hkq] at hlow2 hlt ⊢
      have hres := roundDouble_of_near x (e - 1) 9007199254740992 hx0
        (by rw [hem]; linarith) (by rw [hee]; exact hlt)
        (by
          rw [hu2, lt_div_iff₀ (by linarith)]
          push_cast
          linarith)
        (by
          rw [hu2, div_lt_iff₀ (by linarith)]
          push_cast
          linarith)
      rw [hres, hu2]
      push_cast
      ring
    · have hkq1 : (4503599627370496 : ℚ) + 1 ≤ (k : ℚ) := by
        have h : (4503599627370496 : Int) + 1 ≤ k := by
          norm_num at hkgt
          omega
        exact_mod_cast h
      have hlowx : ((k : ℚ) - 1 / 2) * u < x := by
        have h1 : (k : ℚ) * u * (1 / 18014398509481984) < u / 2 := by
          nlinarith
        nlinarith
      have hres := roundDouble_of_near x e k hx0
        (by
          rw [he]
          nlinarith)
        (by
          rw [he1]
          nlinarith)
        (by
          rw [hud, lt_div_iff₀ hu]
          exact hlowx)
        (by
          rw [hud, div_lt_iff₀ hu]
          nlinarith)
      rw [hres, hud]

/-- The test of generateSavingsSuggestions on whole numbers: for a category
total t and a grand total T, both whole and below 2^49, the comparison with
the rounded product is the comparison with three tenths of T. -/
theorem thirtyPercent_natCast (t T : Nat) (ht : t < 2 ^ 49) (hT : T < 2 ^ 49) :
    (t : ℚ) > doubleMul (T : ℚ) doubleThreeTenths ↔ (t : ℚ) > (T : ℚ) * 0.3 := by
  have hT0 : (0 : ℚ) ≤ (T : ℚ) := Nat.cast_nonneg T
  have htq : (t : ℚ) < 562949953421312 := by
    have h : t < 562949953421312 := by
      norm_num at ht
      exact ht
    exact_mod_cast h
  have hTq : (T : ℚ) < 562949953421312 := by
    have h : T < 562949953421312 := by
      norm_num at hT
      exact hT
    exact_mod_cast h
  have htd : IsDouble (t : ℚ) := roundDouble_natCast t (lt_trans ht (by norm_num))
  rw [doubleMul, doubleThreeTenths_eq]
  constructor
  · intro hgt
    by_contra hcon
    have hle : (t : ℚ) ≤ (T : ℚ) * 0.3 := not_lt.mp hcon
    have hround : (t : ℚ) ≤ roundDouble ((T : ℚ) * (5404319552844595 / 18014398509481984)) := by
      rcases Nat.eq_zero_or_pos t with hzero | hpos
      · subst hzero
        simpa using roundDouble_nonneg _ (by positivity)
      · have htpos : (0 : ℚ) < (t : ℚ) := by exact_mod_cast hpos
        by_cases hx : (t : ℚ) ≤ (T : ℚ) * (5404319552844595 / 18014398509481984)
        · have h := roundDouble_mono _ _ (le_of_lt htpos) hx
          rwa [htd] at h
        · have h := roundDouble_close_below (t : ℚ)
            ((T : ℚ) * (5404319552844595 / 18014398509481984)) htpos htd
            (by
              norm_num at hle ⊢
              linarith)
            (le_of_lt (not_le.mp hx))
          rw [h]
    exact absurd hgt (not_lt.mpr hround)
  · intro hgt
    have hnat : 3 * T + 1 ≤ 10 * t := by
      have h : ((3 * T : Nat) : ℚ) < ((10 * t : Nat) : ℚ) := by
        push_cast
        norm_num at hgt
        linarith
      have h2 : 3 * T < 10 * t := by exact_mod_cast h
      omega
    have hq : 3 * (T : ℚ) + 1 ≤ 10 * (t : ℚ) := by exact_mod_cast hnat
    have hpos : 0 < t := by omega
    have hbelow : IsDouble (((16 * t - 1 : Nat) : ℚ) * 2 ^ (-4 : Int)) :=
      roundDouble_nat_mul_zpow (16 * t - 1) (-4) (by
        have h : t < 562949953421312 := by
          norm_num at ht
          exact ht
        norm_num
        omega)
    have hcast : (((16 * t - 1 : Nat) : ℚ)) = 16 * (t : ℚ) - 1 := by
      have h : 1 ≤ 16 * t := by omega
      push_cast [Nat.cast_sub h]
      ring
    have hmono := roundDouble_mono ((T : ℚ) * (5404319552844595 / 18014398509481984))
      (((16 * t - 1 : Nat) : ℚ) * 2 ^ (-4 : Int)) (by positivity) (by
        rw [hcast]
        norm_num
        linarith)
    rw [hbelow, hcast] at hmono
    have hlt : (16 * (t : ℚ) - 1) * 2 ^ (-4 : Int) < (t : ℚ) := by
      norm_num
      linarith
    exact lt_of_le_of_lt hmono hlt

/-- Whole numbers are added without rounding as long as the sum stays below
2^53. -/
theorem foldl_doubleAdd_natCast (l : List ℚ) (hl : ∀ x ∈ l, ∃ n : Nat, x = (n : ℚ))
    (a : Nat) (h : (a : ℚ) + l.sum < 2 ^ 53) :
    l.foldl doubleAdd (a : ℚ) = (a : ℚ) + l.sum := by
  induction l generalizing a with
  | nil => simp
  | cons x rest ih =>
      obtain ⟨n, hn⟩ := hl x (List.mem_cons_self x rest)
      have hrest : ∀ y ∈ rest, ∃ m : Nat, y = (m : ℚ) :=
        fun y hy => hl y (List.mem_cons_of_mem x hy)
      have hnonneg : 0 ≤ rest.sum := by
        apply List.sum_nonneg
        intro y hy
        obtain ⟨m, hm⟩ := hrest y hy
        rw [hm]
        exact Nat.cast_nonneg m
      subst hn
      rw [List.sum_cons] at h
      have hsum : a + n < 2 ^ 53 := by
        have h2 : ((a + n : Nat) : ℚ) < ((2 ^ 53 : Nat) : ℚ) := by
          push_cast
          linarith
        exact_mod_cast h2
      rw [List.foldl_cons, doubleAdd_natCast a n hsum, ih hrest (a + n) (by
        push_cast
        linarith), List.sum_cons]
      push_cast
      ring

theorem sum_natCast (l : List ℚ) (hl : ∀ x ∈ l, ∃ n : Nat, x = (n : ℚ)) :
    ∃ n : Nat, l.sum = (n : ℚ) := by
  induction l with
  | nil => exact ⟨0, by simp⟩
  | cons x rest ih =>
      obtain ⟨n, hn⟩ := hl x (List.mem_cons_self x rest)
      obtain ⟨m, hm⟩ := ih (fun y hy => hl y (List.mem_cons_of_mem x hy))
      exact ⟨n + m, by rw [List.sum_cons, hn, hm]; push_cast; ring⟩

theorem categorySum_natCast (expenses : List Expense)
    (hwhole : ∀ e ∈ expenses, ∃ n : Nat, e.amount = (n : ℚ)) (k : String) :
    (∃ n : Nat, categorySum expenses k = (n : ℚ))
    ∧ categorySum expenses k ≤ (expenses.map (fun e => e.amount)).sum := by
  constructor
  · apply sum_natCast
    intro x hx
    obtain ⟨e, he, hxe⟩ := List.mem_map.mp hx
    rw [← hxe]
    exact hwhole e (List.mem_of_mem_filter he)
  · apply List.Sublist.sum_le_sum
    · exact List.Sublist.map _ (List.filter_sublist _)
    · intro x hx
      obtain ⟨e, he, hxe⟩ := List.mem_map.mp hx
      obtain ⟨n, hn⟩ := hwhole e he
      rw [← hxe, hn]
      exact Nat.cast_nonneg n

theorem sum_categorySum (expenses : List Expense) :
    (((expenses.map expenseCategory).eraseDups).map (categorySum expenses)).sum
      = (expenses.map (fun e => e.amount)).sum := by
  have h := totalExpenses_eq expenses
  rw [foldl_add_eq_sum (fun amount : ℚ => amount), List.map_id', zero_add,
    calculateTotalsByCategory_eq, List.map_map] at h
  exact h

/-- With whole amounts and a total below 2^53, the accumulated totals are the
exact sums. -/
theorem totalsDouble_natCast (expenses : List Expense)
    (hwhole : ∀ e ∈ expenses, ∃ n : Nat, e.amount = (n : ℚ))
    (hsum : (expenses.map (fun e => e.amount)).sum < 2 ^ 53) :
    (∀ k : String, categoryTotalDouble expenses k = categorySum expenses k)
    ∧ totalExpensesDouble expenses = (expenses.map (fun e => e.amount)).sum := by
  have hcat : ∀ k : String, categoryTotalDouble expenses k = categorySum expenses k := by
    intro k
    have h := foldl_doubleAdd_natCast
      ((expenses.filter (fun e => decide (expenseCategory e = k))).map (fun e => e.amount))
      (by
        intro x hx
        obtain ⟨e, he, hxe⟩ := List.mem_map.mp hx
        rw [← hxe]
        exact hwhole e (List.mem_of_mem_filter he))
      0 (by
        have hle := (categorySum_natCast expenses hwhole k).2
        rw [categorySum] at hle
        push_cast
        linarith)
    rw [categoryTotalDouble, categorySum]
    simpa using h
  refine ⟨hcat, ?_⟩
  have hmap : ((expenses.map expenseCategory).eraseDups).map (categoryTotalDouble expenses)
      = ((expenses.map expenseCategory).eraseDups).map (categorySum expenses) :=
    List.map_congr_left (fun k _ => hcat k)
  have h := foldl_doubleAdd_natCast
    (((expenses.map expenseCategory).eraseDups).map (categorySum expenses))
    (by
      intro x hx
      obtain ⟨k, _, hxk⟩ := List.mem_map.mp hx
      rw [← hxk]
      exact (categorySum_natCast expenses hwhole k).1)
    0 (by
      rw [sum_categorySum]
      push_cast
      linarith)
  rw [totalExpensesDouble, hmap]
  rw [sum_categorySum] at h
  simpa using h

/-- With whole amounts and a total below 2^49, the category suggestions are
those of the categories whose sum exceeds three tenths of the sum of all
amounts. -/
theorem savingsSuggestionItemsDouble_natCast (expenses : List Expense)
    (hwhole : ∀ e ∈ expenses, ∃ n : Nat, e.amount = (n : ℚ))
    (hsum : (expenses.map (fun e => e.amount)).sum < 2 ^ 49) :
    savingsSuggestionItemsDouble [] expenses
      = (((expenses.map expenseCategory).eraseDups).filter
            (fun k => decide (categorySum expenses k
              > (expenses.map (fun e => e.amount)).sum * 0.3))).map
          (fun k => Suggestion.reduceCategory k (categorySum expenses k)) := by
  have hsum53 : (expenses.map (fun e => e.amount)).sum < 2 ^ 53 :=
    lt_trans hsum (by norm_num)
  obtain ⟨hcat, htotal⟩ := totalsDouble_natCast expenses hwhole hsum53
  have hfun : (fun k => Suggestion.reduceCategory k (categoryTotalDouble expenses k))
      = (fun k => Suggestion.reduceCategory k (categorySum expenses k)) := by
    funext k
    rw [hcat k]
  have hpred : (fun k => decide (categoryTotalDouble expenses k
        > doubleMul (totalExpensesDouble expenses) doubleThreeTenths))
      = (fun k => decide (categorySum expenses k
        > (expenses.map (fun e => e.amount)).sum * 0.3)) := by
    funext k
    rw [hcat k, htotal]
    obtain ⟨t, ht⟩ := (categorySum_natCast expenses hwhole k).1
    obtain ⟨T, hT⟩ := sum_natCast (expenses.map (fun e => e.amount)) (by
      intro x hx
      obtain ⟨e, he, hxe⟩ := List.mem_map.mp hx
      rw [← hxe]
      exact hwhole e he)
    have hle := (categorySum_natCast expenses hwhole k).2
    rw [ht, hT] at hle
    rw [hT] at hsum
    have hTnat : T < 2 ^ 49 := by
      have h : ((T : Nat) : ℚ) < ((2 ^ 49 : Nat) : ℚ) := by
        push_cast
        exact hsum
      exact_mod_cast h
    have htnat : t < 2 ^ 49 := by
      have h : t ≤ T := by exact_mod_cast hle
      omega
    rw [ht, hT]
    exact decide_eq_decide.mpr (thirtyPercent_natCast t T htnat hTnat)
  rw [savingsSuggestionItemsDouble_nil_subscriptions, hfun, hpred]

/-! ## Savings suggestions in double precision: claim -/

theorem render_reduceCategory (category : String) (amount : ℚ) :
    Suggestion.render (Suggestion.reduceCategory category amount)
      = "Consider reducing spending on " ++ category ++ " where you've spent ₹"
        ++ toFixed0 amount ++ " this year" :=
  rfl

/-- The texts in double precision, in closed form: those for no expense at all,
then one text for each category that passes the test, in the order of first
occurrence. -/
theorem generateSavingsSuggestionsDouble_eq (subscriptions : List Subscription)
    (expenses : List Expense) :
    generateSavingsSuggestionsDouble subscriptions expenses
      = generateSavingsSuggestionsDouble subscriptions []
        ++ (((expenses.map expenseCategory).eraseDups).filter
            (fun k => decide (categoryTotalDouble expenses k
              > doubleMul (totalExpensesDouble expenses) doubleThreeTenths))).map
          (fun k => "Consider reducing spending on " ++ k ++ " where you've spent ₹"
            ++ toFixed0 (categoryTotalDouble expenses k) ++ " this year") := by
  rw [generateSavingsSuggestionsDouble, savingsSuggestionItemsDouble_eq, List.map_append,
    List.map_map]
  rfl

theorem twoCategoryExpenses_suggestions (a b threshold : ℚ) (ha : IsDouble a)
    (hb : IsDouble b) (hthreshold : doubleMul (doubleAdd a b) doubleThreeTenths = threshold) :
    generateSavingsSuggestionsDouble [] (twoCategoryExpenses a b)
      = ((["food", "transport"] : List String).filter
          (fun k => decide ((if k = "food" then a else b) > threshold))).map
          (fun k => "Consider reducing spending on " ++ k ++ " where you've spent ₹"
            ++ toFixed0 (if k = "food" then a else b) ++ " this year") := by
  obtain ⟨hdups, hfood, htransport, htotal⟩ := twoCategoryExpenses_totals a b ha hb
  have h3 : ("transport" : String) ≠ "food" := by decide
  have hempty : generateSavingsSuggestionsDouble [] [] = [] := rfl
  rw [generateSavingsSuggestionsDouble_eq, hempty, List.nil_append, hdups, htotal, hthreshold]
  simp only [List.filter_cons, List.filter_nil, hfood, htransport, h3, if_true, if_false]
  by_cases h1 : a > threshold
  · by_cases h2 : b > threshold
    · simp [h1, h2, hfood, htransport, h3]
    · simp [h1, h2, hfood, h3]
  · by_cases h2 : b > threshold
    · simp [h1, h2, htransport, h3]
    · simp [h1, h2]

/-- C13 (counterexample): two lists of expenses whose amounts are doubles.
(1) 0.27 under "food" and 0.63 under "transport": the two amounts add up
without rounding and the total of food strictly exceeds 30% of the total of
all amounts, yet the product of that total with 0.3 rounds up to the total of
food itself, the test fails, and transport alone gets a suggestion.
(2) 0.45 under "food" and 1.05 under "transport": the total of food does not
exceed 30% of the sum of the amounts, yet that sum rounds to 1.5, its product
with 0.3 rounds down, and food gets a suggestion. -/
theorem category_suggestions_counterexample :
    (∀ e ∈ exactSplitExpenses, IsDouble e.amount)
    ∧ categoryTotalDouble exactSplitExpenses "food" = categorySum exactSplitExpenses "food"
    ∧ totalExpensesDouble exactSplitExpenses
        = (exactSplitExpenses.map (fun e => e.amount)).sum
    ∧ categorySum exactSplitExpenses "food"
        > (exactSplitExpenses.map (fun e => e.amount)).sum * 0.3
    ∧ generateSavingsSuggestionsDouble [] exactSplitExpenses
        = ["Consider reducing spending on transport where you've spent ₹1 this year"]
    ∧ (∀ e ∈ roundedSumExpenses, IsDouble e.amount)
    ∧ categoryTotalDouble roundedSumExpenses "food" = categorySum roundedSumExpenses "food"
    ∧ ¬ categorySum roundedSumExpenses "food"
        > (roundedSumExpenses.map (fun e => e.amount)).sum * 0.3
    ∧ generateSavingsSuggestionsDouble [] roundedSumExpenses
        = ["Consider reducing spending on food where you've spent ₹0 this year",
          "Consider reducing spending on transport where you've spent ₹1 this year"] := by
  have h1 : ("food" : String) ≠ "" := by decide
  have h2 : ("transport" : String) ≠ "" := by decide
  have h3 : ("transport" : String) ≠ "food" := by decide
  have hsum : ∀ a b : ℚ, ((twoCategoryExpenses a b).map (fun e => e.amount)).sum = a + b := by
    intro a b
    simp [twoCategoryExpenses, expenseIn]
  have hfoodSum : ∀ a b : ℚ, categorySum (twoCategoryExpenses a b) "food" = a := by
    intro a b
    simp [categorySum, twoCategoryExpenses, expenseIn, expenseCategory, jsOrDefault,
      List.filter_cons, h1, h2, h3]
  have hdoubles : ∀ a b : ℚ, IsDouble a → IsDouble b →
      ∀ e ∈ twoCategoryExpenses a b, IsDouble e.amount := by
    intro a b ha hb e he
    simp only [twoCategoryExpenses, List.mem_cons, List.mem_singleton, List.not_mem_nil,
      or_false] at he
    rcases he with he | he
    · rw [he]
      exact ha
    · rw [he]
      exact hb
  have hexact := twoCategoryExpenses_totals doublePointTwoSeven doublePointSixThree
    isDouble_pointTwoSeven isDouble_pointSixThree
  have hrounded := twoCategoryExpenses_totals doublePointFourFive doubleOnePointZeroFive
    isDouble_pointFourFive isDouble_onePointZeroFive
  have hfixed1 : toFixed0 doublePointSixThree = "1" :=
    toFixed0_of_floor _ 1 (by norm_num [doublePointSixThree])
      (by norm_num [doublePointSixThree]) (by norm_num [doublePointSixThree])
  have hfixed2 : toFixed0 doublePointFourFive = "0" :=
    toFixed0_of_floor _ 0 (by norm_num [doublePointFourFive])
      (by norm_num [doublePointFourFive]) (by norm_num [doublePointFourFive])
  have hfixed3 : toFixed0 doubleOnePointZeroFive = "1" :=
    toFixed0_of_floor _ 1 (by norm_num [doubleOnePointZeroFive])
      (by norm_num [doubleOnePointZeroFive]) (by norm_num [doubleOnePointZeroFive])
  refine ⟨hdoubles _ _ isDouble_pointTwoSeven isDouble_pointSixThree, ?_, ?_, ?_, ?_,
    hdoubles _ _ isDouble_pointFourFive isDouble_onePointZeroFive, ?_, ?_, ?_⟩
  · rw [exactSplitExpenses, hexact.2.1, hfoodSum]
  · rw [exactSplitExpenses, hexact.2.2.2, hsum, exactSplit_threshold.1]
  · rw [exactSplitExpenses, hfoodSum, hsum]
    norm_num [doublePointTwoSeven, doublePointSixThree]
  · rw [exactSplitExpenses, twoCategoryExpenses_suggestions _ _ _ isDouble_pointTwoSeven
      isDouble_pointSixThree exactSplit_threshold.2]
    have hno : ¬ doublePointTwoSeven > doublePointTwoSeven := lt_irrefl _
    have hyes : doublePointSixThree > doublePointTwoSeven := by
      norm_num [doublePointTwoSeven, doublePointSixThree]
    simp only [List.filter_cons, List.filter_nil, h3, if_true, if_false, hno, hyes,
      decide_True, decide_False, Bool.false_eq_true, List.map_cons, List.map_nil, hfixed1]
    rfl
  · rw [roundedSumExpenses, hrounded.2.1, hfoodSum]
  · rw [roundedSumExpenses, hfoodSum, hsum]
    norm_num [doublePointFourFive, doubleOnePointZeroFive]
  · rw [roundedSumExpenses, twoCategoryExpenses_suggestions _ _ _ isDouble_pointFourFive
      isDouble_onePointZeroFive roundedSum_threshold.2]
    have hyes1 : doublePointFourFive > 8106479329266892 / 18014398509481984 := by
      norm_num [doublePointFourFive]
    have hyes2 : doubleOnePointZeroFive > 8106479329266892 / 18014398509481984 := by
      norm_num [doubleOnePointZeroFive]
    simp only [List.filter_cons, List.filter_nil, h3, if_true, if_false, hyes1, hyes2,
      decide_True, List.map_cons, List.map_nil, hfixed2, hfixed3]
    rfl

theorem sampleExpenses_whole :
    (∀ e ∈ sampleExpenses, ∃ n : Nat, e.amount = (n : ℚ))
    ∧ (sampleExpenses.map (fun e => e.amount)).sum < 2 ^ 49 := by
  constructor
  · intro e he
    simp only [sampleExpenses, List.mem_cons, List.mem_singleton, List.not_mem_nil,
      or_false] at he
    rcases he with he | he | he | he
    · exact ⟨100, by rw [he]; norm_num [expenseIn]⟩
    · exact ⟨20, by rw [he]; norm_num [expenseIn]⟩
    · exact ⟨50, by rw [he]; norm_num [expenseIn]⟩
    · exact ⟨30, by rw [he]; norm_num [expenseIn]⟩
  · norm_num [sampleExpenses, expenseIn]

theorem sampleExpenses_suggestions :
    (((sampleExpenses.map expenseCategory).eraseDups).filter
        (fun k => decide (categorySum sampleExpenses k
          > (sampleExpenses.map (fun e => e.amount)).sum * 0.3))).map
      (fun k => "Consider reducing spending on " ++ k ++ " where you've spent ₹"
        ++ toFixed0 (categorySum sampleExpenses k) ++ " this year")
      = ["Consider reducing spending on food where you've spent ₹150 this year"] := by
  have h1 : ("food" : String) ≠ "" := by decide
  have h2 : ("transport" : String) ≠ "" := by decide
  have h3 : ("food" : String) ≠ "transport" := by decide
  have h4 : ("food" : String) ≠ "other" := by decide
  have h5 : ("transport" : String) ≠ "other" := by decide
  have hcats : sampleExpenses.map expenseCategory = ["food", "transport", "food", "other"] := by
    simp [sampleExpenses, expenseIn, expenseCategory, jsOrDefault, h1, h2]
  have hdups : (["food", "transport", "food", "other"] : List String).eraseDups
      = ["food", "transport", "other"] := by
    decide
  have hfood : categorySum sampleExpenses "food" = 150 := by
    norm_num [categorySum, sampleExpenses, expenseIn, expenseCategory, jsOrDefault,
      List.filter_cons, h1, h2, h3, h4, h5, h3.symm, h4.symm, h5.symm]
  have htransport : categorySum sampleExpenses "transport" = 20 := by
    norm_num [categorySum, sampleExpenses, expenseIn, expenseCategory, jsOrDefault,
      List.filter_cons, h1, h2, h3, h4, h5, h3.symm, h4.symm, h5.symm]
  have hother : categorySum sampleExpenses "other" = 30 := by
    norm_num [categorySum, sampleExpenses, expenseIn, expenseCategory, jsOrDefault,
      List.filter_cons, h1, h2, h3, h4, h5, h3.symm, h4.symm, h5.symm]
  have hsum : (sampleExpenses.map (fun e => e.amount)).sum = 200 := by
    norm_num [sampleExpenses, expenseIn]
  have hyes : (150 : ℚ) > 200 * 0.3 := by norm_num
  have hno1 : ¬ (20 : ℚ) > 200 * 0.3 := by norm_num
  have hno2 : ¬ (30 : ℚ) > 200 * 0.3 := by norm_num
  have hfixed : toFixed0 150 = "150" :=
    toFixed0_of_floor 150 150 (by norm_num) (by norm_num) (by norm_num)
  rw [hcats, hdups, hsum]
  simp only [List.filter_cons, List.filter_nil, hfood, htransport, hother, hyes, hno1, hno2,
    decide_True, decide_False, Bool.false_eq_true, if_true, if_false, List.map_cons,
    List.map_nil, hfixed]
  rfl

/-- C13 (amended): in double precision, the texts of generateSavingsSuggestions
are those it gives for no expense at all (at most one text, the one about
subscriptions) followed by exactly one text for each category that passes the
test of the code and none for any other category, in the order in which the
categories first occur in the expense list. The test of a category is that its
total, the amounts added one by one in double precision, is strictly greater
than the rounded product by the double 0.3 of the total of all expenses, the
totals of the categories added one by one in double precision. The text of a
category is "Consider reducing spending on ", the category, " where you've
spent ₹", its total to 0 decimals, " this year". When all amounts are whole
numbers, not negative, that add up to less than 2^49, the test is the one of
the claim: the sum of the amounts of the category strictly exceeds 30% of the
sum of all amounts. With the expenses 100 food, 20 transport, 50 food and 30
without category the only text is the one of food, with 150. The output is the
same for identical inputs. -/
theorem category_suggestions_double (subscriptions : List Subscription)
    (expenses : List Expense) :
    generateSavingsSuggestionsDouble subscriptions expenses
        = generateSavingsSuggestionsDouble subscriptions []
          ++ (((expenses.map expenseCategory).eraseDups).filter
              (fun k => decide (categoryTotalDouble expenses k
                > doubleMul (totalExpensesDouble expenses) doubleThreeTenths))).map
            (fun k => "Consider reducing spending on " ++ k ++ " where you've spent ₹"
              ++ toFixed0 (categoryTotalDouble expenses k) ++ " this year")
    ∧ (generateSavingsSuggestionsDouble subscriptions []).length ≤ 1
    ∧ (∀ s ∈ savingsSuggestionItemsDouble subscriptions [], s.isReviewSubscriptions = true)
    ∧ (∀ (k : String) (a : ℚ),
        Suggestion.reduceCategory k a ∈ savingsSuggestionItemsDouble subscriptions expenses
          ↔ (∃ e ∈ expenses, expenseCategory e = k)
            ∧ categoryTotalDouble expenses k
                > doubleMul (totalExpensesDouble expenses) doubleThreeTenths
            ∧ a = categoryTotalDouble expenses k)
    ∧ ((expenses.map expenseCategory).eraseDups).Nodup
    ∧ (∀ k : String, k ∈ (expenses.map expenseCategory).eraseDups
        ↔ ∃ e ∈ expenses, expenseCategory e = k)
    ∧ (∀ (es : List Expense) (e : Expense),
        ((es ++ [e]).map expenseCategory).eraseDups
          = if expenseCategory e ∈ es.map expenseCategory
              then (es.map expenseCategory).eraseDups
              else (es.map expenseCategory).eraseDups ++ [expenseCategory e])
    ∧ ((∀ e ∈ expenses, ∃ n : Nat, e.amount = (n : ℚ)) →
        (expenses.map (fun e => e.amount)).sum < 2 ^ 49 →
        generateSavingsSuggestionsDouble subscriptions expenses
          = generateSavingsSuggestionsDouble subscriptions []
            ++ (((expenses.map expenseCategory).eraseDups).filter
                (fun k => decide (categorySum expenses k
                  > (expenses.map (fun e => e.amount)).sum * 0.3))).map
              (fun k => "Consider reducing spending on " ++ k ++ " where you've spent ₹"
                ++ toFixed0 (categorySum expenses k) ++ " this year"))
    ∧ generateSavingsSuggestionsDouble [] sampleExpenses
        = ["Consider reducing spending on food where you've spent ₹150 this year"]
    ∧ (∀ (subscriptions2 : List Subscription) (expenses2 : List Expense),
        subscriptions2 = subscriptions → expenses2 = expenses →
        generateSavingsSuggestionsDouble subscriptions2 expenses2
          = generateSavingsSuggestionsDouble subscriptions expenses) := by
  have hmem : ∀ k : String, k ∈ (expenses.map expenseCategory).eraseDups
      ↔ ∃ e ∈ expenses, expenseCategory e = k := by
    intro k
    rw [mem_eraseDups, List.mem_map]
  have hwholeEq : ∀ es : List Expense, (∀ e ∈ es, ∃ n : Nat, e.amount = (n : ℚ)) →
      (es.map (fun e => e.amount)).sum < 2 ^ 49 →
      (((es.map expenseCategory).eraseDups).filter
          (fun k => decide (categoryTotalDouble es k
            > doubleMul (totalExpensesDouble es) doubleThreeTenths))).map
        (fun k => "Consider reducing spending on " ++ k ++ " where you've spent ₹"
          ++ toFixed0 (categoryTotalDouble es k) ++ " this year")
      = (((es.map expenseCategory).eraseDups).filter
          (fun k => decide (categorySum es k
            > (es.map (fun e => e.amount)).sum * 0.3))).map
        (fun k => "Consider reducing spending on " ++ k ++ " where you've spent ₹"
          ++ toFixed0 (categorySum es k) ++ " this year") := by
    intro es hwhole hsum
    have hitems := savingsSuggestionItemsDouble_natCast es hwhole hsum
    rw [savingsSuggestionItemsDouble_nil_subscriptions] at hitems
    have htexts := congrArg (List.map Suggestion.render) hitems
    rw [List.map_map, List.map_map] at htexts
    exact htexts
  refine ⟨generateSavingsSuggestionsDouble_eq subscriptions expenses, ?_,
    (savingsSuggestionItemsDouble_nil_expenses subscriptions).2, ?_, nodup_eraseDups _, hmem,
    ?_, ?_, ?_, ?_⟩
  · rw [generateSavingsSuggestionsDouble, List.length_map]
    exact (savingsSuggestionItemsDouble_nil_expenses subscriptions).1
  · intro k a
    rw [savingsSuggestionItemsDouble_eq, List.mem_append]
    constructor
    · rintro (h | h)
      · have hreview := (savingsSuggestionItemsDouble_nil_expenses subscriptions).2 _ h
        simp [Suggestion.isReviewSubscriptions] at hreview
      · obtain ⟨k2, hk2, heq⟩ := List.mem_map.mp h
        simp only [Suggestion.reduceCategory.injEq] at heq
        rw [List.mem_filter, hmem] at hk2
        rw [← heq.1, ← heq.2]
        exact ⟨hk2.1, by simpa using hk2.2, rfl⟩
    · rintro ⟨hex, hgt, ha⟩
      refine Or.inr (List.mem_map.mpr ⟨k, ?_, by rw [ha]⟩)
      rw [List.mem_filter, hmem]
      exact ⟨hex, by simpa using hgt⟩
  · intro es e
    rw [List.map_append, List.map_cons, List.map_nil, eraseDups_concat]
  · intro hwhole hsum
    rw [generateSavingsSuggestionsDouble_eq, hwholeEq expenses hwhole hsum]
  · have hempty : generateSavingsSuggestionsDouble [] [] = [] := rfl
    rw [generateSavingsSuggestionsDouble_eq, hempty, List.nil_append,
      hwholeEq sampleExpenses sampleExpenses_whole.1 sampleExpenses_whole.2]
    exact sampleExpenses_suggestions
  · intro subscriptions2 expenses2 hs he
    rw [hs, he]

theorem category_suggestions_double_witness :
    (∀ e ∈ sampleExpenses, ∃ n : Nat, e.amount = (n : ℚ))
    ∧ (sampleExpenses.map (fun e => e.amount)).sum < 2 ^ 49
    ∧ generateSavingsSuggestionsDouble sampleSubscriptions sampleExpenses
        = generateSavingsSuggestionsDouble sampleSubscriptions []
          ++ ["Consider reducing spending on food where you've spent ₹150 this year"] := by
  refine ⟨sampleExpenses_whole.1, sampleExpenses_whole.2, ?_⟩
  rw [(category_suggestions_double sampleSubscriptions sampleExpenses).2.2.2.2.2.2.2.1
    sampleExpenses_whole.1 sampleExpenses_whole.2, sampleExpenses_suggestions]

end NBNExpenseTracker
